import Mathlib

/-!
# VC4C: literal evaluation of the VideoCore IV ALU opcodes

A shallow embedding of `src/asm/OpCodes.cpp` (flag model, opcode equality and
order, lookup by selector, the per-lane evaluator `calcLiteral`, the evaluator
`OpCode::operator()` on values, the algebraic-property predicates and tables,
the condition codes and the pack and unpack modifiers) and of
`src/Expression.cpp` (equality, hash and composition of expressions).

Conventions of the embedding

* A `Literal` is its 32-bit pattern, a natural number below `2^32`.
  `unsignedInt` reads the pattern, `signedInt` reads it in two's complement and
  `real()` is the pattern itself, read through the IEEE-754 binary32 predicates
  of the namespace `ieee`.
* C++ `uint32_t` arithmetic is arithmetic on `Nat` followed by `% 2^32`;
  `int32_t` arithmetic is arithmetic on `Int` wrapped by `u32`/`i32`
  (two's complement wrap-around, which is what the compiled code does where
  the C++ standard leaves signed overflow undefined).
* Rounding float arithmetic (`+`, `-`, `*`, conversions between float and
  integer) is a parameter of the evaluator, `FloatArith`; the pack and unpack
  modifiers take their float and half conversions as the parameter
  `FloatConv`. `FloatArith.ieee754` is the IEEE-754 single arithmetic that the
  specification names for FADD, FSUB and FMUL: exact results rounded to
  nearest, ties to even, and the default NaN for every NaN result. Comparison,
  `isnan`, `isinf`, `fabs`, `std::min`/`std::max` do not round and are modelled
  exactly on the bit pattern.
* A function that can `throw` returns `Except CompilationError`; `ok none` is
  the `NO_VALUE` of an `Optional`. The failures of the checked container access
  `at(i)`, of reading an empty `Optional` and of a null pointer are the
  `StdException` of an `Except StdException`.
* The recursion of `OpCode::operator()` on the lanes of a container is unrolled
  once more than the operands are nested (`OpCode.apply`); `OpCode.apply_unfold`
  is the recursive equation of the source.
* The map `inputs` of `Expression::combineWith` is a function from the local to
  the expression bound to it.
-/

namespace vc4c

/-! ## Machine integers -/

/-- Wrap an integer to an unsigned 32-bit pattern (conversion to `uint32_t`). -/
def u32 (i : Int) : Nat := (i % 4294967296).toNat

/-- Read a 32-bit pattern as a two's complement `int32_t`. -/
def i32 (n : Nat) : Int :=
  if n % 4294967296 < 2147483648 then ((n % 4294967296 : Nat) : Int)
  else ((n % 4294967296 : Nat) : Int) - 4294967296

/-- The shift count used by a 32-bit C++ shift `x << s` / `x >> s`. For counts
outside `0..31` C++ leaves the shift undefined; the model takes the count modulo
32 as the x86 shifter does. -/
def shiftCount (s : Int) : Nat := (s % 32).toNat

/-! ## Literals -/

/-- Literal: a 32-bit pattern addressable as signed int, unsigned int or float. -/
structure Literal where
  u : Nat
  h : u < 4294967296
deriving DecidableEq, Repr

namespace Literal

/-- The constructor `Literal(uint32_t)`. -/
def ofNat (n : Nat) : Literal := ⟨n % 4294967296, Nat.mod_lt n (by decide)⟩

/-- The constructor `Literal(int32_t)`. -/
def ofInt (i : Int) : Literal := ⟨u32 i, by unfold u32; omega⟩

/-- The accessor `Literal::unsignedInt()`. -/
def unsignedInt (l : Literal) : Nat := l.u

/-- The accessor `Literal::signedInt()`. -/
def signedInt (l : Literal) : Int := i32 l.u

end Literal

/-! ## IEEE-754 binary32 on bit patterns (no rounding involved) -/

namespace ieee

/-- The predicate `std::isnan`: exponent all ones, mantissa non-zero. -/
def isnan (l : Literal) : Bool :=
  (l.u / 8388608) % 256 == 255 && l.u % 8388608 != 0

/-- The predicate `std::isinf`: exponent all ones, mantissa zero. -/
def isinf (l : Literal) : Bool :=
  (l.u / 8388608) % 256 == 255 && l.u % 8388608 == 0

/-- The function `std::fabs` / `std::abs` on a float: clears the sign bit. -/
def fabs (l : Literal) : Literal := Literal.ofNat (l.u % 2147483648)

/-- Position of a non-NaN float on the number line: sign-magnitude patterns are
ordered as their magnitudes, negated when the sign bit is set (so -0 and +0
coincide). -/
def order (l : Literal) : Int :=
  if l.u < 2147483648 then (l.u : Int) else -((l.u : Int) - 2147483648)

/-- The float comparison `a < b`: false as soon as one side is NaN. -/
def less (a b : Literal) : Bool :=
  !isnan a && !isnan b && decide (order a < order b)

/-- The float comparison `a > b`. -/
def greater (a b : Literal) : Bool := less b a

/-- The function `std::max(a, b)`, that is `(a < b) ? b : a`. -/
def max (a b : Literal) : Literal := if less a b then b else a

/-- The function `std::min(a, b)`, that is `(b < a) ? b : a`. -/
def min (a b : Literal) : Literal := if less b a then b else a

end ieee

/-- The rounding float operations of the host, on bit patterns:
`add a b` is `a.real() + b.real()`, `sub`, `mul` likewise, `toInt x` is the
integer cast `static_cast<int64_t>(x.real())` (and `static_cast<int32_t>`),
`ofInt i` is `static_cast<float>(i)`. -/
structure FloatArith where
  add : Literal → Literal → Literal
  sub : Literal → Literal → Literal
  mul : Literal → Literal → Literal
  toInt : Literal → Int
  ofInt : Int → Literal

/-- A float arithmetic for running the evaluator on the opcodes that never
consult it (every integer opcode and the float min/max family): each operation
returns its first operand and each conversion zero. -/
def FloatArith.inert : FloatArith :=
  ⟨fun a _ => a, fun a _ => a, fun a _ => a, fun _ => 0, fun _ => Literal.ofNat 0⟩

/-! ## IEEE-754 single arithmetic of the host -/

namespace ieee

/-- The sign bit of a float. -/
def signBit (l : Literal) : Bool := decide (2147483648 ≤ l.u)

/-- The magnitude of a float in units of `2^-149`, the least subnormal: the
fraction of a subnormal, the significand `2^23 + fraction` of a normal float
shifted by its exponent. -/
def magnitude (l : Literal) : Nat :=
  if (l.u / 8388608) % 256 = 0 then l.u % 8388608
  else (8388608 + l.u % 8388608) * 2 ^ ((l.u / 8388608) % 256 - 1)

/-- The number of low bits that rounding `n * 2^-(149 + t)` to a float drops: the
least `s` from `t` on with `n / 2^s` below `2^24`; 255 steps reach every finite
exponent, beyond them the result overflows. -/
def roundShift : Nat → Nat → Nat → Nat
  | 0, s, _ => s
  | fuel + 1, s, n => if n / 2 ^ s < 16777216 then s else roundShift fuel (s + 1) n

/-- The pattern, sign bit clear, of the float nearest to `n * 2^-(149 + t)`: round
to nearest, ties to the even significand, overflow to infinity
(`0x7F800000`). -/
def roundMagnitude (n t : Nat) : Nat :=
  let shift := roundShift 255 t n
  let q := n / 2 ^ shift
  let r := n % 2 ^ shift
  let up := decide (2 ^ shift < 2 * r) || (decide (2 * r = 2 ^ shift) && decide (q % 2 = 1))
  let bits := (shift - t) * 8388608 + q + (if up then 1 else 0)
  if bits < 2139095040 then bits else 2139095040

/-- The float with the given sign and magnitude pattern. -/
def withSign (negative : Bool) (bits : Nat) : Literal :=
  Literal.ofNat (if negative then 2147483648 + bits else bits)

/-- The NaN that an operation produces, the quiet NaN `0x7FC00000` of
`std::numeric_limits<float>::quiet_NaN()`. -/
def defaultNaN : Literal := Literal.ofNat 2143289344

/-- Modelled from the spec: the float addition `a.real() + b.real()` of the host,
"FADD/FSUB/FMUL | IEEE single": the exact sum rounded to nearest, ties to even;
a sum of zeros or of opposite floats is `+0` unless both operands are negative;
infinities of opposite sign and every NaN operand give the default NaN (IEEE 754
leaves the payload of a NaN result open). -/
def add (a b : Literal) : Literal :=
  if isnan a || isnan b then defaultNaN
  else if isinf a && isinf b then (if signBit a == signBit b then a else defaultNaN)
  else if isinf a then a
  else if isinf b then b
  else
    let s : Int := (if signBit a then -(magnitude a : Int) else (magnitude a : Int)) +
      (if signBit b then -(magnitude b : Int) else (magnitude b : Int))
    if s = 0 then withSign (signBit a && signBit b) 0
    else withSign (decide (s < 0)) (roundMagnitude s.natAbs 0)

/-- Modelled from the spec: the float subtraction `a.real() - b.real()` of the
host, the sum of `a` and `b` with its sign bit flipped. -/
def sub (a b : Literal) : Literal :=
  add a (Literal.ofNat (b.u + 2147483648))

/-- Modelled from the spec: the float multiplication `a.real() * b.real()` of the
host, "FADD/FSUB/FMUL | IEEE single": the exact product rounded to nearest, ties
to even, with the exclusive or of the signs; infinity times zero and every NaN
operand give the default NaN. -/
def mul (a b : Literal) : Literal :=
  if isnan a || isnan b then defaultNaN
  else if isinf a || isinf b then
    (if a.u % 2147483648 == 0 || b.u % 2147483648 == 0 then defaultNaN
     else withSign (signBit a != signBit b) 2139095040)
  else withSign (signBit a != signBit b) (roundMagnitude (magnitude a * magnitude b) 149)

/-- Modelled from the spec: the integer cast `static_cast<int64_t>(x.real())` of a
finite float, truncation toward zero; the evaluator never casts a NaN or an
infinity, which give 0 here. -/
def toInt (l : Literal) : Int :=
  if isnan l || isinf l then 0
  else if signBit l then -((magnitude l / 2 ^ 149 : Nat) : Int)
  else ((magnitude l / 2 ^ 149 : Nat) : Int)

/-- Modelled from the spec: the float cast `static_cast<float>(i)` of an integer,
rounded to nearest, ties to even. -/
def ofInt (i : Int) : Literal :=
  withSign (decide (i < 0)) (roundMagnitude (i.natAbs * 2 ^ 149) 0)

end ieee

/-- Modelled from the spec: `DataType` of Types.h (absent from the sources),
"Scalar (bit-width in 8,16,32 or float/half) with a vector width"; `complex`
marks the pointer, struct, array and image types that are not simple. -/
structure DataType where
  scalarBitCount : Nat
  floating : Bool
  vectorWidth : Nat
  complex : Bool
deriving DecidableEq, Repr

namespace DataType

/-- The accessor `DataType::isFloatingType()`. -/
def isFloatingType (t : DataType) : Bool := t.floating

/-- The accessor `DataType::isSimpleType()`: scalar of bit-width at most 32. -/
def isSimpleType (t : DataType) : Bool := !t.complex && decide (t.scalarBitCount ≤ 32)

/-- The accessor `DataType::getVectorWidth()`. -/
def getVectorWidth (t : DataType) : Nat := t.vectorWidth

/-- The same element type with another vector width, `DataType::toVectorType`. -/
def toVectorType (t : DataType) (width : Nat) : DataType := { t with vectorWidth := width }

end DataType

/-- The constant `TYPE_INT32`. -/
def TYPE_INT32 : DataType := ⟨32, false, 1, false⟩

/-- The constant `TYPE_FLOAT`. -/
def TYPE_FLOAT : DataType := ⟨32, true, 1, false⟩

/-- Modelled from the spec: `SmallImmediate` of Values.h (absent), a small
register-encoded constant; the encodings 48..63 are the vector rotations. -/
structure SmallImmediate where
  value : Nat
deriving DecidableEq, Repr

/-- Modelled from the spec: `Value` of Values.h (absent), "One of:
literal-plus-type, container (ordered sequence of per-lane sub-Values),
immediate, register reference, or UNDEFINED"; a local is a named register-like
value that expressions substitute. -/
inductive Value where
  | literal (lit : Literal) (type : DataType)
  | container (elements : List Value) (type : DataType)
  | immediate (imm : SmallImmediate) (type : DataType)
  | register (file : Nat) (num : Nat) (type : DataType)
  | localRef (id : Nat) (type : DataType)
  | undefined (type : DataType)
deriving Repr

namespace Value

/-- The field `Value::type`. -/
def type : Value → DataType
  | literal _ t => t
  | container _ t => t
  | immediate _ t => t
  | register _ _ t => t
  | localRef _ t => t
  | undefined t => t

/-- Modelled from the spec: `Value::getLiteralValue()`, "returns Some iff the
value is a scalar literal". -/
def getLiteralValue : Value → Option Literal
  | literal lit _ => some lit
  | _ => none

end Value

/-! ## Flags -/

/-- The tri-state `FlagStatus`. -/
inductive FlagStatus where
  | UNDEFINED
  | CLEAR
  | SET
deriving DecidableEq, Repr

/-- The C++ idiom `cond ? FlagStatus::SET : FlagStatus::CLEAR`. -/
def FlagStatus.ofBool (b : Bool) : FlagStatus :=
  if b then FlagStatus.SET else FlagStatus.CLEAR

/-- The per-lane flags `ElementFlags`; a default-constructed one has every
flag UNDEFINED. -/
structure ElementFlags where
  zero : FlagStatus := FlagStatus.UNDEFINED
  negative : FlagStatus := FlagStatus.UNDEFINED
  carry : FlagStatus := FlagStatus.UNDEFINED
  overflow : FlagStatus := FlagStatus.UNDEFINED
deriving DecidableEq, Repr

/-- The flags of a vector, `VectorFlags`: one `ElementFlags` per lane. -/
abbrev VectorFlags := List ElementFlags

namespace VectorFlags

/-- Modelled from the spec: the converting constructor
`VectorFlags(ElementFlags)` of OpCodes.h (absent), which gives each of the 16
lanes the same flags. -/
def splat (f : ElementFlags) : VectorFlags := List.replicate 16 f

/-- The default-constructed `VectorFlags{}`: all flags of all lanes UNDEFINED. -/
def empty : VectorFlags := splat {}

/-- The lane access `flags[i]`. -/
def lane (v : VectorFlags) (i : Nat) : ElementFlags := v.getD i {}

end VectorFlags

/-- The function `ElementFlags::fromValue`. -/
def ElementFlags.fromValue (val : Value) : ElementFlags :=
  match val.getLiteralValue with
  | some lit =>
    { negative := FlagStatus.ofBool (decide (lit.signedInt < 0)),
      zero := FlagStatus.ofBool (decide (lit.unsignedInt = 0)) }
  | none => {}

/-- The function `VectorFlags::fromValue`. -/
def VectorFlags.fromValue (val : Value) : VectorFlags :=
  if val.getLiteralValue.isSome then VectorFlags.splat (ElementFlags.fromValue val)
  else VectorFlags.empty

/-- The pair `PrecalculatedValue` returned by the evaluator. -/
abbrev PrecalculatedValue := Option Value × VectorFlags

/-- The overload `setFlags(Value&&)`. -/
def setFlags (val : Value) : PrecalculatedValue :=
  (some val, VectorFlags.fromValue val)

/-- The overload `setFlags(Value&&, bool is32BitOverflow)`. -/
def setFlagsCarry (val : Value) (is32BitOverflow : Bool) : PrecalculatedValue :=
  let tmp := setFlags val
  let flags := tmp.2.lane 0
  (tmp.1, VectorFlags.splat { flags with carry := FlagStatus.ofBool is32BitOverflow })

/-- The overload `setFlags(Value&&, bool is32BitOverflow, bool isSignedOverflow)`. -/
def setFlagsCarryOverflow (val : Value) (is32BitOverflow isSignedOverflow : Bool) :
    PrecalculatedValue :=
  let tmp := setFlagsCarry val is32BitOverflow
  let flags := tmp.2.lane 0
  (tmp.1, VectorFlags.splat { flags with overflow := FlagStatus.ofBool isSignedOverflow })

/-! ## Opcodes -/

/-- The record `OpCode`: mnemonic, ADD-ALU and MUL-ALU selector, arity and the
operand/result type family. -/
structure OpCode where
  name : String
  opAdd : Nat
  opMul : Nat
  numOperands : Nat
  acceptsFloat : Bool
  returnsFloat : Bool
deriving DecidableEq, Repr

/-- The comparison `OpCode::operator==`. -/
def OpCode.eq (l r : OpCode) : Bool :=
  if l.opAdd > 0 && l.opAdd == r.opAdd then true
  else if l.opMul > 0 && l.opMul == r.opMul then true
  else if l.opAdd == 0 && l.opMul == 0 && r.opAdd == 0 && r.opMul == 0 then true
  else false

/-! Modelled from the spec: the opcode constants of OpCodes.h (absent from the
sources). The selectors are the indices of the tables `addCodes` and `mulCodes`
of OpCodes.cpp ("the indices MUST correspond to the op-codes"), the mnemonics
are the canonical catalog names and the arity is 1 for NOT, CLZ, FTOI and ITOF. -/

/-- Modelled from the spec: constant `OP_NOP` of OpCodes.h. -/
def OP_NOP : OpCode := ⟨"nop", 0, 0, 0, false, false⟩
/-- Modelled from the spec: constant `OP_FADD` of OpCodes.h. -/
def OP_FADD : OpCode := ⟨"fadd", 1, 0, 2, true, true⟩
/-- Modelled from the spec: constant `OP_FSUB` of OpCodes.h. -/
def OP_FSUB : OpCode := ⟨"fsub", 2, 0, 2, true, true⟩
/-- Modelled from the spec: constant `OP_FMIN` of OpCodes.h. -/
def OP_FMIN : OpCode := ⟨"fmin", 3, 0, 2, true, true⟩
/-- Modelled from the spec: constant `OP_FMAX` of OpCodes.h. -/
def OP_FMAX : OpCode := ⟨"fmax", 4, 0, 2, true, true⟩
/-- Modelled from the spec: constant `OP_FMINABS` of OpCodes.h. -/
def OP_FMINABS : OpCode := ⟨"fminabs", 5, 0, 2, true, true⟩
/-- Modelled from the spec: constant `OP_FMAXABS` of OpCodes.h. -/
def OP_FMAXABS : OpCode := ⟨"fmaxabs", 6, 0, 2, true, true⟩
/-- Modelled from the spec: constant `OP_FTOI` of OpCodes.h. -/
def OP_FTOI : OpCode := ⟨"ftoi", 7, 0, 1, true, false⟩
/-- Modelled from the spec: constant `OP_ITOF` of OpCodes.h. -/
def OP_ITOF : OpCode := ⟨"itof", 8, 0, 1, false, true⟩
/-- Modelled from the spec: constant `OP_ADD` of OpCodes.h. -/
def OP_ADD : OpCode := ⟨"add", 12, 0, 2, false, false⟩
/-- Modelled from the spec: constant `OP_SUB` of OpCodes.h. -/
def OP_SUB : OpCode := ⟨"sub", 13, 0, 2, false, false⟩
/-- Modelled from the spec: constant `OP_SHR` of OpCodes.h. -/
def OP_SHR : OpCode := ⟨"shr", 14, 0, 2, false, false⟩
/-- Modelled from the spec: constant `OP_ASR` of OpCodes.h. -/
def OP_ASR : OpCode := ⟨"asr", 15, 0, 2, false, false⟩
/-- Modelled from the spec: constant `OP_ROR` of OpCodes.h. -/
def OP_ROR : OpCode := ⟨"ror", 16, 0, 2, false, false⟩
/-- Modelled from the spec: constant `OP_SHL` of OpCodes.h. -/
def OP_SHL : OpCode := ⟨"shl", 17, 0, 2, false, false⟩
/-- Modelled from the spec: constant `OP_MIN` of OpCodes.h. -/
def OP_MIN : OpCode := ⟨"min", 18, 0, 2, false, false⟩
/-- Modelled from the spec: constant `OP_MAX` of OpCodes.h. -/
def OP_MAX : OpCode := ⟨"max", 19, 0, 2, false, false⟩
/-- Modelled from the spec: constant `OP_AND` of OpCodes.h. -/
def OP_AND : OpCode := ⟨"and", 20, 0, 2, false, false⟩
/-- Modelled from the spec: constant `OP_OR` of OpCodes.h. -/
def OP_OR : OpCode := ⟨"or", 21, 0, 2, false, false⟩
/-- Modelled from the spec: constant `OP_XOR` of OpCodes.h. -/
def OP_XOR : OpCode := ⟨"xor", 22, 0, 2, false, false⟩
/-- Modelled from the spec: constant `OP_NOT` of OpCodes.h. -/
def OP_NOT : OpCode := ⟨"not", 23, 0, 1, false, false⟩
/-- Modelled from the spec: constant `OP_CLZ` of OpCodes.h. -/
def OP_CLZ : OpCode := ⟨"clz", 24, 0, 1, false, false⟩
/-- Modelled from the spec: constant `OP_V8ADDS` of OpCodes.h (on both ALUs). -/
def OP_V8ADDS : OpCode := ⟨"v8adds", 30, 6, 2, false, false⟩
/-- Modelled from the spec: constant `OP_V8SUBS` of OpCodes.h (on both ALUs). -/
def OP_V8SUBS : OpCode := ⟨"v8subs", 31, 7, 2, false, false⟩
/-- Modelled from the spec: constant `OP_FMUL` of OpCodes.h. -/
def OP_FMUL : OpCode := ⟨"fmul", 0, 1, 2, true, true⟩
/-- Modelled from the spec: constant `OP_MUL24` of OpCodes.h. -/
def OP_MUL24 : OpCode := ⟨"mul24", 0, 2, 2, false, false⟩
/-- Modelled from the spec: constant `OP_V8MULD` of OpCodes.h. -/
def OP_V8MULD : OpCode := ⟨"v8muld", 0, 3, 2, false, false⟩
/-- Modelled from the spec: constant `OP_V8MIN` of OpCodes.h. -/
def OP_V8MIN : OpCode := ⟨"v8min", 0, 4, 2, false, false⟩
/-- Modelled from the spec: constant `OP_V8MAX` of OpCodes.h. -/
def OP_V8MAX : OpCode := ⟨"v8max", 0, 5, 2, false, false⟩

/-- The catalog: the opcodes listed in the table `opCodes` of OpCodes.cpp. -/
def opCodes : List OpCode :=
  [OP_ADD, OP_AND, OP_ASR, OP_CLZ, OP_FADD, OP_FMAX, OP_FMAXABS, OP_FMIN, OP_FMINABS, OP_FMUL,
   OP_FSUB, OP_FTOI, OP_ITOF, OP_MAX, OP_MIN, OP_MUL24, OP_NOP, OP_NOT, OP_OR, OP_ROR, OP_SHL,
   OP_SHR, OP_SUB, OP_V8ADDS, OP_V8MAX, OP_V8MIN, OP_V8MULD, OP_V8SUBS, OP_XOR]

/-- The predicate `OpCode::isIdempotent`. -/
def OpCode.isIdempotent (c : OpCode) : Bool :=
  if c.eq OP_AND || c.eq OP_FMAX || c.eq OP_FMIN || c.eq OP_MAX || c.eq OP_MIN ||
      c.eq OP_OR || c.eq OP_V8MAX || c.eq OP_V8MIN then true
  else false

/-- The predicate `OpCode::isAssociative`. -/
def OpCode.isAssociative (c : OpCode) : Bool :=
  c.eq OP_ADD || c.eq OP_AND || c.eq OP_FADD || c.eq OP_FMAX || c.eq OP_FMAXABS ||
    c.eq OP_FMIN || c.eq OP_FMINABS || c.eq OP_FMUL || c.eq OP_MAX || c.eq OP_MIN ||
    c.eq OP_OR || c.eq OP_V8MAX || c.eq OP_V8MIN || c.eq OP_XOR

/-- The predicate `OpCode::isCommutative`. -/
def OpCode.isCommutative (c : OpCode) : Bool :=
  c.eq OP_ADD || c.eq OP_AND || c.eq OP_FADD || c.eq OP_FMAX || c.eq OP_FMAXABS ||
    c.eq OP_FMIN || c.eq OP_FMINABS || c.eq OP_FMUL || c.eq OP_MAX || c.eq OP_MIN ||
    c.eq OP_MUL24 || c.eq OP_OR || c.eq OP_V8ADDS || c.eq OP_V8MAX || c.eq OP_V8MIN ||
    c.eq OP_V8MULD || c.eq OP_XOR

/-! ## The evaluator on literals -/

/-- The helper `rotate_right(value, shift)`; `shift &= 31` keeps the low five
bits of the two's complement count. -/
def rotate_right (value : Nat) (shift : Int) : Nat :=
  let s := u32 shift % 32
  if s = 0 then value
  else (value >>> s) ||| ((value <<< (32 - s)) % 4294967296)

/-- Modelled from the spec: `intermediate::asr` of intrinsics/Operators.h
(absent from the sources), "ASR: arithmetic shift right" of the signed value. -/
def intermediate.asr (_type : DataType) (left right : Literal) : Literal :=
  Literal.ofInt (left.signedInt / 2 ^ shiftCount right.signedInt)

/-- Modelled from the spec: `intermediate::clz` of intrinsics/Operators.h
(absent from the sources), "CLZ: count leading zeros" of the 32-bit pattern. -/
def intermediate.clz (_type : DataType) (val : Literal) : Literal :=
  Literal.ofNat (if val.unsignedInt = 0 then 32 else 31 - Nat.log2 val.unsignedInt)

/-- The helper `checkMinMaxCarry`: carry of fmin/fmax/fminabs/fmaxabs(a, b) is
"a > b" with NaN above Inf. -/
def checkMinMaxCarry (arg0 arg1 : Literal) (useAbs : Bool) : Bool :=
  if ieee.isnan arg0 && ieee.isnan arg1 then decide (arg0.signedInt > arg1.signedInt)
  else if ieee.isnan arg0 then true
  else if ieee.isnan arg1 then false
  else if useAbs then ieee.greater (ieee.fabs arg0) (ieee.fabs arg1)
  else ieee.greater arg0 arg1

/-- The mask `(1 << shift) - 1` of ASR/SHR, computed in `int` and converted to
`uint32_t` by the `&` with the unsigned operand. -/
def shiftLossMask (shift : Int) : Nat :=
  u32 (i32 ((1 <<< shiftCount shift) % 4294967296) - 1)

/-- The per-byte lambda of the V8 opcodes inside `calcLiteral`; `none` is the
`throw` after the last `if`. -/
def v8Lane (code : OpCode) (a b : Nat) : Option Nat :=
  if code.eq OP_V8ADDS then some (Min.min ((a + b) % 4294967296) 255)
  else if code.eq OP_V8SUBS then
    some (u32 (Max.max (Min.min (i32 (u32 ((a : Int) - (b : Int)))) 255) 0))
  else if code.eq OP_V8MAX then some (Max.max a b)
  else if code.eq OP_V8MIN then some (Min.min a b)
  else if code.eq OP_V8MULD then some (((a * b + 127) % 4294967296) / 255)
  else none

/-- The evaluator on two literals, `calcLiteral`. The last line is the final
`return std::make_pair(NO_VALUE, VectorFlags{})` for an opcode without rule.
The 64-bit `extendedVal` of ADD and MUL24 cannot wrap and is computed in `Nat`;
the 64-bit shift of SHL takes its count modulo 64 and wraps at `2^64`. -/
def calcLiteral (fp : FloatArith) (code : OpCode) (firstLit secondLit : Literal)
    (resultType firstType : DataType) : PrecalculatedValue :=
  if code.eq OP_ADD then
    let extendedVal := firstLit.unsignedInt + secondLit.unsignedInt
    let signedVal := firstLit.signedInt + secondLit.signedInt
    setFlagsCarryOverflow
      (Value.literal (Literal.ofInt (firstLit.signedInt + secondLit.signedInt)) resultType)
      (decide (extendedVal > 4294967295))
      (decide (signedVal > 2147483647) || decide (signedVal < -2147483648))
  else if code.eq OP_AND then
    setFlagsCarryOverflow
      (Value.literal (Literal.ofNat (firstLit.unsignedInt &&& secondLit.unsignedInt)) resultType)
      false false
  else if code.eq OP_ASR then
    let shiftLoss := firstLit.unsignedInt &&& shiftLossMask secondLit.signedInt
    setFlagsCarryOverflow
      (Value.literal (intermediate.asr resultType firstLit secondLit) resultType)
      (decide (shiftLoss ≠ 0)) false
  else if code.eq OP_CLZ then
    setFlagsCarryOverflow (Value.literal (intermediate.clz resultType firstLit) resultType)
      false false
  else if code.eq OP_FADD then
    setFlagsCarry (Value.literal (fp.add firstLit secondLit) resultType)
      (ieee.greater (fp.add firstLit secondLit) (Literal.ofNat 0))
  else if code.eq OP_FMAX then
    if ieee.isnan firstLit then
      setFlagsCarry (Value.literal firstLit resultType) (checkMinMaxCarry firstLit secondLit false)
    else if ieee.isnan secondLit then
      setFlagsCarry (Value.literal secondLit resultType) (checkMinMaxCarry firstLit secondLit false)
    else
      setFlagsCarryOverflow (Value.literal (ieee.max firstLit secondLit) resultType)
        (ieee.greater firstLit secondLit) false
  else if code.eq OP_FMAXABS then
    if ieee.isnan firstLit then
      setFlagsCarry (Value.literal firstLit resultType) (checkMinMaxCarry firstLit secondLit true)
    else if ieee.isnan secondLit then
      setFlagsCarry (Value.literal secondLit resultType) (checkMinMaxCarry firstLit secondLit true)
    else if ieee.isinf firstLit then
      setFlagsCarry (Value.literal firstLit resultType) (checkMinMaxCarry firstLit secondLit true)
    else if ieee.isinf secondLit then
      setFlagsCarry (Value.literal secondLit resultType) (checkMinMaxCarry firstLit secondLit true)
    else
      setFlagsCarryOverflow
        (Value.literal (ieee.max (ieee.fabs firstLit) (ieee.fabs secondLit)) resultType)
        (ieee.greater (ieee.fabs firstLit) (ieee.fabs secondLit)) false
  else if code.eq OP_FMIN then
    if ieee.isnan firstLit then
      setFlagsCarry (Value.literal secondLit resultType) (checkMinMaxCarry firstLit secondLit false)
    else if ieee.isnan secondLit then
      setFlagsCarry (Value.literal firstLit resultType) (checkMinMaxCarry firstLit secondLit false)
    else
      setFlagsCarryOverflow (Value.literal (ieee.min firstLit secondLit) resultType)
        (ieee.greater firstLit secondLit) false
  else if code.eq OP_FMINABS then
    if ieee.isnan firstLit then
      setFlagsCarry (Value.literal secondLit resultType) (checkMinMaxCarry firstLit secondLit true)
    else if ieee.isnan secondLit then
      setFlagsCarry (Value.literal firstLit resultType) (checkMinMaxCarry firstLit secondLit true)
    else
      setFlagsCarryOverflow
        (Value.literal (ieee.min (ieee.fabs firstLit) (ieee.fabs secondLit)) resultType)
        (ieee.greater (ieee.fabs firstLit) (ieee.fabs secondLit)) false
  else if code.eq OP_FMUL then
    setFlags (Value.literal (fp.mul firstLit secondLit) resultType)
  else if code.eq OP_FSUB then
    setFlagsCarry (Value.literal (fp.sub firstLit secondLit) resultType)
      (ieee.greater (fp.sub firstLit secondLit) (Literal.ofNat 0))
  else if code.eq OP_FTOI then
    if ieee.isnan firstLit || ieee.isinf firstLit ||
        decide ((fp.toInt firstLit).natAbs > 2147483647) then
      setFlags (Value.literal (Literal.ofNat 0) (TYPE_INT32.toVectorType firstType.getVectorWidth))
    else
      setFlagsCarry
        (Value.literal (Literal.ofInt (fp.toInt firstLit))
          (TYPE_INT32.toVectorType firstType.getVectorWidth))
        false
  else if code.eq OP_ITOF then
    setFlagsCarry
      (Value.literal (fp.ofInt firstLit.signedInt)
        (TYPE_FLOAT.toVectorType firstType.getVectorWidth))
      false
  else if code.eq OP_MAX then
    setFlagsCarryOverflow
      (Value.literal (Literal.ofInt (Max.max firstLit.signedInt secondLit.signedInt)) resultType)
      (decide (firstLit.signedInt > secondLit.signedInt)) false
  else if code.eq OP_MIN then
    setFlagsCarryOverflow
      (Value.literal (Literal.ofInt (Min.min firstLit.signedInt secondLit.signedInt)) resultType)
      (decide (firstLit.signedInt > secondLit.signedInt)) false
  else if code.eq OP_MUL24 then
    let extendedVal := (firstLit.unsignedInt &&& 16777215) * (secondLit.unsignedInt &&& 16777215)
    setFlagsCarry
      (Value.literal
        (Literal.ofNat ((firstLit.unsignedInt &&& 16777215) * (secondLit.unsignedInt &&& 16777215)))
        resultType)
      (decide (extendedVal > 4294967295))
  else if code.eq OP_NOT then
    setFlagsCarry (Value.literal (Literal.ofNat (firstLit.unsignedInt ^^^ 4294967295)) resultType)
      false
  else if code.eq OP_OR then
    setFlagsCarryOverflow
      (Value.literal (Literal.ofNat (firstLit.unsignedInt ||| secondLit.unsignedInt)) resultType)
      false false
  else if code.eq OP_ROR then
    setFlagsCarry
      (Value.literal (Literal.ofNat (rotate_right firstLit.unsignedInt secondLit.signedInt))
        resultType)
      false
  else if code.eq OP_SHL then
    let extendedVal :=
      (firstLit.unsignedInt <<< (secondLit.unsignedInt % 64)) % 18446744073709551616
    setFlagsCarry
      (Value.literal (Literal.ofNat (firstLit.unsignedInt <<< shiftCount secondLit.signedInt))
        resultType)
      (decide (extendedVal > 4294967295))
  else if code.eq OP_SHR then
    let shiftLoss := firstLit.unsignedInt &&& shiftLossMask secondLit.signedInt
    setFlagsCarry
      (Value.literal (Literal.ofNat (firstLit.unsignedInt >>> shiftCount secondLit.signedInt))
        resultType)
      (decide (shiftLoss ≠ 0))
  else if code.eq OP_SUB then
    let extendedVal := firstLit.signedInt - secondLit.signedInt
    setFlagsCarryOverflow
      (Value.literal (Literal.ofInt (firstLit.signedInt - secondLit.signedInt)) resultType)
      (decide (extendedVal < 0))
      (decide (extendedVal > 2147483647) || decide (extendedVal < -2147483648))
  else if code.eq OP_XOR then
    setFlagsCarryOverflow
      (Value.literal (Literal.ofNat (firstLit.unsignedInt ^^^ secondLit.unsignedInt)) resultType)
      false false
  else if code.eq OP_V8ADDS || code.eq OP_V8SUBS || code.eq OP_V8MAX || code.eq OP_V8MIN ||
      code.eq OP_V8MULD then
    let bytesA0 := firstLit.unsignedInt &&& 255
    let bytesA1 := (firstLit.unsignedInt >>> 8) &&& 255
    let bytesA2 := (firstLit.unsignedInt >>> 16) &&& 255
    let bytesA3 := (firstLit.unsignedInt >>> 24) &&& 255
    let bytesB0 := secondLit.unsignedInt &&& 255
    let bytesB1 := (secondLit.unsignedInt >>> 8) &&& 255
    let bytesB2 := (secondLit.unsignedInt >>> 16) &&& 255
    let bytesB3 := (secondLit.unsignedInt >>> 24) &&& 255
    match v8Lane code bytesA0 bytesB0, v8Lane code bytesA1 bytesB1,
        v8Lane code bytesA2 bytesB2, v8Lane code bytesA3 bytesB3 with
    | some bytesOut0, some bytesOut1, some bytesOut2, some bytesOut3 =>
      let result := ((bytesOut3 &&& 255) <<< 24) ||| ((bytesOut2 &&& 255) <<< 16) |||
        ((bytesOut1 &&& 255) <<< 8) ||| (bytesOut0 &&& 255)
      setFlags (Value.literal (Literal.ofNat result) resultType)
    | _, _, _, _ => (none, VectorFlags.empty)
  else
    (none, VectorFlags.empty)

/-- The literal carried by an evaluation result, if it has one. -/
def PrecalculatedValue.literal (r : PrecalculatedValue) : Option Literal :=
  r.1.bind Value.getLiteralValue

/-- The flags of lane 0 of an evaluation result (the lane a scalar uses). -/
def PrecalculatedValue.flags (r : PrecalculatedValue) : ElementFlags :=
  r.2.lane 0

/-- Byte `k` (0..3) of a 32-bit pattern. -/
def Literal.byte (l : Literal) (k : Nat) : Nat := (l.u / 256 ^ k) % 256

/-! ## Compilation errors -/

/-- The stage tag `CompilationStep` of a compilation error. -/
inductive CompilationStep where
  | CODE_GENERATION
  | GENERAL
deriving DecidableEq, Repr

/-- Modelled from the spec: `CompilationError` of CompilationError.h (absent), an
error "carrying a stage tag, a human message, and the offending token"; the
token text is left out. -/
structure CompilationError where
  step : CompilationStep
  message : String
deriving DecidableEq, Repr

deriving instance DecidableEq for Except

/-! ## Condition codes -/

/-- Modelled from the spec: `ConditionCode` of OpCodes.h (absent), a record
around the 3-bit hardware encoding of the condition. -/
structure ConditionCode where
  value : Nat
deriving DecidableEq, Repr

/-- Modelled from the spec: constant `COND_NEVER` of OpCodes.h. -/
def COND_NEVER : ConditionCode := ⟨0⟩
/-- Modelled from the spec: constant `COND_ALWAYS` of OpCodes.h. -/
def COND_ALWAYS : ConditionCode := ⟨1⟩
/-- Modelled from the spec: constant `COND_ZERO_SET` of OpCodes.h. -/
def COND_ZERO_SET : ConditionCode := ⟨2⟩
/-- Modelled from the spec: constant `COND_ZERO_CLEAR` of OpCodes.h. -/
def COND_ZERO_CLEAR : ConditionCode := ⟨3⟩
/-- Modelled from the spec: constant `COND_NEGATIVE_SET` of OpCodes.h. -/
def COND_NEGATIVE_SET : ConditionCode := ⟨4⟩
/-- Modelled from the spec: constant `COND_NEGATIVE_CLEAR` of OpCodes.h. -/
def COND_NEGATIVE_CLEAR : ConditionCode := ⟨5⟩
/-- Modelled from the spec: constant `COND_CARRY_SET` of OpCodes.h. -/
def COND_CARRY_SET : ConditionCode := ⟨6⟩
/-- Modelled from the spec: constant `COND_CARRY_CLEAR` of OpCodes.h. -/
def COND_CARRY_CLEAR : ConditionCode := ⟨7⟩

/-- The eight condition codes of the spec: ALWAYS, NEVER, Z/NZ, N/NN, C/NC. -/
def conditionCodes : List ConditionCode :=
  [COND_ALWAYS, COND_NEVER, COND_ZERO_SET, COND_ZERO_CLEAR, COND_NEGATIVE_SET,
   COND_NEGATIVE_CLEAR, COND_CARRY_SET, COND_CARRY_CLEAR]

/-- The function `ConditionCode::invert`; the error is the `throw` after the
`switch`. -/
def ConditionCode.invert (c : ConditionCode) : Except CompilationError ConditionCode :=
  if c = COND_ALWAYS then .ok COND_NEVER
  else if c = COND_CARRY_CLEAR then .ok COND_CARRY_SET
  else if c = COND_CARRY_SET then .ok COND_CARRY_CLEAR
  else if c = COND_NEGATIVE_CLEAR then .ok COND_NEGATIVE_SET
  else if c = COND_NEGATIVE_SET then .ok COND_NEGATIVE_CLEAR
  else if c = COND_NEVER then .ok COND_ALWAYS
  else if c = COND_ZERO_CLEAR then .ok COND_ZERO_SET
  else if c = COND_ZERO_SET then .ok COND_ZERO_CLEAR
  else .error ⟨CompilationStep.CODE_GENERATION, "Unsupported conditions"⟩

/-- The function `ConditionCode::isInversionOf`: `other == invert()`. -/
def ConditionCode.isInversionOf (c other : ConditionCode) : Except CompilationError Bool :=
  match c.invert with
  | .ok inv => .ok (decide (other = inv))
  | .error e => .error e

/-- The enumeration `BranchCond`. -/
inductive BranchCond where
  | ALL_C_CLEAR
  | ALL_C_SET
  | ALL_N_CLEAR
  | ALL_N_SET
  | ALL_Z_CLEAR
  | ALL_Z_SET
  | ALWAYS
  | ANY_C_CLEAR
  | ANY_C_SET
  | ANY_N_CLEAR
  | ANY_N_SET
  | ANY_Z_CLEAR
  | ANY_Z_SET
deriving DecidableEq, Repr

/-- The function `ConditionCode::toBranchCondition`; the error is the `throw`
after the `switch`, which has no case for `COND_NEVER`. -/
def ConditionCode.toBranchCondition (c : ConditionCode) : Except CompilationError BranchCond :=
  if c.value = COND_ALWAYS.value then .ok BranchCond.ALWAYS
  else if c.value = COND_CARRY_CLEAR.value then .ok BranchCond.ALL_C_CLEAR
  else if c.value = COND_CARRY_SET.value then .ok BranchCond.ANY_C_SET
  else if c.value = COND_NEGATIVE_CLEAR.value then .ok BranchCond.ALL_N_CLEAR
  else if c.value = COND_NEGATIVE_SET.value then .ok BranchCond.ANY_N_SET
  else if c.value = COND_ZERO_CLEAR.value then .ok BranchCond.ALL_Z_CLEAR
  else if c.value = COND_ZERO_SET.value then .ok BranchCond.ANY_Z_SET
  else .error ⟨CompilationStep.CODE_GENERATION, "Invalid condition for branch"⟩

/-- The function `ElementFlags::matchesCondition`; the last error is the
`throw` after the `switch`. -/
def ElementFlags.matchesCondition (f : ElementFlags) (cond : ConditionCode) :
    Except CompilationError Bool :=
  if cond.value = COND_ALWAYS.value then .ok true
  else if cond.value = COND_CARRY_CLEAR.value then
    if f.carry = FlagStatus.UNDEFINED then
      .error ⟨CompilationStep.GENERAL, "Reading undefined carry flags"⟩
    else .ok (decide (f.carry = FlagStatus.CLEAR))
  else if cond.value = COND_CARRY_SET.value then
    if f.carry = FlagStatus.UNDEFINED then
      .error ⟨CompilationStep.GENERAL, "Reading undefined carry flags"⟩
    else .ok (decide (f.carry = FlagStatus.SET))
  else if cond.value = COND_NEGATIVE_CLEAR.value then
    if f.negative = FlagStatus.UNDEFINED then
      .error ⟨CompilationStep.GENERAL, "Reading undefined negative flags"⟩
    else .ok (decide (f.negative = FlagStatus.CLEAR))
  else if cond.value = COND_NEGATIVE_SET.value then
    if f.negative = FlagStatus.UNDEFINED then
      .error ⟨CompilationStep.GENERAL, "Reading undefined negative flags"⟩
    else .ok (decide (f.negative = FlagStatus.SET))
  else if cond.value = COND_NEVER.value then .ok false
  else if cond.value = COND_ZERO_CLEAR.value then
    if f.zero = FlagStatus.UNDEFINED then
      .error ⟨CompilationStep.GENERAL, "Reading undefined zero flags"⟩
    else .ok (decide (f.zero = FlagStatus.CLEAR))
  else if cond.value = COND_ZERO_SET.value then
    if f.zero = FlagStatus.UNDEFINED then
      .error ⟨CompilationStep.GENERAL, "Reading undefined zero flags"⟩
    else .ok (decide (f.zero = FlagStatus.SET))
  else .error ⟨CompilationStep.GENERAL, "Unhandled condition code"⟩

/-! ## Unpack and pack modifiers -/

/-- Read a 16-bit pattern as a two's complement `int16_t`
(`bit_cast<uint16_t, int16_t>`). -/
def i16 (n : Nat) : Int :=
  if n % 65536 < 32768 then ((n % 65536 : Nat) : Int) else ((n % 65536 : Nat) : Int) - 65536

/-- Modelled from the spec: `saturate<int16_t>` of helper.h (absent), the
saturating cast `sat_i16` that "clamps at type bounds". -/
def saturate_i16 (val : Int) : Int := Max.max (Min.min val 32767) (-32768)

/-- Modelled from the spec: `saturate<uint8_t>` of helper.h (absent), the
saturating cast `sat_u8` that "clamps at type bounds". -/
def saturate_u8 (val : Nat) : Nat := Min.min val 255

/-- The float conversions of the host used by the pack and unpack modifiers, on
bit patterns: `halfToFloat w` is `static_cast<float>(half_t(w))`, `floatToHalf x`
is `static_cast<uint16_t>(half_t(x.real()))`, `byteToFloat b` is
`static_cast<float>(b) / 255.0f`, `div255ToUInt x` is
`static_cast<uint32_t>(x.real() / 255.0f)` and `mul255ToUInt x` is
`static_cast<uint32_t>(x.real() * 255.0f)`. -/
structure FloatConv where
  halfToFloat : Nat → Literal
  floatToHalf : Literal → Nat
  byteToFloat : Nat → Literal
  div255ToUInt : Literal → Nat
  mul255ToUInt : Literal → Nat

/-- A float conversion for running the modifiers on integer-typed operands,
which never consult it: every conversion returns zero. -/
def FloatConv.inert : FloatConv :=
  ⟨fun _ => Literal.ofNat 0, fun _ => 0, fun _ => Literal.ofNat 0, fun _ => 0, fun _ => 0⟩

/-- Modelled from the spec: `Unpack` of OpCodes.h (absent), a record around the
encoding whose low bit is "pm". -/
structure Unpack where
  value : Nat
deriving DecidableEq, Repr

/-- Modelled from the spec: constant `UNPACK_NOP` of OpCodes.h. -/
def UNPACK_NOP : Unpack := ⟨0⟩
/-- Modelled from the spec: constant `UNPACK_NOP_PM` of OpCodes.h. -/
def UNPACK_NOP_PM : Unpack := ⟨1⟩
/-- Modelled from the spec: constant `UNPACK_16A_32` of OpCodes.h. -/
def UNPACK_16A_32 : Unpack := ⟨2⟩
/-- Modelled from the spec: constant `UNPACK_R4_16A_32` of OpCodes.h. -/
def UNPACK_R4_16A_32 : Unpack := ⟨3⟩
/-- Modelled from the spec: constant `UNPACK_16B_32` of OpCodes.h. -/
def UNPACK_16B_32 : Unpack := ⟨4⟩
/-- Modelled from the spec: constant `UNPACK_R4_16B_32` of OpCodes.h. -/
def UNPACK_R4_16B_32 : Unpack := ⟨5⟩
/-- Modelled from the spec: constant `UNPACK_8888_32` of OpCodes.h. -/
def UNPACK_8888_32 : Unpack := ⟨6⟩
/-- Modelled from the spec: constant `UNPACK_R4_ALPHA_REPLICATE` of OpCodes.h. -/
def UNPACK_R4_ALPHA_REPLICATE : Unpack := ⟨7⟩
/-- Modelled from the spec: constant `UNPACK_8A_32` of OpCodes.h. -/
def UNPACK_8A_32 : Unpack := ⟨8⟩
/-- Modelled from the spec: constant `UNPACK_R4_COLOR0` of OpCodes.h. -/
def UNPACK_R4_COLOR0 : Unpack := ⟨9⟩
/-- Modelled from the spec: constant `UNPACK_8B_32` of OpCodes.h. -/
def UNPACK_8B_32 : Unpack := ⟨10⟩
/-- Modelled from the spec: constant `UNPACK_R4_COLOR1` of OpCodes.h. -/
def UNPACK_R4_COLOR1 : Unpack := ⟨11⟩
/-- Modelled from the spec: constant `UNPACK_8C_32` of OpCodes.h. -/
def UNPACK_8C_32 : Unpack := ⟨12⟩
/-- Modelled from the spec: constant `UNPACK_R4_COLOR2` of OpCodes.h. -/
def UNPACK_R4_COLOR2 : Unpack := ⟨13⟩
/-- Modelled from the spec: constant `UNPACK_8D_32` of OpCodes.h. -/
def UNPACK_8D_32 : Unpack := ⟨14⟩
/-- Modelled from the spec: constant `UNPACK_R4_COLOR3` of OpCodes.h. -/
def UNPACK_R4_COLOR3 : Unpack := ⟨15⟩

/-- The sixteen unpack modifiers, the cases of `Unpack::to_string`. -/
def unpackModes : List Unpack :=
  [UNPACK_NOP, UNPACK_NOP_PM, UNPACK_16A_32, UNPACK_16B_32, UNPACK_8888_32, UNPACK_8A_32,
   UNPACK_8B_32, UNPACK_8C_32, UNPACK_8D_32, UNPACK_R4_16A_32, UNPACK_R4_16B_32,
   UNPACK_R4_ALPHA_REPLICATE, UNPACK_R4_COLOR0, UNPACK_R4_COLOR1, UNPACK_R4_COLOR2,
   UNPACK_R4_COLOR3]

/-- The predicate `Unpack::isPMBitSet`. -/
def Unpack.isPMBitSet (u : Unpack) : Bool := decide (u.value &&& 1 ≠ 0)

/-- The predicate `Unpack::hasEffect`. -/
def Unpack.hasEffect (u : Unpack) : Bool := decide (u.value ≠ 0) && decide (u.value ≠ 1)

/-- The body shared by the cases `UNPACK_R4_COLOR0..3` of `unpackLiteral`:
byte `shift / 8` of the literal divided by `255.0f`. -/
def unpackColor (fc : FloatConv) (literal : Literal) (type : DataType) (shift : Nat) : Value :=
  Value.literal (fc.byteToFloat ((literal.unsignedInt >>> shift) % 256)) type

/-- The function `unpackLiteral`; the error is the `throw` after the `switch`.
The calls `unpackLiteral(UNPACK_R4_COLORk, literal, type)` of the float branches
of the cases `UNPACK_8A_32..8D_32` are written as the body of that case. -/
def unpackLiteral (fc : FloatConv) (mode : Unpack) (literal : Literal) (type : DataType) :
    Except CompilationError Value :=
  if mode = UNPACK_NOP then .ok (Value.literal literal type)
  else if mode = UNPACK_16A_32 then
    let lowWord := literal.unsignedInt % 65536
    if type.isFloatingType then .ok (Value.literal (fc.halfToFloat lowWord) type)
    else
      let lowWordSigned := i16 lowWord
      .ok (Value.literal (Literal.ofInt lowWordSigned) type)
  else if mode = UNPACK_16B_32 then
    let highWord := (literal.unsignedInt >>> 16) % 65536
    if type.isFloatingType then .ok (Value.literal (fc.halfToFloat highWord) type)
    else
      let highWordSigned := i16 highWord
      .ok (Value.literal (Literal.ofInt highWordSigned) type)
  else if mode = UNPACK_R4_ALPHA_REPLICATE ∨ mode = UNPACK_8888_32 then
    let lsb := literal.unsignedInt % 256
    .ok (Value.literal
      (Literal.ofNat ((lsb <<< 24) ||| (lsb <<< 16) ||| (lsb <<< 8) ||| lsb)) type)
  else if mode = UNPACK_8A_32 then
    if type.isFloatingType then .ok (unpackColor fc literal type 0)
    else
      let byte0 := literal.unsignedInt % 256
      .ok (Value.literal (Literal.ofNat byte0) type)
  else if mode = UNPACK_8B_32 then
    if type.isFloatingType then .ok (unpackColor fc literal type 8)
    else
      let byte1 := (literal.unsignedInt >>> 8) % 256
      .ok (Value.literal (Literal.ofNat byte1) type)
  else if mode = UNPACK_8C_32 then
    if type.isFloatingType then .ok (unpackColor fc literal type 16)
    else
      let byte2 := (literal.unsignedInt >>> 16) % 256
      .ok (Value.literal (Literal.ofNat byte2) type)
  else if mode = UNPACK_8D_32 then
    if type.isFloatingType then .ok (unpackColor fc literal type 24)
    else
      let byte3 := (literal.unsignedInt >>> 24) % 256
      .ok (Value.literal (Literal.ofNat byte3) type)
  else if mode = UNPACK_R4_16A_32 then
    let lowWord := literal.unsignedInt % 65536
    .ok (Value.literal (fc.halfToFloat lowWord) type)
  else if mode = UNPACK_R4_16B_32 then
    let highWord := (literal.unsignedInt >>> 16) % 65536
    .ok (Value.literal (fc.halfToFloat highWord) type)
  else if mode = UNPACK_R4_COLOR0 then .ok (unpackColor fc literal type 0)
  else if mode = UNPACK_R4_COLOR1 then .ok (unpackColor fc literal type 8)
  else if mode = UNPACK_R4_COLOR2 then .ok (unpackColor fc literal type 16)
  else if mode = UNPACK_R4_COLOR3 then .ok (unpackColor fc literal type 24)
  else .error ⟨CompilationStep.GENERAL, "Unsupported unpack-mode"⟩

/-- The accessor `Value::checkContainer()`: the lanes of a container. -/
def Value.checkContainer : Value → Option (List Value)
  | Value.container elements _ => some elements
  | _ => none

/-- The loop of `Unpack::operator()` over the lanes of a container: `ok none`
is the `return NO_VALUE` at the first lane without literal. -/
def Unpack.unpackElements (fc : FloatConv) (u : Unpack) :
    List Value → Except CompilationError (Option (List Value))
  | [] => .ok (some [])
  | elem :: rest =>
    match elem.getLiteralValue with
    | some lit =>
      match unpackLiteral fc u lit elem.type with
      | .error e => .error e
      | .ok r =>
        match Unpack.unpackElements fc u rest with
        | .error e => .error e
        | .ok none => .ok none
        | .ok (some rs) => .ok (some (r :: rs))
    | none => .ok none

/-- The function `Unpack::operator()`: `ok none` is `NO_VALUE`. -/
def Unpack.apply (fc : FloatConv) (u : Unpack) (val : Value) :
    Except CompilationError (Option Value) :=
  if !u.hasEffect then .ok (some val)
  else if !val.type.isSimpleType then .ok none
  else
    match val.checkContainer with
    | some elements =>
      match Unpack.unpackElements fc u elements with
      | .error e => .error e
      | .ok none => .ok none
      | .ok (some result) => .ok (some (Value.container result val.type))
    | none =>
      match val.getLiteralValue with
      | some lit =>
        match unpackLiteral fc u lit val.type with
        | .error e => .error e
        | .ok r => .ok (some r)
      | none => .ok none

/-- Modelled from the spec: `Pack` of OpCodes.h (absent), a record around the
encoding whose bit 4 is "pm". -/
structure Pack where
  value : Nat
deriving DecidableEq, Repr

/-- Modelled from the spec: constant `PACK_NOP` of OpCodes.h. -/
def PACK_NOP : Pack := ⟨0⟩
/-- Modelled from the spec: constant `PACK_32_16A` of OpCodes.h. -/
def PACK_32_16A : Pack := ⟨1⟩
/-- Modelled from the spec: constant `PACK_32_16B` of OpCodes.h. -/
def PACK_32_16B : Pack := ⟨2⟩
/-- Modelled from the spec: constant `PACK_32_8888` of OpCodes.h. -/
def PACK_32_8888 : Pack := ⟨3⟩
/-- Modelled from the spec: constant `PACK_32_8A` of OpCodes.h. -/
def PACK_32_8A : Pack := ⟨4⟩
/-- Modelled from the spec: constant `PACK_32_8B` of OpCodes.h. -/
def PACK_32_8B : Pack := ⟨5⟩
/-- Modelled from the spec: constant `PACK_32_8C` of OpCodes.h. -/
def PACK_32_8C : Pack := ⟨6⟩
/-- Modelled from the spec: constant `PACK_32_8D` of OpCodes.h. -/
def PACK_32_8D : Pack := ⟨7⟩
/-- Modelled from the spec: constant `PACK_32_32` of OpCodes.h. -/
def PACK_32_32 : Pack := ⟨8⟩
/-- Modelled from the spec: constant `PACK_32_16A_S` of OpCodes.h. -/
def PACK_32_16A_S : Pack := ⟨9⟩
/-- Modelled from the spec: constant `PACK_32_16B_S` of OpCodes.h. -/
def PACK_32_16B_S : Pack := ⟨10⟩
/-- Modelled from the spec: constant `PACK_32_8888_S` of OpCodes.h. -/
def PACK_32_8888_S : Pack := ⟨11⟩
/-- Modelled from the spec: constant `PACK_32_8A_S` of OpCodes.h. -/
def PACK_32_8A_S : Pack := ⟨12⟩
/-- Modelled from the spec: constant `PACK_32_8B_S` of OpCodes.h. -/
def PACK_32_8B_S : Pack := ⟨13⟩
/-- Modelled from the spec: constant `PACK_32_8C_S` of OpCodes.h. -/
def PACK_32_8C_S : Pack := ⟨14⟩
/-- Modelled from the spec: constant `PACK_32_8D_S` of OpCodes.h. -/
def PACK_32_8D_S : Pack := ⟨15⟩
/-- Modelled from the spec: constant `PACK_NOP_PM` of OpCodes.h. -/
def PACK_NOP_PM : Pack := ⟨16⟩
/-- Modelled from the spec: constant `PACK_MUL_GRAY_REPLICATE` of OpCodes.h. -/
def PACK_MUL_GRAY_REPLICATE : Pack := ⟨19⟩
/-- Modelled from the spec: constant `PACK_MUL_COLOR0` of OpCodes.h. -/
def PACK_MUL_COLOR0 : Pack := ⟨20⟩
/-- Modelled from the spec: constant `PACK_MUL_COLOR1` of OpCodes.h. -/
def PACK_MUL_COLOR1 : Pack := ⟨21⟩
/-- Modelled from the spec: constant `PACK_MUL_COLOR2` of OpCodes.h. -/
def PACK_MUL_COLOR2 : Pack := ⟨22⟩
/-- Modelled from the spec: constant `PACK_MUL_COLOR3` of OpCodes.h. -/
def PACK_MUL_COLOR3 : Pack := ⟨23⟩

/-- The predicate `Pack::isPMBitSet`. -/
def Pack.isPMBitSet (p : Pack) : Bool := decide (p.value &&& 16 ≠ 0)

/-- The predicate `Pack::hasEffect`. -/
def Pack.hasEffect (p : Pack) : Bool := decide (p.value ≠ 0) && decide (p.value ≠ 16)

/-- The function `packLiteral`; the error of the case `PACK_32_32` is its
`throw` on UNDEFINED overflow, the last error is the `throw` after the `switch`.
Shifts of a promoted `int` wrap at 32 bits. -/
def packLiteral (fc : FloatConv) (mode : Pack) (literal : Literal) (type : DataType)
    (flags : ElementFlags) : Except CompilationError Value :=
  if mode = PACK_NOP then .ok (Value.literal literal type)
  else if mode = PACK_32_16A then
    if type.isFloatingType then
      .ok (Value.literal (Literal.ofNat (fc.floatToHalf literal % 65536)) type)
    else .ok (Value.literal (Literal.ofNat (literal.unsignedInt &&& 65535)) type)
  else if mode = PACK_32_16A_S then
    if type.isFloatingType then
      .ok (Value.literal (Literal.ofNat (fc.floatToHalf literal % 65536)) type)
    else
      .ok (Value.literal
        (Literal.ofNat (u32 (saturate_i16 literal.signedInt) &&& 65535)) type)
  else if mode = PACK_32_16B then
    if type.isFloatingType then
      .ok (Value.literal (Literal.ofNat ((fc.floatToHalf literal % 65536) <<< 16)) type)
    else .ok (Value.literal (Literal.ofNat ((literal.unsignedInt &&& 65535) <<< 16)) type)
  else if mode = PACK_32_16B_S then
    if type.isFloatingType then
      .ok (Value.literal (Literal.ofNat ((fc.floatToHalf literal % 65536) <<< 16)) type)
    else
      .ok (Value.literal (Literal.ofInt (saturate_i16 literal.signedInt * 65536)) type)
  else if mode = PACK_32_32 then
    match flags.overflow with
    | FlagStatus.CLEAR => .ok (Value.literal literal type)
    | FlagStatus.SET =>
      if flags.negative = FlagStatus.CLEAR then
        .ok (Value.literal (Literal.ofNat 2147483648) type)
      else .ok (Value.literal (Literal.ofNat 2147483647) type)
    | FlagStatus.UNDEFINED =>
      .error ⟨CompilationStep.GENERAL, "Cannot saturate on unknown overflow flags"⟩
  else if mode = PACK_32_8888 then
    .ok (Value.literal
      (Literal.ofNat (((literal.unsignedInt &&& 255) <<< 24) |||
        ((literal.unsignedInt &&& 255) <<< 16) ||| ((literal.unsignedInt &&& 255) <<< 8) |||
        (literal.unsignedInt &&& 255))) type)
  else if mode = PACK_32_8888_S then
    .ok (Value.literal
      (Literal.ofNat ((saturate_u8 literal.unsignedInt <<< 24) |||
        (saturate_u8 literal.unsignedInt <<< 16) ||| (saturate_u8 literal.unsignedInt <<< 8) |||
        saturate_u8 literal.unsignedInt)) type)
  else if mode = PACK_32_8A then
    .ok (Value.literal (Literal.ofNat (literal.unsignedInt &&& 255)) type)
  else if mode = PACK_32_8A_S then
    .ok (Value.literal (Literal.ofNat (saturate_u8 literal.unsignedInt)) type)
  else if mode = PACK_32_8B then
    .ok (Value.literal (Literal.ofNat ((literal.unsignedInt &&& 255) <<< 8)) type)
  else if mode = PACK_32_8B_S then
    .ok (Value.literal (Literal.ofNat (saturate_u8 literal.unsignedInt <<< 8)) type)
  else if mode = PACK_32_8C then
    .ok (Value.literal (Literal.ofNat ((literal.unsignedInt &&& 255) <<< 16)) type)
  else if mode = PACK_32_8C_S then
    .ok (Value.literal (Literal.ofNat (saturate_u8 literal.unsignedInt <<< 16)) type)
  else if mode = PACK_32_8D then
    .ok (Value.literal (Literal.ofNat ((literal.unsignedInt &&& 255) <<< 24)) type)
  else if mode = PACK_32_8D_S then
    .ok (Value.literal (Literal.ofNat (saturate_u8 literal.unsignedInt <<< 24)) type)
  else if mode = PACK_MUL_GRAY_REPLICATE then
    let tmp := (fc.div255ToUInt literal % 4294967296) &&& 255
    .ok (Value.literal
      (Literal.ofNat ((tmp <<< 24) ||| (tmp <<< 16) ||| (tmp <<< 8) ||| tmp)) type)
  else if mode = PACK_MUL_COLOR0 then
    let tmp := (fc.mul255ToUInt literal % 4294967296) &&& 255
    .ok (Value.literal (Literal.ofNat tmp) type)
  else if mode = PACK_MUL_COLOR1 then
    let tmp := (fc.mul255ToUInt literal % 4294967296) &&& 255
    .ok (Value.literal (Literal.ofNat (tmp <<< 8)) type)
  else if mode = PACK_MUL_COLOR2 then
    let tmp := (fc.mul255ToUInt literal % 4294967296) &&& 255
    .ok (Value.literal (Literal.ofNat (tmp <<< 16)) type)
  else if mode = PACK_MUL_COLOR3 then
    let tmp := (fc.mul255ToUInt literal % 4294967296) &&& 255
    .ok (Value.literal (Literal.ofNat (tmp <<< 24)) type)
  else .error ⟨CompilationStep.GENERAL, "Unsupported pack-mode"⟩

/-- The loop of `Pack::operator()` over the lanes of a container, lane `i`
being packed with `flags[i]`; `ok none` is the `return NO_VALUE` at the first
lane without literal. -/
def Pack.packElements (fc : FloatConv) (p : Pack) (flags : VectorFlags) :
    Nat → List Value → Except CompilationError (Option (List Value))
  | _, [] => .ok (some [])
  | i, elem :: rest =>
    match elem.getLiteralValue with
    | some lit =>
      match packLiteral fc p lit elem.type (flags.lane i) with
      | .error e => .error e
      | .ok r =>
        match Pack.packElements fc p flags (i + 1) rest with
        | .error e => .error e
        | .ok none => .ok none
        | .ok (some rs) => .ok (some (r :: rs))
    | none => .ok none

/-- The function `Pack::operator()`: `ok none` is `NO_VALUE`. -/
def Pack.apply (fc : FloatConv) (p : Pack) (val : Value) (flags : VectorFlags) :
    Except CompilationError (Option Value) :=
  if !p.hasEffect then .ok (some val)
  else if !val.type.isSimpleType then .ok none
  else
    match val.checkContainer with
    | some elements =>
      match Pack.packElements fc p flags 0 elements with
      | .error e => .error e
      | .ok none => .ok none
      | .ok (some result) => .ok (some (Value.container result val.type))
    | none =>
      match val.getLiteralValue with
      | some lit =>
        match packLiteral fc p lit val.type (flags.lane 0) with
        | .error e => .error e
        | .ok r => .ok (some r)
      | none => .ok none

/-! ## Identity and absorbing elements -/

/-- Modelled from the spec: constant `TYPE_INT8` of Types.h. -/
def TYPE_INT8 : DataType := ⟨8, false, 1, false⟩

/-- Modelled from the spec: constant `INT_ZERO` of Values.h (absent), the
integer 0. -/
def INT_ZERO : Value := Value.literal (Literal.ofNat 0) TYPE_INT8
/-- Modelled from the spec: constant `INT_ONE` of Values.h (absent), the
integer 1. -/
def INT_ONE : Value := Value.literal (Literal.ofNat 1) TYPE_INT8
/-- Modelled from the spec: constant `VALUE_ALL_BITS_SET` of Values.h (absent),
"all-bits-set". -/
def VALUE_ALL_BITS_SET : Value := Value.literal (Literal.ofNat 4294967295) TYPE_INT32
/-- Modelled from the spec: constant `FLOAT_ZERO` of Values.h (absent), +0. -/
def FLOAT_ZERO : Value := Value.literal (Literal.ofNat 0) TYPE_FLOAT
/-- Modelled from the spec: constant `FLOAT_ONE` of Values.h (absent), 1.0. -/
def FLOAT_ONE : Value := Value.literal (Literal.ofNat 1065353216) TYPE_FLOAT
/-- Modelled from the spec: constant `FLOAT_NAN` of Values.h (absent), the quiet
NaN `0x7FC00000`. -/
def FLOAT_NAN : Value := Value.literal (Literal.ofNat 2143289344) TYPE_FLOAT

/-- The function `OpCode::getLeftIdentity`. -/
def OpCode.getLeftIdentity (code : OpCode) : Option Value :=
  if code.eq OP_ADD then some INT_ZERO
  else if code.eq OP_AND then some VALUE_ALL_BITS_SET
  else if code.eq OP_FADD then some FLOAT_ZERO
  else if code.eq OP_FMIN then some FLOAT_NAN
  else if code.eq OP_FMAX then some (Value.literal (Literal.ofNat 4286578688) TYPE_FLOAT)
  else if code.eq OP_FMUL then some FLOAT_ONE
  else if code.eq OP_MUL24 then some INT_ONE
  else if code.eq OP_OR then some INT_ZERO
  else if code.eq OP_XOR then some INT_ZERO
  else none

/-- The function `OpCode::getRightIdentity`. -/
def OpCode.getRightIdentity (code : OpCode) : Option Value :=
  if code.eq OP_ADD then some INT_ZERO
  else if code.eq OP_AND then some VALUE_ALL_BITS_SET
  else if code.eq OP_ASR then some INT_ZERO
  else if code.eq OP_FADD then some FLOAT_ZERO
  else if code.eq OP_FMIN then some FLOAT_NAN
  else if code.eq OP_FMUL then some FLOAT_ONE
  else if code.eq OP_FSUB then some FLOAT_ZERO
  else if code.eq OP_MUL24 then some INT_ONE
  else if code.eq OP_OR then some INT_ZERO
  else if code.eq OP_ROR then some INT_ZERO
  else if code.eq OP_SHL then some INT_ZERO
  else if code.eq OP_SHR then some INT_ZERO
  else if code.eq OP_SUB then some INT_ZERO
  else if code.eq OP_XOR then some INT_ZERO
  else none

/-- The function `OpCode::getLeftAbsorbingElement`. -/
def OpCode.getLeftAbsorbingElement (code : OpCode) : Option Value :=
  if code.eq OP_AND then some INT_ZERO
  else if code.eq OP_ASR then some INT_ZERO
  else if code.eq OP_FMAX then some FLOAT_NAN
  else if code.eq OP_FMAXABS then some FLOAT_NAN
  else if code.eq OP_FMINABS then some FLOAT_ZERO
  else if code.eq OP_FMUL then some FLOAT_ZERO
  else if code.eq OP_MUL24 then some INT_ZERO
  else if code.eq OP_OR then some VALUE_ALL_BITS_SET
  else if code.eq OP_ROR then some INT_ZERO
  else if code.eq OP_SHL then some INT_ZERO
  else if code.eq OP_SHR then some INT_ZERO
  else if code.eq OP_V8MIN then some INT_ZERO
  else if code.eq OP_V8MAX then some VALUE_ALL_BITS_SET
  else if code.eq OP_V8MULD then some INT_ZERO
  else none

/-- The function `OpCode::getRightAbsorbingElement`. -/
def OpCode.getRightAbsorbingElement (code : OpCode) : Option Value :=
  if code.eq OP_AND then some INT_ZERO
  else if code.eq OP_FMAX then some FLOAT_NAN
  else if code.eq OP_FMAXABS then some FLOAT_NAN
  else if code.eq OP_FMINABS then some FLOAT_ZERO
  else if code.eq OP_FMUL then some FLOAT_ZERO
  else if code.eq OP_MUL24 then some INT_ZERO
  else if code.eq OP_OR then some VALUE_ALL_BITS_SET
  else if code.eq OP_V8MIN then some INT_ZERO
  else if code.eq OP_V8MAX then some VALUE_ALL_BITS_SET
  else if code.eq OP_V8MULD then some INT_ZERO
  else none

/-! ## Ordering and lookup by selector -/

/-- The comparison `OpCode::operator<`. -/
def OpCode.lt (l r : OpCode) : Bool :=
  decide (l.opAdd < r.opAdd) || decide (l.opMul < r.opMul)

/-- The failures other than `CompilationError` that the embedded code can run
into: `std::out_of_range` of a checked `at(i)`, the failure of reading the value
of an empty `Optional` (the source: "throws if first element is no literal"),
and the dereference of a null pointer, which C++ leaves undefined. -/
inductive StdException where
  | out_of_range
  | bad_optional_access
  | null_dereference
deriving DecidableEq, Repr

/-- The checked element access `at(i)` of `std::array` and `std::vector`. -/
def arrayAt {α : Type} (elements : List α) (i : Nat) : Except StdException α :=
  match elements[i]? with
  | some x => .ok x
  | none => .error StdException.out_of_range

/-- The table `addCodes`: the opcode of each of the 32 ADD-ALU selectors. -/
def addCodes : List OpCode :=
  [OP_NOP, OP_FADD, OP_FSUB, OP_FMIN, OP_FMAX, OP_FMINABS, OP_FMAXABS, OP_FTOI, OP_ITOF,
   OP_NOP, OP_NOP, OP_NOP, OP_ADD, OP_SUB, OP_SHR, OP_ASR, OP_ROR, OP_SHL, OP_MIN, OP_MAX,
   OP_AND, OP_OR, OP_XOR, OP_NOT, OP_CLZ, OP_NOP, OP_NOP, OP_NOP, OP_NOP, OP_NOP, OP_V8ADDS,
   OP_V8SUBS]

/-- The table `mulCodes`: the opcode of each of the 8 MUL-ALU selectors. -/
def mulCodes : List OpCode :=
  [OP_NOP, OP_FMUL, OP_MUL24, OP_V8MULD, OP_V8MIN, OP_V8MAX, OP_V8ADDS, OP_V8SUBS]

/-- The lookup `OpCode::toOpCode(const unsigned char opCode, const bool isMulALU)`. -/
def OpCode.toOpCode (opCode : Nat) (isMulALU : Bool) : Except StdException OpCode :=
  if opCode = 0 then .ok OP_NOP
  else if isMulALU then arrayAt mulCodes opCode
  else arrayAt addCodes opCode

/-! ## The evaluator on values -/

/-- Modelled from the spec: constant `TYPE_UNKNOWN` of Types.h (absent), the
type of the global UNDEFINED sentinel; it is not a simple type. -/
def TYPE_UNKNOWN : DataType := ⟨0, false, 1, true⟩

/-- Modelled from the spec: constant `UNDEFINED_VALUE` of Values.h (absent), "the
global UNDEFINED sentinel". -/
def UNDEFINED_VALUE : Value := Value.undefined TYPE_UNKNOWN

/-- Modelled from the spec: `DataType::containsType` of Types.h (absent), the
test behind "the one whose scalar contains the other": same type family, and at
least the scalar width and the vector width of the other type. -/
def DataType.containsType (t other : DataType) : Bool :=
  decide (t = other) ||
    (!t.complex && !other.complex && t.floating == other.floating &&
      decide (other.scalarBitCount ≤ t.scalarBitCount) &&
      decide (other.vectorWidth ≤ t.vectorWidth))

/-- Modelled from the spec: `SmallImmediate::isVectorRotation` of Values.h
(absent); the encodings 48..63 are the vector rotations. -/
def SmallImmediate.isVectorRotation (imm : SmallImmediate) : Bool :=
  decide (48 ≤ imm.value) && decide (imm.value ≤ 63)

/-- The accessor `Value::isUndefined()`. -/
def Value.isUndefined : Value → Bool
  | Value.undefined _ => true
  | _ => false

/-- The accessor `Value::checkImmediate()`. -/
def Value.checkImmediate : Value → Option SmallImmediate
  | Value.immediate imm _ => some imm
  | _ => none

/-- The accessor `Value::checkLocal()`: the local behind a value. -/
def Value.checkLocal : Value → Option Nat
  | Value.localRef id _ => some id
  | _ => none

mutual
/-- Modelled from the spec: `Value::operator==` of Values.h (absent). Two values
are equal when they are the same alternative with the same content; "container
equality is lane-wise". The declared type is not part of the content. -/
def Value.beq : Value → Value → Bool
  | Value.literal a _, Value.literal b _ => decide (a = b)
  | Value.container as _, Value.container bs _ => Value.beqList as bs
  | Value.immediate a _, Value.immediate b _ => decide (a = b)
  | Value.register f n _, Value.register g m _ => decide (f = g) && decide (n = m)
  | Value.localRef a _, Value.localRef b _ => decide (a = b)
  | Value.undefined _, Value.undefined _ => true
  | _, _ => false
/-- Lane-wise equality of the lanes of two containers. -/
def Value.beqList : List Value → List Value → Bool
  | [], [] => true
  | a :: as, b :: bs => Value.beq a b && Value.beqList as bs
  | _, _ => false
end

/-- Modelled from the spec: `ContainerValue::isAllSame` of Values.h (absent), "a
container is all-same iff every lane equals lane 0". -/
def isAllSame (elements : List Value) : Bool :=
  match elements with
  | [] => true
  | first :: rest => rest.all (fun element => Value.beq element first)

mutual
/-- Nesting depth of a value: 0 for a scalar, one more than the deepest lane
for a container. -/
def Value.depth : Value → Nat
  | Value.container elements _ => Value.depthList elements + 1
  | _ => 0
/-- The depth of the deepest lane. -/
def Value.depthList : List Value → Nat
  | [] => 0
  | v :: vs => Max.max (Value.depth v) (Value.depthList vs)
end

/-- The first argument of the recursive call for lane `i`,
`firstContainer ? firstContainer->elements.at(i) : firstOperand`. -/
def OpCode.firstLane (firstOperand : Value) (firstContainer : Option (List Value))
    (i : Nat) : Except StdException Value :=
  match firstContainer with
  | some elements => arrayAt elements i
  | none => .ok firstOperand

/-- The second argument of the recursive call for lane `i`: `NO_VALUE` for a
unary opcode, else
`secondContainer ? secondContainer->elements.at(i) : secondVal.value()`. -/
def OpCode.secondLane (numOperands : Nat) (secondVal : Option Value)
    (secondContainer : Option (List Value)) (i : Nat) :
    Except StdException (Option Value) :=
  if numOperands = 1 then .ok none
  else
    match secondContainer with
    | some elements =>
      match arrayAt elements i with
      | .error e => .error e
      | .ok second => .ok (some second)
    | none =>
      match secondVal with
      | some second => .ok (some second)
      | none => .error StdException.bad_optional_access

/-- The loop of `OpCode::operator()` over the lanes, `for(i = 0; i < numElements;
++i)`, with `todo` lanes left: lane `i` of each operand is read with the checked
`at(i)` (a scalar operand is used for every lane), evaluated by `self`, the
recursive call of `operator()`, appended to `res`, and `flags[i]` is set to
lane 0 of its flags. `ok none` is the `return NO_VALUE` at the first lane
without result. -/
def OpCode.applyLanes
    (self : Value → Option Value → Except StdException PrecalculatedValue)
    (numOperands : Nat) (firstOperand : Value) (firstContainer : Option (List Value))
    (secondVal : Option Value) (secondContainer : Option (List Value)) :
    Nat → Nat → List Value → VectorFlags →
      Except StdException (Option (List Value × VectorFlags))
  | 0, _, res, flags => .ok (some (res, flags))
  | todo + 1, i, res, flags =>
    match OpCode.firstLane firstOperand firstContainer i with
    | .error e => .error e
    | .ok first =>
      match OpCode.secondLane numOperands secondVal secondContainer i with
      | .error e => .error e
      | .ok second =>
        match self first second with
        | .error e => .error e
        | .ok tmp =>
          match tmp.1 with
          | none => .ok none
          | some v =>
            OpCode.applyLanes self numOperands firstOperand firstContainer secondVal
              secondContainer todo (i + 1) (res ++ [v]) (flags.set i (tmp.2.lane 0))

/-- The local `secondVal` of `OpCode::operator()`: the second operand when it
is a literal or a container, `NO_VALUE` otherwise. -/
def OpCode.secondVal (secondOperand : Option Value) : Option Value :=
  match secondOperand with
  | none => none
  | some second =>
    if second.getLiteralValue.isSome || second.checkContainer.isSome then some second
    else none

/-- The local `calcPerComponent` of `OpCode::operator()`: one used operand is a
container of more than one lane that is not all-same. -/
def OpCode.calcPerComponent (code : OpCode) (firstContainer secondContainer : Option (List Value)) :
    Bool :=
  firstContainer.any (fun elements => decide (elements.length > 1) && !isAllSame elements) ||
    (decide (code.numOperands > 1) &&
      secondContainer.any (fun elements => decide (elements.length > 1) && !isAllSame elements))

/-- The local `resultType` of `OpCode::operator()`. -/
def OpCode.resultType (code : OpCode) (firstOperand : Value) (secondVal : Option Value) :
    DataType :=
  match secondVal with
  | some second =>
    if decide (code.numOperands > 1) &&
        (decide (second.type.getVectorWidth > firstOperand.type.getVectorWidth) ||
          second.type.containsType firstOperand.type) then second.type
    else firstOperand.type
  | none => firstOperand.type

/-- The local `numElements` of `OpCode::operator()`,
`std::max(firstContainer ? size : 1, secondVal ? (secondContainer ? size : 1) : 0)`. -/
def OpCode.numElements (firstContainer : Option (List Value)) (secondVal : Option Value)
    (secondContainer : Option (List Value)) : Nat :=
  Max.max
    (match firstContainer with
      | some elements => elements.length
      | none => 1)
    (match secondVal with
      | some _ =>
        (match secondContainer with
          | some elements => elements.length
          | none => 1)
      | none => 0)

/-- The literal behind an operand that is a literal or an all-same container,
`v.getLiteralValue() ? v.getLiteralValue().value() :
container->elements.at(0).getLiteralValue().value()`. -/
def OpCode.operandLiteral (operand : Value) (container : Option (List Value)) :
    Except StdException Literal :=
  match operand.getLiteralValue with
  | some lit => .ok lit
  | none =>
    match arrayAt (container.getD []) 0 with
    | .error e => .error e
    | .ok element =>
      match element.getLiteralValue with
      | some lit => .ok lit
      | none => .error StdException.bad_optional_access

/-- The local `secondLit` of `OpCode::operator()`: `INT_ZERO.literal()` without a
second value or for a unary opcode. -/
def OpCode.secondLit (code : OpCode) (secondVal : Option Value)
    (secondContainer : Option (List Value)) : Except StdException Literal :=
  match secondVal with
  | none => .ok (Literal.ofNat 0)
  | some second =>
    if code.numOperands = 1 then .ok (Literal.ofNat 0)
    else OpCode.operandLiteral second secondContainer

/-- The body of `OpCode::operator()(firstOperand, secondOperand)`, its recursive
calls on the lanes going through `self`. `ok (none, _)` is the result
`NO_VALUE`; the errors are the exceptions of `at(i)` and of `value()`. -/
def OpCode.applyStep (fp : FloatArith)
    (self : Value → Option Value → Except StdException PrecalculatedValue)
    (code : OpCode) (firstOperand : Value) (secondOperand : Option Value) :
    Except StdException PrecalculatedValue :=
  if decide (code.numOperands > 1) && secondOperand.isNone then
    .ok (none, VectorFlags.empty)
  else if decide (code.numOperands = 1) && firstOperand.isUndefined then
    .ok (some (if code.acceptsFloat = code.returnsFloat then
        Value.undefined firstOperand.type else UNDEFINED_VALUE), VectorFlags.empty)
  else if decide (code.numOperands = 2) && secondOperand.any Value.isUndefined then
    .ok (some (if code.acceptsFloat = code.returnsFloat ∧
          some firstOperand.type = secondOperand.map Value.type then
        Value.undefined firstOperand.type else UNDEFINED_VALUE), VectorFlags.empty)
  else if firstOperand.getLiteralValue.isNone && firstOperand.checkContainer.isNone then
    .ok (none, VectorFlags.empty)
  else
    let secondVal := OpCode.secondVal secondOperand
    if decide (code.numOperands > 1) && secondVal.isNone then
      .ok (none, VectorFlags.empty)
    else
      let firstContainer := firstOperand.checkContainer
      let secondContainer := secondVal.bind Value.checkContainer
      if firstOperand.checkImmediate.any SmallImmediate.isVectorRotation then
        .ok (none, VectorFlags.empty)
      else if decide (code.numOperands > 1) &&
          (secondVal.bind Value.checkImmediate).any SmallImmediate.isVectorRotation then
        .ok (none, VectorFlags.empty)
      else
        let resultType := OpCode.resultType code firstOperand secondVal
        if OpCode.calcPerComponent code firstContainer secondContainer then
          match OpCode.applyLanes self code.numOperands firstOperand firstContainer
              secondVal secondContainer
              (OpCode.numElements firstContainer secondVal secondContainer) 0 []
              VectorFlags.empty with
          | .error e => .error e
          | .ok none => .ok (none, VectorFlags.empty)
          | .ok (some (res, flags)) => .ok (some (Value.container res resultType), flags)
        else if firstOperand.isUndefined ||
            (decide (code.numOperands > 1) && secondVal.any Value.isUndefined) then
          .ok (some UNDEFINED_VALUE, VectorFlags.empty)
        else
          match OpCode.operandLiteral firstOperand firstContainer with
          | .error e => .error e
          | .ok firstLit =>
            match OpCode.secondLit code secondVal secondContainer with
            | .error e => .error e
            | .ok secondLit =>
              .ok (calcLiteral fp code firstLit secondLit resultType firstOperand.type)

/-- The recursion of `OpCode::operator()` unrolled `fuel` times. -/
def OpCode.applyFuel (fp : FloatArith) (code : OpCode) :
    Nat → Value → Option Value → Except StdException PrecalculatedValue
  | 0, _, _ => .ok (none, VectorFlags.empty)
  | fuel + 1, firstOperand, secondOperand =>
    OpCode.applyStep fp (OpCode.applyFuel fp code fuel) code firstOperand secondOperand

/-- The nesting depth of an optional operand. -/
def Value.depthOpt (v : Option Value) : Nat :=
  match v with
  | some x => x.depth
  | none => 0

/-- The evaluator `OpCode::operator()(firstOperand, secondOperand)`. Each
recursive call is on lanes of the operands, so the recursion is unrolled once
more than the operands are deep, which makes it total (`OpCode.apply_unfold`
shows that it satisfies the recursive equation of the source). -/
def OpCode.apply (fp : FloatArith) (code : OpCode) (firstOperand : Value)
    (secondOperand : Option Value) : Except StdException PrecalculatedValue :=
  OpCode.applyFuel fp code (firstOperand.depth + Value.depthOpt secondOperand + 1)
    firstOperand secondOperand

/-! ## The vector fanout in the words of the specification -/

/-- The number of lanes of an operand, "a scalar counting as one lane". -/
def Value.laneCount (v : Value) : Nat :=
  match v.checkContainer with
  | some elements => elements.length
  | none => 1

/-- Lane `i` of an operand, "a scalar operand being used for every lane". -/
def Value.lane (v : Value) (i : Nat) : Value :=
  match v.checkContainer with
  | some elements => elements.getD i v
  | none => v

/-- A non-uniform container: "more than one lane, not all lanes equal". -/
def Value.isNonUniform (v : Value) : Bool :=
  match v.checkContainer with
  | some elements => decide (elements.length > 1) && !isAllSame elements
  | none => false

/-- The result of the vector fanout in the words of the specification, from the
results `rs` of the lane evaluations: NONE when the evaluation of any lane is
NONE, otherwise the container of the lane values, of type `resultType`, whose
flags at index `i` are lane 0 of the flags of lane evaluation `i` (the flags of
the remaining lanes of the 16 stay UNDEFINED). -/
def fanoutSpec (rs : List PrecalculatedValue) (resultType : DataType) : PrecalculatedValue :=
  if rs.all (fun r => r.1.isSome) then
    (some (Value.container (rs.filterMap (fun r => r.1)) resultType),
      rs.map (fun r => r.2.lane 0) ++ List.replicate (16 - rs.length) ({} : ElementFlags))
  else (none, VectorFlags.empty)

/-! ## Expressions -/

/-- Modelled from the spec: `Optional<Value>::operator==` of Optional.h (absent),
also used to compare an `Optional<Value>` with a `Value`: two empty optionals are
equal, an empty one differs from every value. -/
def Value.beqOpt : Option Value → Option Value → Bool
  | none, none => true
  | some a, some b => Value.beq a b
  | _, _ => false

/-- Modelled from the spec: `add_flag` on `InstructionDecorations` (absent), "a
bitset of semantic hints ... propagated through algebraic simplification via
union". -/
def add_flag (deco other : Nat) : Nat := deco ||| other

/-- The record `Expression`: `(code, arg0, arg1?, unpack, pack, decoration)`. -/
structure Expression where
  code : OpCode
  arg0 : Value
  arg1 : Option Value
  unpackMode : Unpack
  packMode : Pack
  deco : Nat

/-- The comparison `Expression::operator==`. -/
def Expression.beq (e other : Expression) : Bool :=
  e.code.eq other.code &&
    ((Value.beq e.arg0 other.arg0 && Value.beqOpt e.arg1 other.arg1) ||
      (e.code.isCommutative && Value.beqOpt (some e.arg0) other.arg1 &&
        Value.beqOpt e.arg1 (some other.arg0))) &&
    decide (e.unpackMode = other.unpackMode) && decide (e.packMode = other.packMode) &&
    decide (e.deco = other.deco)

/-- The predicate `Expression::isMoveExpression`. -/
def Expression.isMoveExpression (e : Expression) : Bool :=
  (e.code.eq OP_OR || e.code.eq OP_V8MAX || e.code.eq OP_V8MIN) &&
    Value.beqOpt e.arg1 (some e.arg0)

/-- The function `Expression::getConstantExpression`, `code(arg0, arg1).first`. -/
def Expression.getConstantExpression (fp : FloatArith) (e : Expression) :
    Except StdException (Option Value) :=
  match e.code.apply fp e.arg0 e.arg1 with
  | .error err => .error err
  | .ok r => .ok r.1

/-- The predicate `Expression::hasConstantOperand`. -/
def Expression.hasConstantOperand (e : Expression) : Bool :=
  e.arg0.getLiteralValue.isSome || e.arg0.checkContainer.isSome ||
    e.arg1.any (fun v => v.getLiteralValue.isSome || v.checkContainer.isSome)

/-- The hash `std::hash<vc4c::Expression>`: the XOR of the hash of the opcode
name, the hashes of the arguments, the pack and unpack encodings and the
decorations. The library hash of the name and the hash of a `Value` (absent) are
the parameters `nameHash` and `valHash`. -/
def Expression.hash (nameHash : String → Nat) (valHash : Value → Nat) (expr : Expression) :
    Nat :=
  nameHash expr.code.name ^^^ valHash expr.arg0 ^^^
    (match expr.arg1 with
      | some v => valHash v
      | none => 0) ^^^
    expr.unpackMode.value ^^^ expr.packMode.value ^^^ expr.deco

/-- The unary rules of `Expression::combineWith`, the block under
`code.numOperands == 1 && expr0 != nullptr`; `ok none` is leaving the block
without `return`. The idempotent collapse reads `expr1->arg1`, which
dereferences a null pointer when the second argument is not bound. -/
def Expression.combineUnary (e : Expression) (expr0 expr1 : Option Expression) :
    Except StdException (Option Expression) :=
  match expr0 with
  | none => .ok none
  | some e0 =>
    if e.code.numOperands = 1 then
      if e.code.isIdempotent && e0.code.eq e.code then
        match expr1 with
        | some e1 =>
          .ok (some ⟨e.code, e0.arg0, e1.arg1, UNPACK_NOP, PACK_NOP, add_flag e.deco e0.deco⟩)
        | none => .error StdException.null_dereference
      else if e.code.eq OP_NOT && e0.code.eq OP_NOT then
        .ok (some ⟨OP_V8MIN, e0.arg0, none, UNPACK_NOP, PACK_NOP, add_flag e.deco e0.deco⟩)
      else .ok none
    else .ok none

/-- The locals `firstArgConstant` and `secondArgConstant` of
`Expression::combineWith`: the argument itself when it is a literal or a
container, else the constant-folded value of the expression bound to it. -/
def Expression.argConstant (fp : FloatArith) (arg : Option Value) (expr : Option Expression) :
    Except StdException (Option Value) :=
  if arg.any (fun v => v.getLiteralValue.isSome || v.checkContainer.isSome) then .ok arg
  else
    match expr with
    | some bound => bound.getConstantExpression fp
    | none => .ok none

/-- The result `Expression{OP_FMUL, a, Value(Literal(k.real() + 1.0f), TYPE_FLOAT),
UNPACK_NOP, PACK_NOP, deco}` of the FADD+FMUL fusion. -/
def Expression.fused (fp : FloatArith) (a : Value) (k : Literal) (deco : Nat) : Expression :=
  ⟨OP_FMUL, a, some (Value.literal (fp.add k (Literal.ofNat 1065353216)) TYPE_FLOAT),
    UNPACK_NOP, PACK_NOP, deco⟩

/-- One block of the FADD+FMUL fusion of `Expression::combineWith`, for the
argument bound to the expression `bound` and the other argument `other`:
`if(code == OP_FADD && bound && bound->code == OP_FMUL)` with its two
`return`s; `ok none` is leaving the block without `return`. Reading the value of
an empty `other` or of an empty `bound->arg1` fails. -/
def Expression.fuse (fp : FloatArith) (e : Expression) (bound : Option Expression)
    (other : Option Value) : Except StdException (Option Expression) :=
  match bound with
  | none => .ok none
  | some eb =>
    if e.code.eq OP_FADD && eb.code.eq OP_FMUL then
      if Value.beqOpt (some eb.arg0) other then
        match eb.arg1 with
        | none => .error StdException.bad_optional_access
        | some factor =>
          match factor.getLiteralValue with
          | some k =>
            match other with
            | some a => .ok (some (Expression.fused fp a k (add_flag e.deco eb.deco)))
            | none => .error StdException.bad_optional_access
          | none =>
            if Value.beqOpt eb.arg1 other then
              match eb.arg0.getLiteralValue with
              | some k =>
                match other with
                | some a => .ok (some (Expression.fused fp a k (add_flag e.deco eb.deco)))
                | none => .error StdException.bad_optional_access
              | none => .ok none
            else .ok none
      else if Value.beqOpt eb.arg1 other then
        match eb.arg0.getLiteralValue with
        | some k =>
          match other with
          | some a => .ok (some (Expression.fused fp a k (add_flag e.deco eb.deco)))
          | none => .error StdException.bad_optional_access
        | none => .ok none
      else .ok none
    else .ok none

/-- The binary rules of `Expression::combineWith`, the block under
`code.numOperands == 2`, up to the FADD doubling; `ok none` is reaching the
FADD+FMUL fusion. -/
def Expression.combineBinary (e : Expression) : Except StdException (Option Expression) :=
  if e.code.isIdempotent && Value.beqOpt (some e.arg0) e.arg1 then
    .ok (some ⟨OP_V8MIN, e.arg0, some e.arg0, UNPACK_NOP, PACK_NOP, e.deco⟩)
  else if Value.beqOpt (OpCode.getLeftIdentity e.code) (some e.arg0) then
    match e.arg1 with
    | some a1 => .ok (some ⟨OP_V8MIN, a1, e.arg1, UNPACK_NOP, PACK_NOP, e.deco⟩)
    | none => .error StdException.bad_optional_access
  else if Value.beqOpt (OpCode.getRightIdentity e.code) e.arg1 then
    .ok (some ⟨OP_V8MIN, e.arg0, some e.arg0, UNPACK_NOP, PACK_NOP, e.deco⟩)
  else if Value.beqOpt (OpCode.getLeftAbsorbingElement e.code) (some e.arg0) then
    .ok (some ⟨OP_V8MIN, e.arg0, some e.arg0, UNPACK_NOP, PACK_NOP, e.deco⟩)
  else if Value.beqOpt (OpCode.getRightAbsorbingElement e.code) e.arg1 then
    match e.arg1 with
    | some a1 => .ok (some ⟨OP_V8MIN, a1, e.arg1, UNPACK_NOP, PACK_NOP, e.deco⟩)
    | none => .error StdException.bad_optional_access
  else if e.code.eq OP_FADD && Value.beqOpt (some e.arg0) e.arg1 then
    .ok (some ⟨OP_FMUL, e.arg0, some (Value.literal (Literal.ofNat 1073741824) TYPE_FLOAT),
      UNPACK_NOP, PACK_NOP, e.deco⟩)
  else .ok none

/-- The function `Expression::combineWith(inputs)`; `inputs` maps a local to the
expression bound to it. -/
def Expression.combineWith (fp : FloatArith) (e : Expression)
    (inputs : Nat → Option Expression) : Except StdException Expression :=
  let expr0 := e.arg0.checkLocal.bind inputs
  let expr1 := (e.arg1.bind Value.checkLocal).bind inputs
  if expr0.isNone && expr1.isNone then .ok e
  else if e.unpackMode.hasEffect || e.packMode.hasEffect ||
      expr0.any (fun x => x.unpackMode.hasEffect || x.packMode.hasEffect) ||
      expr1.any (fun x => x.unpackMode.hasEffect || x.packMode.hasEffect) then .ok e
  else
    match Expression.combineUnary e expr0 expr1 with
    | .error err => .error err
    | .ok (some r) => .ok r
    | .ok none =>
      match Expression.argConstant fp (some e.arg0) expr0 with
      | .error err => .error err
      | .ok _ =>
        match Expression.argConstant fp e.arg1 expr1 with
        | .error err => .error err
        | .ok _ =>
          if e.code.numOperands = 2 then
            match Expression.combineBinary e with
            | .error err => .error err
            | .ok (some r) => .ok r
            | .ok none =>
              match Expression.fuse fp e expr0 e.arg1 with
              | .error err => .error err
              | .ok (some r) => .ok r
              | .ok none =>
                match Expression.fuse fp e expr1 (some e.arg0) with
                | .error err => .error err
                | .ok (some r) => .ok r
                | .ok none => .ok e
          else .ok e

/-! ## Saturation and distributivity -/

/-- Signed saturation in the words of the specification,
`clamp(x, -2^31, 2^31 - 1)`. -/
def clamp_i32 (x : Int) : Int := Max.max (Min.min x 2147483647) (-2147483648)

/-- The predicate `OpCode::isLeftDistributiveOver`. -/
def OpCode.isLeftDistributiveOver (c other : OpCode) : Bool :=
  if c.eq OP_FMUL then other.eq OP_FADD || other.eq OP_FSUB
  else if c.eq OP_FADD then other.eq OP_FMIN || other.eq OP_FMAX
  else if c.eq OP_ADD then other.eq OP_MIN || other.eq OP_MAX
  else if c.eq OP_AND then other.eq OP_OR || other.eq OP_XOR
  else false

/-- The predicate `OpCode::isRightDistributiveOver`. -/
def OpCode.isRightDistributiveOver (c other : OpCode) : Bool :=
  if c.eq OP_FMUL then other.eq OP_FADD || other.eq OP_FSUB
  else if c.eq OP_FADD then other.eq OP_FMIN || other.eq OP_FMAX
  else if c.eq OP_ADD then other.eq OP_MIN || other.eq OP_MAX
  else if c.eq OP_AND then other.eq OP_OR || other.eq OP_XOR
  else false

/-! ## Basic facts about the machine-integer helpers -/

theorem Literal.eq_of_u_eq {a b : Literal} (h : a.u = b.u) : a = b := by
  cases a; cases b; cases h; rfl

theorem Literal.ofNat_u (a : Literal) : Literal.ofNat a.u = a :=
  Literal.eq_of_u_eq (Nat.mod_eq_of_lt a.h)

theorem Literal.ofInt_signedInt (a : Literal) : Literal.ofInt a.signedInt = a := by
  apply Literal.eq_of_u_eq
  have := a.h
  simp only [Literal.ofInt, Literal.signedInt, u32, i32]
  split <;> omega

theorem Literal.signedInt_neg_iff (a : Literal) : a.signedInt < 0 ↔ 2147483648 ≤ a.u := by
  have := a.h
  simp only [Literal.signedInt, i32]
  split <;> omega

theorem setFlagsCarry_literal (l : Literal) (t : DataType) (c : Bool) :
    setFlagsCarry (Value.literal l t) c =
      (some (Value.literal l t),
       VectorFlags.splat
        { zero := FlagStatus.ofBool (decide (l.unsignedInt = 0)),
          negative := FlagStatus.ofBool (decide (l.signedInt < 0)),
          carry := FlagStatus.ofBool c }) := rfl

theorem setFlagsCarryOverflow_literal (l : Literal) (t : DataType) (c o : Bool) :
    setFlagsCarryOverflow (Value.literal l t) c o =
      (some (Value.literal l t),
       VectorFlags.splat
        { zero := FlagStatus.ofBool (decide (l.unsignedInt = 0)),
          negative := FlagStatus.ofBool (decide (l.signedInt < 0)),
          carry := FlagStatus.ofBool c,
          overflow := FlagStatus.ofBool o }) := rfl

theorem setFlags_literal (l : Literal) (t : DataType) :
    setFlags (Value.literal l t) =
      (some (Value.literal l t),
       VectorFlags.splat
        { zero := FlagStatus.ofBool (decide (l.unsignedInt = 0)),
          negative := FlagStatus.ofBool (decide (l.signedInt < 0)) }) := rfl

/-- C1: for all literals `a`, `b`, ADD yields `(a + b) mod 2^32`, carry SET
iff the unsigned sum exceeds `0xFFFFFFFF`, overflow SET iff the signed sum lies
outside `[-2^31, 2^31 - 1]` (CLEAR otherwise); `ADD(0x7FFFFFFF, 1) = 0x80000000`
with zero CLEAR, negative SET, carry CLEAR, overflow SET and
`ADD(0xFFFFFFFF, 1) = 0` with zero SET, negative CLEAR, carry SET, overflow CLEAR. -/
theorem calcLiteral_ADD (fp : FloatArith) (a b : Literal) (rt ft : DataType) :
    calcLiteral fp OP_ADD a b rt ft =
      (some (Value.literal (Literal.ofNat ((a.unsignedInt + b.unsignedInt) % 4294967296)) rt),
       VectorFlags.splat
        { zero := FlagStatus.ofBool (decide ((a.unsignedInt + b.unsignedInt) % 4294967296 = 0)),
          negative := FlagStatus.ofBool
            (decide (2147483648 ≤ (a.unsignedInt + b.unsignedInt) % 4294967296)),
          carry := FlagStatus.ofBool (decide (a.unsignedInt + b.unsignedInt > 4294967295)),
          overflow := FlagStatus.ofBool
            (decide (a.signedInt + b.signedInt < -2147483648 ∨
              2147483647 < a.signedInt + b.signedInt)) }) ∧
    calcLiteral fp OP_ADD (Literal.ofNat 0x7FFFFFFF) (Literal.ofNat 1) rt ft =
      (some (Value.literal (Literal.ofNat 0x80000000) rt),
       VectorFlags.splat ⟨FlagStatus.CLEAR, FlagStatus.SET, FlagStatus.CLEAR, FlagStatus.SET⟩) ∧
    calcLiteral fp OP_ADD (Literal.ofNat 0xFFFFFFFF) (Literal.ofNat 1) rt ft =
      (some (Value.literal (Literal.ofNat 0) rt),
       VectorFlags.splat ⟨FlagStatus.SET, FlagStatus.CLEAR, FlagStatus.SET, FlagStatus.CLEAR⟩) := by
  refine ⟨?_, rfl, rfl⟩
  have h1 : calcLiteral fp OP_ADD a b rt ft =
      setFlagsCarryOverflow
        (Value.literal (Literal.ofInt (a.signedInt + b.signedInt)) rt)
        (decide (a.unsignedInt + b.unsignedInt > 4294967295))
        (decide (a.signedInt + b.signedInt > 2147483647) ||
          decide (a.signedInt + b.signedInt < -2147483648)) := rfl
  have hv : Literal.ofInt (a.signedInt + b.signedInt) =
      Literal.ofNat ((a.unsignedInt + b.unsignedInt) % 4294967296) := by
    apply Literal.eq_of_u_eq
    have := a.h
    have := b.h
    simp only [Literal.ofInt, Literal.ofNat, Literal.signedInt, Literal.unsignedInt, u32, i32]
    split <;> split <;> omega
  have hz : decide ((Literal.ofNat ((a.unsignedInt + b.unsignedInt) % 4294967296)).unsignedInt = 0)
      = decide ((a.unsignedInt + b.unsignedInt) % 4294967296 = 0) := by
    simp [Literal.ofNat, Literal.unsignedInt]
  have hn : decide ((Literal.ofNat ((a.unsignedInt + b.unsignedInt) % 4294967296)).signedInt < 0)
      = decide (2147483648 ≤ (a.unsignedInt + b.unsignedInt) % 4294967296) := by
    rw [decide_eq_decide, Literal.signedInt_neg_iff]
    simp [Literal.ofNat]
  have ho : (decide (a.signedInt + b.signedInt > 2147483647) ||
        decide (a.signedInt + b.signedInt < -2147483648)) =
      decide (a.signedInt + b.signedInt < -2147483648 ∨
        2147483647 < a.signedInt + b.signedInt) := by
    rw [Bool.or_comm, Bool.decide_or]
  rw [h1, hv, setFlagsCarryOverflow_literal, hz, hn, ho]

/-! ## Bytes and masks -/

theorem and_255 (x : Nat) : x &&& 255 = x % 256 := Nat.and_pow_two_sub_one_eq_mod x 8
theorem and_16777215 (x : Nat) : x &&& 16777215 = x % 16777216 := Nat.and_pow_two_sub_one_eq_mod x 24
theorem shr_8 (x : Nat) : x >>> 8 = x / 256 := Nat.shiftRight_eq_div_pow x 8
theorem shr_16 (x : Nat) : x >>> 16 = x / 65536 := Nat.shiftRight_eq_div_pow x 16
theorem shr_24 (x : Nat) : x >>> 24 = x / 16777216 := Nat.shiftRight_eq_div_pow x 24

theorem assemble_bytes (x0 x1 x2 x3 : Nat) (h0 : x0 < 256) (h1 : x1 < 256) (h2 : x2 < 256) :
    (x3 <<< 24) ||| (x2 <<< 16) ||| (x1 <<< 8) ||| x0 =
      x3 * 16777216 + x2 * 65536 + x1 * 256 + x0 := by
  have e3 : x3 <<< 24 = 2 ^ 24 * x3 := by rw [Nat.shiftLeft_eq, Nat.mul_comm]
  have e2 : x2 <<< 16 = 2 ^ 16 * x2 := by rw [Nat.shiftLeft_eq, Nat.mul_comm]
  have e1 : x1 <<< 8 = 2 ^ 8 * x1 := by rw [Nat.shiftLeft_eq, Nat.mul_comm]
  have s1 : 2 ^ 24 * x3 ||| 2 ^ 16 * x2 = 2 ^ 16 * (256 * x3 + x2) := by
    rw [← Nat.mul_add_lt_is_or (by omega) x3]; omega
  have s2 : 2 ^ 16 * (256 * x3 + x2) ||| 2 ^ 8 * x1 = 2 ^ 8 * (65536 * x3 + 256 * x2 + x1) := by
    rw [← Nat.mul_add_lt_is_or (by omega) (256 * x3 + x2)]; omega
  have s3 : 2 ^ 8 * (65536 * x3 + 256 * x2 + x1) ||| x0 =
      x3 * 16777216 + x2 * 65536 + x1 * 256 + x0 := by
    rw [← Nat.mul_add_lt_is_or (by omega) (65536 * x3 + 256 * x2 + x1)]; omega
  rw [e3, e2, e1, s1, s2, s3]

theorem Literal.testBit_31 (a : Literal) : a.u.testBit 31 = decide (2147483648 ≤ a.u) := by
  have := a.h
  rw [Nat.testBit_to_div_mod, decide_eq_decide]
  omega

/-- C2: for all literals `a`, `b`, SUB yields `(a - b) mod 2^32`, carry SET iff
the exact signed difference is negative and overflow SET iff the exact signed
difference lies outside `[-2^31, 2^31 - 1]` (CLEAR otherwise). -/
theorem calcLiteral_SUB (fp : FloatArith) (a b : Literal) (rt ft : DataType) :
    calcLiteral fp OP_SUB a b rt ft =
      (some (Value.literal
        (Literal.ofNat ((a.unsignedInt + 4294967296 - b.unsignedInt) % 4294967296)) rt),
       VectorFlags.splat
        { zero := FlagStatus.ofBool
            (decide ((a.unsignedInt + 4294967296 - b.unsignedInt) % 4294967296 = 0)),
          negative := FlagStatus.ofBool
            (decide (2147483648 ≤ (a.unsignedInt + 4294967296 - b.unsignedInt) % 4294967296)),
          carry := FlagStatus.ofBool (decide (a.signedInt - b.signedInt < 0)),
          overflow := FlagStatus.ofBool
            (decide (a.signedInt - b.signedInt < -2147483648 ∨
              2147483647 < a.signedInt - b.signedInt)) }) ∧
    (((a.unsignedInt + 4294967296 - b.unsignedInt) % 4294967296 : Nat) : Int) =
      ((a.unsignedInt : Int) - (b.unsignedInt : Int)) % 4294967296 := by
  have ha := a.h
  have hb := b.h
  refine ⟨?_, by simp only [Literal.unsignedInt]; omega⟩
  have h1 : calcLiteral fp OP_SUB a b rt ft =
      setFlagsCarryOverflow
        (Value.literal (Literal.ofInt (a.signedInt - b.signedInt)) rt)
        (decide (a.signedInt - b.signedInt < 0))
        (decide (a.signedInt - b.signedInt > 2147483647) ||
          decide (a.signedInt - b.signedInt < -2147483648)) := rfl
  have hv : Literal.ofInt (a.signedInt - b.signedInt) =
      Literal.ofNat ((a.unsignedInt + 4294967296 - b.unsignedInt) % 4294967296) := by
    apply Literal.eq_of_u_eq
    simp only [Literal.ofInt, Literal.ofNat, Literal.signedInt, Literal.unsignedInt, u32, i32]
    split <;> split <;> omega
  have hz : decide ((Literal.ofNat
        ((a.unsignedInt + 4294967296 - b.unsignedInt) % 4294967296)).unsignedInt = 0)
      = decide ((a.unsignedInt + 4294967296 - b.unsignedInt) % 4294967296 = 0) := by
    simp [Literal.ofNat, Literal.unsignedInt]
  have hn : decide ((Literal.ofNat
        ((a.unsignedInt + 4294967296 - b.unsignedInt) % 4294967296)).signedInt < 0)
      = decide (2147483648 ≤ (a.unsignedInt + 4294967296 - b.unsignedInt) % 4294967296) := by
    rw [decide_eq_decide, Literal.signedInt_neg_iff]
    simp [Literal.ofNat]
  have ho : (decide (a.signedInt - b.signedInt > 2147483647) ||
        decide (a.signedInt - b.signedInt < -2147483648)) =
      decide (a.signedInt - b.signedInt < -2147483648 ∨
        2147483647 < a.signedInt - b.signedInt) := by
    rw [Bool.or_comm, Bool.decide_or]
  rw [h1, hv, setFlagsCarryOverflow_literal, hz, hn, ho]

theorem ite_intro {α : Type} (P : α → Prop) (c : Prop) [Decidable c] (x y : α)
    (hx : P x) (hy : P y) : P (if c then x else y) := by
  split <;> assumption

/-- Every result of `calcLiteral` is either no value with empty flags, or a
literal whose zero and negative flags are read off its bit pattern. -/
theorem calcLiteral_shape (fp : FloatArith) (code : OpCode) (a b : Literal) (rt ft : DataType) :
    calcLiteral fp code a b rt ft = (none, VectorFlags.empty) ∨
    ∃ (lit : Literal) (ty : DataType) (c o : FlagStatus),
      calcLiteral fp code a b rt ft =
        (some (Value.literal lit ty),
         VectorFlags.splat
          { zero := FlagStatus.ofBool (decide (lit.unsignedInt = 0)),
            negative := FlagStatus.ofBool (decide (lit.signedInt < 0)),
            carry := c, overflow := o }) := by
  unfold calcLiteral
  repeat' first
    | refine ite_intro (fun r : PrecalculatedValue => r = (none, VectorFlags.empty) ∨
        ∃ (lit : Literal) (ty : DataType) (c o : FlagStatus),
          r = (some (Value.literal lit ty),
            VectorFlags.splat
              { zero := FlagStatus.ofBool (decide (lit.unsignedInt = 0)),
                negative := FlagStatus.ofBool (decide (lit.signedInt < 0)),
                carry := c, overflow := o })) _ _ _ ?_ ?_
    | exact Or.inr ⟨_, _, _, _, setFlagsCarryOverflow_literal _ _ _ _⟩
    | exact Or.inr ⟨_, _, _, _, setFlagsCarry_literal _ _ _⟩
    | exact Or.inr ⟨_, _, _, _, setFlags_literal _ _⟩
    | exact Or.inl rfl
    | (dsimp only; split)

theorem VectorFlags.lane_splat (f : ElementFlags) (i : Nat) (h : i < 16) :
    VectorFlags.lane (VectorFlags.splat f) i = f := by
  interval_cases i <;> rfl

theorem Literal.ofNat_u_of_lt {n : Nat} (h : n < 4294967296) : (Literal.ofNat n).u = n :=
  Nat.mod_eq_of_lt h

/-- C3: whenever the evaluator returns a value it is a literal, and in every
lane the zero flag is SET iff the 32-bit result is zero and the negative flag
is SET iff bit 31 of the result is 1 (CLEAR otherwise); `ElementFlags.fromValue`
on a literal sets exactly these two flags and leaves carry and overflow
UNDEFINED. -/
theorem calcLiteral_zero_negative (fp : FloatArith) (code : OpCode) (a b : Literal)
    (rt ft : DataType) (v : Value) (flags : VectorFlags)
    (h : calcLiteral fp code a b rt ft = (some v, flags)) :
    ∃ (lit : Literal) (ty : DataType), v = Value.literal lit ty ∧
      (∀ i : Fin 16,
        (flags.lane i.val).zero = FlagStatus.ofBool (decide (lit.unsignedInt = 0)) ∧
        (flags.lane i.val).negative = FlagStatus.ofBool (lit.unsignedInt.testBit 31)) ∧
      ElementFlags.fromValue v =
        { zero := FlagStatus.ofBool (decide (lit.unsignedInt = 0)),
          negative := FlagStatus.ofBool (lit.unsignedInt.testBit 31),
          carry := FlagStatus.UNDEFINED,
          overflow := FlagStatus.UNDEFINED } := by
  rcases calcLiteral_shape fp code a b rt ft with hn | ⟨lit, ty, c, o, hs⟩
  · rw [hn] at h
    cases h
  · rw [hs] at h
    have hv : Value.literal lit ty = v := by
      have := congrArg Prod.fst h
      exact Option.some.inj this
    have hf : VectorFlags.splat
          { zero := FlagStatus.ofBool (decide (lit.unsignedInt = 0)),
            negative := FlagStatus.ofBool (decide (lit.signedInt < 0)),
            carry := c, overflow := o } = flags := congrArg Prod.snd h
    have hneg : decide (lit.signedInt < 0) = lit.unsignedInt.testBit 31 := by
      rw [Literal.unsignedInt, Literal.testBit_31, decide_eq_decide]
      exact Literal.signedInt_neg_iff lit
    refine ⟨lit, ty, hv.symm, ?_, ?_⟩
    · intro i
      rw [← hf, VectorFlags.lane_splat _ i.val i.isLt, hneg]
      exact ⟨rfl, rfl⟩
    · rw [← hv, ← hneg]
      rfl

/-- Witness of C3 at `ADD(1, 2) = 3`. -/
theorem calcLiteral_zero_negative_witness :
    calcLiteral FloatArith.inert OP_ADD (Literal.ofNat 1) (Literal.ofNat 2) TYPE_INT32 TYPE_INT32 =
      (some (Value.literal (Literal.ofNat 3) TYPE_INT32),
        VectorFlags.splat
          ⟨FlagStatus.CLEAR, FlagStatus.CLEAR, FlagStatus.CLEAR, FlagStatus.CLEAR⟩) ∧
    ∃ (lit : Literal) (ty : DataType),
      Value.literal (Literal.ofNat 3) TYPE_INT32 = Value.literal lit ty ∧
      (∀ i : Fin 16,
        ((VectorFlags.splat
          ⟨FlagStatus.CLEAR, FlagStatus.CLEAR, FlagStatus.CLEAR, FlagStatus.CLEAR⟩).lane
            i.val).zero = FlagStatus.ofBool (decide (lit.unsignedInt = 0)) ∧
        ((VectorFlags.splat
          ⟨FlagStatus.CLEAR, FlagStatus.CLEAR, FlagStatus.CLEAR, FlagStatus.CLEAR⟩).lane
            i.val).negative = FlagStatus.ofBool (lit.unsignedInt.testBit 31)) ∧
      ElementFlags.fromValue (Value.literal (Literal.ofNat 3) TYPE_INT32) =
        { zero := FlagStatus.ofBool (decide (lit.unsignedInt = 0)),
          negative := FlagStatus.ofBool (lit.unsignedInt.testBit 31),
          carry := FlagStatus.UNDEFINED,
          overflow := FlagStatus.UNDEFINED } :=
  ⟨rfl, calcLiteral_zero_negative FloatArith.inert OP_ADD (Literal.ofNat 1) (Literal.ofNat 2)
    TYPE_INT32 TYPE_INT32 _ _ rfl⟩

theorem testBit_4294967295 (i : Nat) : (4294967295 : Nat).testBit i = decide (i < 32) :=
  Nat.testBit_two_pow_sub_one 32 i

/-- C4 fails for NOT: its overflow flag is UNDEFINED, not CLEAR. -/
theorem calcLiteral_NOT_overflow_undefined :
    (PrecalculatedValue.flags
      (calcLiteral FloatArith.inert OP_NOT (Literal.ofNat 0) (Literal.ofNat 0)
        TYPE_INT32 TYPE_INT32)).overflow = FlagStatus.UNDEFINED ∧
    (PrecalculatedValue.flags
      (calcLiteral FloatArith.inert OP_NOT (Literal.ofNat 0) (Literal.ofNat 0)
        TYPE_INT32 TYPE_INT32)).overflow ≠ FlagStatus.CLEAR := by
  decide

/-- C4, amended: AND, OR, XOR and NOT yield the bitwise and/or/xor/complement
of the operand patterns with carry CLEAR; overflow is CLEAR for AND, OR and XOR
and UNDEFINED for NOT. -/
theorem calcLiteral_bitwise (fp : FloatArith) (a b : Literal) (rt ft : DataType) :
    (∃ r : Literal, (calcLiteral fp OP_AND a b rt ft).1 = some (Value.literal r rt) ∧
      (∀ i, r.unsignedInt.testBit i = (a.unsignedInt.testBit i && b.unsignedInt.testBit i)) ∧
      (PrecalculatedValue.flags (calcLiteral fp OP_AND a b rt ft)).carry = FlagStatus.CLEAR ∧
      (PrecalculatedValue.flags (calcLiteral fp OP_AND a b rt ft)).overflow = FlagStatus.CLEAR) ∧
    (∃ r : Literal, (calcLiteral fp OP_OR a b rt ft).1 = some (Value.literal r rt) ∧
      (∀ i, r.unsignedInt.testBit i = (a.unsignedInt.testBit i || b.unsignedInt.testBit i)) ∧
      (PrecalculatedValue.flags (calcLiteral fp OP_OR a b rt ft)).carry = FlagStatus.CLEAR ∧
      (PrecalculatedValue.flags (calcLiteral fp OP_OR a b rt ft)).overflow = FlagStatus.CLEAR) ∧
    (∃ r : Literal, (calcLiteral fp OP_XOR a b rt ft).1 = some (Value.literal r rt) ∧
      (∀ i, r.unsignedInt.testBit i = (a.unsignedInt.testBit i != b.unsignedInt.testBit i)) ∧
      (PrecalculatedValue.flags (calcLiteral fp OP_XOR a b rt ft)).carry = FlagStatus.CLEAR ∧
      (PrecalculatedValue.flags (calcLiteral fp OP_XOR a b rt ft)).overflow = FlagStatus.CLEAR) ∧
    (∃ r : Literal, (calcLiteral fp OP_NOT a b rt ft).1 = some (Value.literal r rt) ∧
      (∀ i : Fin 32, r.unsignedInt.testBit i.val = !a.unsignedInt.testBit i.val) ∧
      (PrecalculatedValue.flags (calcLiteral fp OP_NOT a b rt ft)).carry = FlagStatus.CLEAR ∧
      (PrecalculatedValue.flags (calcLiteral fp OP_NOT a b rt ft)).overflow =
        FlagStatus.UNDEFINED) := by
  have ha := a.h
  have hb := b.h
  refine ⟨⟨Literal.ofNat (a.unsignedInt &&& b.unsignedInt), rfl, ?_, rfl, rfl⟩,
    ⟨Literal.ofNat (a.unsignedInt ||| b.unsignedInt), rfl, ?_, rfl, rfl⟩,
    ⟨Literal.ofNat (a.unsignedInt ^^^ b.unsignedInt), rfl, ?_, rfl, rfl⟩,
    ⟨Literal.ofNat (a.unsignedInt ^^^ 4294967295), rfl, ?_, rfl, rfl⟩⟩
  · intro i
    have hlt : a.u &&& b.u < 4294967296 := Nat.and_lt_two_pow a.u (n := 32) hb
    simp only [Literal.unsignedInt, Literal.ofNat_u_of_lt hlt, Nat.testBit_and]
  · intro i
    have hlt : a.u ||| b.u < 4294967296 := Nat.or_lt_two_pow (n := 32) ha hb
    simp only [Literal.unsignedInt, Literal.ofNat_u_of_lt hlt, Nat.testBit_or]
  · intro i
    have hlt : a.u ^^^ b.u < 4294967296 := Nat.xor_lt_two_pow (n := 32) ha hb
    simp only [Literal.unsignedInt, Literal.ofNat_u_of_lt hlt, Nat.testBit_xor]
  · intro i
    have hlt : a.u ^^^ 4294967295 < 4294967296 :=
      Nat.xor_lt_two_pow (n := 32) ha (by decide)
    simp only [Literal.unsignedInt, Literal.ofNat_u_of_lt hlt, Nat.testBit_xor,
      testBit_4294967295, i.isLt, decide_True, Bool.bne_true]

/-- C5: MUL24 yields `((a & 0xFFFFFF) * (b & 0xFFFFFF)) mod 2^32`, the masks
keeping the low 24 bits, and carry is SET iff the exact product of the two
masked operands (below `2^48`) exceeds `0xFFFFFFFF`, CLEAR otherwise. -/
theorem calcLiteral_MUL24 (fp : FloatArith) (a b : Literal) (rt ft : DataType) :
    (∃ r : Literal, (calcLiteral fp OP_MUL24 a b rt ft).1 = some (Value.literal r rt) ∧
      r.unsignedInt =
        ((a.unsignedInt &&& 16777215) * (b.unsignedInt &&& 16777215)) % 4294967296) ∧
    (PrecalculatedValue.flags (calcLiteral fp OP_MUL24 a b rt ft)).carry =
      FlagStatus.ofBool
        (decide ((a.unsignedInt &&& 16777215) * (b.unsignedInt &&& 16777215) > 4294967295)) ∧
    a.unsignedInt &&& 16777215 = a.unsignedInt % 16777216 ∧
    b.unsignedInt &&& 16777215 = b.unsignedInt % 16777216 ∧
    (a.unsignedInt &&& 16777215) * (b.unsignedInt &&& 16777215) < 281474976710656 := by
  refine ⟨⟨Literal.ofNat ((a.unsignedInt &&& 16777215) * (b.unsignedInt &&& 16777215)),
    rfl, rfl⟩, rfl, and_16777215 _, and_16777215 _, ?_⟩
  rw [and_16777215, and_16777215]
  have h1 : a.unsignedInt % 16777216 < 16777216 := Nat.mod_lt _ (by decide)
  have h2 : b.unsignedInt % 16777216 < 16777216 := Nat.mod_lt _ (by decide)
  calc a.unsignedInt % 16777216 * (b.unsignedInt % 16777216)
      < 16777216 * 16777216 := Nat.mul_lt_mul'' h1 h2
    _ = 281474976710656 := by decide

theorem shiftCount_of_le {b : Literal} (h : b.unsignedInt ≤ 31) :
    shiftCount b.signedInt = b.unsignedInt := by
  simp only [Literal.unsignedInt] at h
  simp only [shiftCount, Literal.signedInt, Literal.unsignedInt, i32]
  split <;> omega

theorem shiftLossMask_of_le {b : Literal} (h : b.unsignedInt ≤ 31) :
    shiftLossMask b.signedInt = 2 ^ b.unsignedInt - 1 := by
  unfold shiftLossMask
  rw [shiftCount_of_le h]
  generalize b.unsignedInt = k at h
  interval_cases k <;> decide

/-- C6: for a shift amount `0 <= b <= 31`, SHR yields `floor(a / 2^b)` and
carry is SET iff a set bit of `a` is shifted out, that is iff `a mod 2^b != 0`,
equivalently iff `(result << b) != a`; CLEAR otherwise. -/
theorem calcLiteral_SHR (fp : FloatArith) (a b : Literal) (rt ft : DataType)
    (hb : b.unsignedInt ≤ 31) :
    (∃ r : Literal, (calcLiteral fp OP_SHR a b rt ft).1 = some (Value.literal r rt) ∧
      r.unsignedInt = a.unsignedInt / 2 ^ b.unsignedInt ∧
      (PrecalculatedValue.flags (calcLiteral fp OP_SHR a b rt ft)).carry =
        FlagStatus.ofBool (decide ((r.unsignedInt * 2 ^ b.unsignedInt) % 4294967296 ≠
          a.unsignedInt))) ∧
    (PrecalculatedValue.flags (calcLiteral fp OP_SHR a b rt ft)).carry =
      FlagStatus.ofBool (decide (a.unsignedInt % 2 ^ b.unsignedInt ≠ 0)) := by
  have ha := a.h
  have h1 : calcLiteral fp OP_SHR a b rt ft =
      setFlagsCarry
        (Value.literal (Literal.ofNat (a.unsignedInt >>> shiftCount b.signedInt)) rt)
        (decide (a.unsignedInt &&& shiftLossMask b.signedInt ≠ 0)) := rfl
  rw [h1, shiftCount_of_le hb, shiftLossMask_of_le hb, Nat.and_pow_two_sub_one_eq_mod,
    Nat.shiftRight_eq_div_pow, setFlagsCarry_literal]
  have hdiv : a.unsignedInt / 2 ^ b.unsignedInt < 4294967296 :=
    lt_of_le_of_lt (Nat.div_le_self _ _) ha
  have hu : (Literal.ofNat (a.unsignedInt / 2 ^ b.unsignedInt)).unsignedInt =
      a.unsignedInt / 2 ^ b.unsignedInt := Literal.ofNat_u_of_lt hdiv
  refine ⟨⟨_, rfl, hu, ?_⟩, rfl⟩
  show FlagStatus.ofBool _ = FlagStatus.ofBool _
  rw [hu]
  congr 1
  rw [decide_eq_decide]
  have hle : a.unsignedInt / 2 ^ b.unsignedInt * 2 ^ b.unsignedInt ≤ a.unsignedInt :=
    Nat.div_mul_le_self _ _
  have hlt : a.unsignedInt / 2 ^ b.unsignedInt * 2 ^ b.unsignedInt < 4294967296 :=
    lt_of_le_of_lt hle ha
  rw [Nat.mod_eq_of_lt hlt]
  have hdm := Nat.div_add_mod a.unsignedInt (2 ^ b.unsignedInt)
  rw [Nat.mul_comm] at hdm
  constructor
  · intro h1 h2
    apply h1
    omega
  · intro h1 h2
    apply h1
    omega

/-- Witness of C6 at `SHR(5, 1)`. -/
theorem calcLiteral_SHR_witness :
    (Literal.ofNat 1).unsignedInt ≤ 31 ∧
    ((∃ r : Literal,
      (calcLiteral FloatArith.inert OP_SHR (Literal.ofNat 5) (Literal.ofNat 1)
        TYPE_INT32 TYPE_INT32).1 = some (Value.literal r TYPE_INT32) ∧
      r.unsignedInt = (Literal.ofNat 5).unsignedInt / 2 ^ (Literal.ofNat 1).unsignedInt ∧
      (PrecalculatedValue.flags (calcLiteral FloatArith.inert OP_SHR (Literal.ofNat 5)
        (Literal.ofNat 1) TYPE_INT32 TYPE_INT32)).carry =
        FlagStatus.ofBool (decide ((r.unsignedInt * 2 ^ (Literal.ofNat 1).unsignedInt) %
          4294967296 ≠ (Literal.ofNat 5).unsignedInt))) ∧
    (PrecalculatedValue.flags (calcLiteral FloatArith.inert OP_SHR (Literal.ofNat 5)
      (Literal.ofNat 1) TYPE_INT32 TYPE_INT32)).carry =
      FlagStatus.ofBool
        (decide ((Literal.ofNat 5).unsignedInt % 2 ^ (Literal.ofNat 1).unsignedInt ≠ 0))) :=
  ⟨by decide, calcLiteral_SHR FloatArith.inert (Literal.ofNat 5) (Literal.ofNat 1)
    TYPE_INT32 TYPE_INT32 (by decide)⟩

theorem Literal.byte_lt (l : Literal) (k : Nat) : l.byte k < 256 :=
  Nat.mod_lt _ (by decide)

theorem Literal.byte_0 (l : Literal) : l.unsignedInt &&& 255 = l.byte 0 := by
  simp only [Literal.byte, Literal.unsignedInt, and_255]
  omega

theorem Literal.byte_1 (l : Literal) : (l.unsignedInt >>> 8) &&& 255 = l.byte 1 := by
  simp only [Literal.byte, Literal.unsignedInt, and_255, shr_8]
  omega

theorem Literal.byte_2 (l : Literal) : (l.unsignedInt >>> 16) &&& 255 = l.byte 2 := by
  simp only [Literal.byte, Literal.unsignedInt, and_255, shr_16]
  omega

theorem Literal.byte_3 (l : Literal) : (l.unsignedInt >>> 24) &&& 255 = l.byte 3 := by
  simp only [Literal.byte, Literal.unsignedInt, and_255, shr_24]
  omega

/-- Byte `k` of the pattern assembled from four bytes is the `k`-th of them. -/
theorem byte_assemble (x0 x1 x2 x3 : Nat) (h0 : x0 < 256) (h1 : x1 < 256) (h2 : x2 < 256)
    (h3 : x3 < 256) :
    (Literal.ofNat (((x3 &&& 255) <<< 24) ||| ((x2 &&& 255) <<< 16) ||| ((x1 &&& 255) <<< 8) |||
      (x0 &&& 255))).u = x3 * 16777216 + x2 * 65536 + x1 * 256 + x0 := by
  rw [and_255, and_255, and_255, and_255, Nat.mod_eq_of_lt h0, Nat.mod_eq_of_lt h1,
    Nat.mod_eq_of_lt h2, Nat.mod_eq_of_lt h3, assemble_bytes x0 x1 x2 x3 h0 h1 h2]
  simp only [Literal.ofNat]
  omega

/-- The V8 branch of `calcLiteral`, once the four byte lanes are known. -/
theorem calcLiteral_v8 (fp : FloatArith) (code : OpCode) (a b : Literal) (rt ft : DataType)
    (o0 o1 o2 o3 : Nat)
    (hc : calcLiteral fp code a b rt ft =
      match v8Lane code (a.byte 0) (b.byte 0), v8Lane code (a.byte 1) (b.byte 1),
          v8Lane code (a.byte 2) (b.byte 2), v8Lane code (a.byte 3) (b.byte 3) with
      | some bytesOut0, some bytesOut1, some bytesOut2, some bytesOut3 =>
        setFlags (Value.literal (Literal.ofNat (((bytesOut3 &&& 255) <<< 24) |||
          ((bytesOut2 &&& 255) <<< 16) ||| ((bytesOut1 &&& 255) <<< 8) |||
          (bytesOut0 &&& 255))) rt)
      | _, _, _, _ => (none, VectorFlags.empty))
    (e0 : v8Lane code (a.byte 0) (b.byte 0) = some o0)
    (e1 : v8Lane code (a.byte 1) (b.byte 1) = some o1)
    (e2 : v8Lane code (a.byte 2) (b.byte 2) = some o2)
    (e3 : v8Lane code (a.byte 3) (b.byte 3) = some o3)
    (h0 : o0 < 256) (h1 : o1 < 256) (h2 : o2 < 256) (h3 : o3 < 256) :
    ∃ r : Literal, calcLiteral fp code a b rt ft = setFlags (Value.literal r rt) ∧
      r.u = o3 * 16777216 + o2 * 65536 + o1 * 256 + o0 := by
  rw [hc, e0, e1, e2, e3]
  exact ⟨_, rfl, byte_assemble o0 o1 o2 o3 h0 h1 h2 h3⟩

/-- For each of the five V8 opcodes `calcLiteral` is its V8 branch, with the
operand bytes written as `Literal.byte`. -/
theorem calcLiteral_v8_eq (fp : FloatArith) (code : OpCode) (a b : Literal) (rt ft : DataType)
    (h : code = OP_V8ADDS ∨ code = OP_V8SUBS ∨ code = OP_V8MAX ∨ code = OP_V8MIN ∨
      code = OP_V8MULD) :
    calcLiteral fp code a b rt ft =
      match v8Lane code (a.byte 0) (b.byte 0), v8Lane code (a.byte 1) (b.byte 1),
          v8Lane code (a.byte 2) (b.byte 2), v8Lane code (a.byte 3) (b.byte 3) with
      | some bytesOut0, some bytesOut1, some bytesOut2, some bytesOut3 =>
        setFlags (Value.literal (Literal.ofNat (((bytesOut3 &&& 255) <<< 24) |||
          ((bytesOut2 &&& 255) <<< 16) ||| ((bytesOut1 &&& 255) <<< 8) |||
          (bytesOut0 &&& 255))) rt)
      | _, _, _, _ => (none, VectorFlags.empty) := by
  rw [← a.byte_0, ← a.byte_1, ← a.byte_2, ← a.byte_3, ← b.byte_0, ← b.byte_1, ← b.byte_2,
    ← b.byte_3]
  rcases h with h | h | h | h | h <;> subst h <;> rfl

/-- Bytes of a pattern given as the sum of its four bytes. -/
theorem Literal.byte_of_sum (r : Literal) (o0 o1 o2 o3 : Nat)
    (h0 : o0 < 256) (h1 : o1 < 256) (h2 : o2 < 256) (h3 : o3 < 256)
    (hr : r.u = o3 * 16777216 + o2 * 65536 + o1 * 256 + o0) :
    r.byte 0 = o0 ∧ r.byte 1 = o1 ∧ r.byte 2 = o2 ∧ r.byte 3 = o3 := by
  simp only [Literal.byte, hr]
  refine ⟨?_, ?_, ?_, ?_⟩ <;> omega

theorem v8Lane_V8ADDS (x y : Nat) (hx : x < 256) (hy : y < 256) :
    v8Lane OP_V8ADDS x y = some (Min.min (x + y) 255) := by
  have : v8Lane OP_V8ADDS x y = some (Min.min ((x + y) % 4294967296) 255) := rfl
  rw [this, Nat.mod_eq_of_lt (by omega)]

theorem v8Lane_V8SUBS (x y : Nat) (hx : x < 256) (hy : y < 256) :
    v8Lane OP_V8SUBS x y = some (x - y) := by
  have : v8Lane OP_V8SUBS x y =
      some (u32 (Max.max (Min.min (i32 (u32 ((x : Int) - (y : Int)))) 255) 0)) := rfl
  rw [this]
  congr 1
  simp only [u32, i32]
  split <;> omega

/-- C7: V8ADDS and V8SUBS work on the four byte lanes independently: byte `k`
of `V8ADDS(a, b)` is `min(a_k + b_k, 255)` and byte `k` of `V8SUBS(a, b)` is
`max(a_k - b_k, 0)`, within `[0, 255]`; `V8ADDS(0x80808080, 0x80808080)` is
`0xFFFFFFFF`. -/
theorem calcLiteral_V8ADDS_V8SUBS (fp : FloatArith) (a b : Literal) (rt ft : DataType) :
    (∃ r : Literal, (calcLiteral fp OP_V8ADDS a b rt ft).1 = some (Value.literal r rt) ∧
      ∀ k : Fin 4, r.byte k.val = Min.min (a.byte k.val + b.byte k.val) 255) ∧
    (∃ r : Literal, (calcLiteral fp OP_V8SUBS a b rt ft).1 = some (Value.literal r rt) ∧
      ∀ k : Fin 4,
        (r.byte k.val : Int) = Max.max ((a.byte k.val : Int) - (b.byte k.val : Int)) 0 ∧
        r.byte k.val ≤ 255) ∧
    (calcLiteral fp OP_V8ADDS (Literal.ofNat 0x80808080) (Literal.ofNat 0x80808080) rt ft).1 =
      some (Value.literal (Literal.ofNat 0xFFFFFFFF) rt) := by
  have ha := fun k => a.byte_lt k
  have hb := fun k => b.byte_lt k
  refine ⟨?_, ?_, rfl⟩
  · obtain ⟨r, hr, hu⟩ := calcLiteral_v8 fp OP_V8ADDS a b rt ft _ _ _ _
      (calcLiteral_v8_eq fp OP_V8ADDS a b rt ft (Or.inl rfl))
      (v8Lane_V8ADDS _ _ (ha 0) (hb 0)) (v8Lane_V8ADDS _ _ (ha 1) (hb 1))
      (v8Lane_V8ADDS _ _ (ha 2) (hb 2)) (v8Lane_V8ADDS _ _ (ha 3) (hb 3))
      (by omega) (by omega) (by omega) (by omega)
    refine ⟨r, by rw [hr]; rfl, ?_⟩
    obtain ⟨b0, b1, b2, b3⟩ := r.byte_of_sum _ _ _ _
      (by omega) (by omega) (by omega) (by omega) hu
    intro k
    fin_cases k
    · exact b0
    · exact b1
    · exact b2
    · exact b3
  · obtain ⟨r, hr, hu⟩ := calcLiteral_v8 fp OP_V8SUBS a b rt ft _ _ _ _
      (calcLiteral_v8_eq fp OP_V8SUBS a b rt ft (Or.inr (Or.inl rfl)))
      (v8Lane_V8SUBS _ _ (ha 0) (hb 0)) (v8Lane_V8SUBS _ _ (ha 1) (hb 1))
      (v8Lane_V8SUBS _ _ (ha 2) (hb 2)) (v8Lane_V8SUBS _ _ (ha 3) (hb 3))
      (by have := ha 0; omega) (by have := ha 1; omega) (by have := ha 2; omega)
      (by have := ha 3; omega)
    refine ⟨r, by rw [hr]; rfl, ?_⟩
    obtain ⟨b0, b1, b2, b3⟩ := r.byte_of_sum _ _ _ _
      (by have := ha 0; omega) (by have := ha 1; omega) (by have := ha 2; omega)
      (by have := ha 3; omega) hu
    intro k
    fin_cases k
    · have := ha 0; simp only [b0]; omega
    · have := ha 1; simp only [b1]; omega
    · have := ha 2; simp only [b2]; omega
    · have := ha 3; simp only [b3]; omega

theorem unfold_FMAX (fp : FloatArith) (a b : Literal) (rt ft : DataType) :
    calcLiteral fp OP_FMAX a b rt ft =
      if ieee.isnan a then
        setFlagsCarry (Value.literal a rt) (checkMinMaxCarry a b false)
      else if ieee.isnan b then
        setFlagsCarry (Value.literal b rt) (checkMinMaxCarry a b false)
      else
        setFlagsCarryOverflow (Value.literal (ieee.max a b) rt) (ieee.greater a b) false := rfl

theorem unfold_FMIN (fp : FloatArith) (a b : Literal) (rt ft : DataType) :
    calcLiteral fp OP_FMIN a b rt ft =
      if ieee.isnan a then
        setFlagsCarry (Value.literal b rt) (checkMinMaxCarry a b false)
      else if ieee.isnan b then
        setFlagsCarry (Value.literal a rt) (checkMinMaxCarry a b false)
      else
        setFlagsCarryOverflow (Value.literal (ieee.min a b) rt) (ieee.greater a b) false := rfl

/-- C8: FMAX and FMIN order NaN above every non-NaN float (+Inf included): for
a NaN `n` and a non-NaN `x`, `FMAX(n, x)` and `FMAX(x, n)` return `n` bit-exactly,
`FMIN(n, x)` and `FMIN(x, n)` return `x`, carry is SET for the operand order
`(n, x)` and CLEAR for `(x, n)`; `FMAX(NaN, 1.0)` is NaN with carry SET. -/
theorem calcLiteral_FMAX_FMIN_nan (fp : FloatArith) (n x : Literal) (rt ft : DataType)
    (hn : ieee.isnan n = true) (hx : ieee.isnan x = false) :
    ((calcLiteral fp OP_FMAX n x rt ft).1 = some (Value.literal n rt) ∧
      (PrecalculatedValue.flags (calcLiteral fp OP_FMAX n x rt ft)).carry = FlagStatus.SET) ∧
    ((calcLiteral fp OP_FMAX x n rt ft).1 = some (Value.literal n rt) ∧
      (PrecalculatedValue.flags (calcLiteral fp OP_FMAX x n rt ft)).carry = FlagStatus.CLEAR) ∧
    ((calcLiteral fp OP_FMIN n x rt ft).1 = some (Value.literal x rt) ∧
      (PrecalculatedValue.flags (calcLiteral fp OP_FMIN n x rt ft)).carry = FlagStatus.SET) ∧
    ((calcLiteral fp OP_FMIN x n rt ft).1 = some (Value.literal x rt) ∧
      (PrecalculatedValue.flags (calcLiteral fp OP_FMIN x n rt ft)).carry = FlagStatus.CLEAR) ∧
    ieee.isnan (Literal.ofNat 0x7F800000) = false ∧
    ((calcLiteral fp OP_FMAX (Literal.ofNat 0x7FC00000) (Literal.ofNat 0x3F800000) rt ft).1 =
        some (Value.literal (Literal.ofNat 0x7FC00000) rt) ∧
      (PrecalculatedValue.flags (calcLiteral fp OP_FMAX (Literal.ofNat 0x7FC00000)
        (Literal.ofNat 0x3F800000) rt ft)).carry = FlagStatus.SET) := by
  have c1 : checkMinMaxCarry n x false = true := by
    simp [checkMinMaxCarry, hn, hx]
  have c2 : checkMinMaxCarry x n false = false := by
    simp [checkMinMaxCarry, hn, hx]
  refine ⟨?_, ?_, ?_, ?_, rfl, rfl, rfl⟩
  · rw [unfold_FMAX, if_pos hn, c1]
    exact ⟨rfl, rfl⟩
  · rw [unfold_FMAX, if_neg (by simp [hx]), if_pos hn, c2]
    exact ⟨rfl, rfl⟩
  · rw [unfold_FMIN, if_pos hn, c1]
    exact ⟨rfl, rfl⟩
  · rw [unfold_FMIN, if_neg (by simp [hx]), if_pos hn, c2]
    exact ⟨rfl, rfl⟩

/-- Witness of C8 at the quiet NaN `0x7FC00000` and `+Inf`. -/
theorem calcLiteral_FMAX_FMIN_nan_witness :
    (ieee.isnan (Literal.ofNat 0x7FC00000) = true ∧
      ieee.isnan (Literal.ofNat 0x7F800000) = false) ∧
    (((calcLiteral FloatArith.inert OP_FMAX (Literal.ofNat 0x7FC00000)
        (Literal.ofNat 0x7F800000) TYPE_FLOAT TYPE_FLOAT).1 =
          some (Value.literal (Literal.ofNat 0x7FC00000) TYPE_FLOAT) ∧
      (PrecalculatedValue.flags (calcLiteral FloatArith.inert OP_FMAX (Literal.ofNat 0x7FC00000)
        (Literal.ofNat 0x7F800000) TYPE_FLOAT TYPE_FLOAT)).carry = FlagStatus.SET) ∧
    ((calcLiteral FloatArith.inert OP_FMAX (Literal.ofNat 0x7F800000)
        (Literal.ofNat 0x7FC00000) TYPE_FLOAT TYPE_FLOAT).1 =
          some (Value.literal (Literal.ofNat 0x7FC00000) TYPE_FLOAT) ∧
      (PrecalculatedValue.flags (calcLiteral FloatArith.inert OP_FMAX (Literal.ofNat 0x7F800000)
        (Literal.ofNat 0x7FC00000) TYPE_FLOAT TYPE_FLOAT)).carry = FlagStatus.CLEAR) ∧
    ((calcLiteral FloatArith.inert OP_FMIN (Literal.ofNat 0x7FC00000)
        (Literal.ofNat 0x7F800000) TYPE_FLOAT TYPE_FLOAT).1 =
          some (Value.literal (Literal.ofNat 0x7F800000) TYPE_FLOAT) ∧
      (PrecalculatedValue.flags (calcLiteral FloatArith.inert OP_FMIN (Literal.ofNat 0x7FC00000)
        (Literal.ofNat 0x7F800000) TYPE_FLOAT TYPE_FLOAT)).carry = FlagStatus.SET) ∧
    ((calcLiteral FloatArith.inert OP_FMIN (Literal.ofNat 0x7F800000)
        (Literal.ofNat 0x7FC00000) TYPE_FLOAT TYPE_FLOAT).1 =
          some (Value.literal (Literal.ofNat 0x7F800000) TYPE_FLOAT) ∧
      (PrecalculatedValue.flags (calcLiteral FloatArith.inert OP_FMIN (Literal.ofNat 0x7F800000)
        (Literal.ofNat 0x7FC00000) TYPE_FLOAT TYPE_FLOAT)).carry = FlagStatus.CLEAR) ∧
    ieee.isnan (Literal.ofNat 0x7F800000) = false ∧
    ((calcLiteral FloatArith.inert OP_FMAX (Literal.ofNat 0x7FC00000)
        (Literal.ofNat 0x3F800000) TYPE_FLOAT TYPE_FLOAT).1 =
          some (Value.literal (Literal.ofNat 0x7FC00000) TYPE_FLOAT) ∧
      (PrecalculatedValue.flags (calcLiteral FloatArith.inert OP_FMAX (Literal.ofNat 0x7FC00000)
        (Literal.ofNat 0x3F800000) TYPE_FLOAT TYPE_FLOAT)).carry = FlagStatus.SET)) :=
  ⟨⟨by decide, by decide⟩,
    calcLiteral_FMAX_FMIN_nan FloatArith.inert (Literal.ofNat 0x7FC00000)
      (Literal.ofNat 0x7F800000) TYPE_FLOAT TYPE_FLOAT (by decide) (by decide)⟩

theorem unfold_AND (fp : FloatArith) (a b : Literal) (rt ft : DataType) :
    calcLiteral fp OP_AND a b rt ft =
      setFlagsCarryOverflow
        (Value.literal (Literal.ofNat (a.unsignedInt &&& b.unsignedInt)) rt) false false := rfl

theorem unfold_OR (fp : FloatArith) (a b : Literal) (rt ft : DataType) :
    calcLiteral fp OP_OR a b rt ft =
      setFlagsCarryOverflow
        (Value.literal (Literal.ofNat (a.unsignedInt ||| b.unsignedInt)) rt) false false := rfl

theorem unfold_XOR (fp : FloatArith) (a b : Literal) (rt ft : DataType) :
    calcLiteral fp OP_XOR a b rt ft =
      setFlagsCarryOverflow
        (Value.literal (Literal.ofNat (a.unsignedInt ^^^ b.unsignedInt)) rt) false false := rfl

theorem unfold_ADD (fp : FloatArith) (a b : Literal) (rt ft : DataType) :
    calcLiteral fp OP_ADD a b rt ft =
      setFlagsCarryOverflow
        (Value.literal (Literal.ofInt (a.signedInt + b.signedInt)) rt)
        (decide (a.unsignedInt + b.unsignedInt > 4294967295))
        (decide (a.signedInt + b.signedInt > 2147483647) ||
          decide (a.signedInt + b.signedInt < -2147483648)) := rfl

theorem unfold_MAX (fp : FloatArith) (a b : Literal) (rt ft : DataType) :
    calcLiteral fp OP_MAX a b rt ft =
      setFlagsCarryOverflow
        (Value.literal (Literal.ofInt (Max.max a.signedInt b.signedInt)) rt)
        (decide (a.signedInt > b.signedInt)) false := rfl

theorem unfold_MIN (fp : FloatArith) (a b : Literal) (rt ft : DataType) :
    calcLiteral fp OP_MIN a b rt ft =
      setFlagsCarryOverflow
        (Value.literal (Literal.ofInt (Min.min a.signedInt b.signedInt)) rt)
        (decide (a.signedInt > b.signedInt)) false := rfl

theorem unfold_MUL24 (fp : FloatArith) (a b : Literal) (rt ft : DataType) :
    calcLiteral fp OP_MUL24 a b rt ft =
      setFlagsCarry
        (Value.literal
          (Literal.ofNat ((a.unsignedInt &&& 16777215) * (b.unsignedInt &&& 16777215))) rt)
        (decide ((a.unsignedInt &&& 16777215) * (b.unsignedInt &&& 16777215) > 4294967295)) :=
  rfl

/-- The catalog opcodes with `isIdempotent()`. -/
theorem isIdempotent_catalog :
    ∀ code ∈ opCodes, code.isIdempotent = true →
      code = OP_AND ∨ code = OP_OR ∨ code = OP_MIN ∨ code = OP_MAX ∨ code = OP_FMIN ∨
        code = OP_FMAX ∨ code = OP_V8MIN ∨ code = OP_V8MAX := by
  decide

/-- A pattern is the sum of its four bytes. -/
theorem Literal.u_eq_bytes (a : Literal) :
    a.u = a.byte 3 * 16777216 + a.byte 2 * 65536 + a.byte 1 * 256 + a.byte 0 := by
  have := a.h
  simp only [Literal.byte]
  omega

theorem v8Lane_V8MAX (x y : Nat) : v8Lane OP_V8MAX x y = some (Max.max x y) := rfl

theorem v8Lane_V8MIN (x y : Nat) : v8Lane OP_V8MIN x y = some (Min.min x y) := rfl

/-- C10: for every catalog opcode with `isIdempotent()` (these are AND, OR,
MIN, MAX, FMIN, FMAX, V8MIN, V8MAX) and every literal `a`, the value of
`eval(op, a, a)` is `a` bit for bit. -/
theorem calcLiteral_idempotent (fp : FloatArith) (code : OpCode) (hc : code ∈ opCodes)
    (hi : code.isIdempotent = true) (a : Literal) (rt ft : DataType) :
    (code = OP_AND ∨ code = OP_OR ∨ code = OP_MIN ∨ code = OP_MAX ∨ code = OP_FMIN ∨
      code = OP_FMAX ∨ code = OP_V8MIN ∨ code = OP_V8MAX) ∧
    (calcLiteral fp code a a rt ft).1 = some (Value.literal a rt) := by
  have hcat := isIdempotent_catalog code hc hi
  refine ⟨hcat, ?_⟩
  rcases hcat with h | h | h | h | h | h | h | h <;> subst h
  · rw [unfold_AND, Nat.and_self, Literal.unsignedInt, Literal.ofNat_u]
    rfl
  · rw [unfold_OR, Nat.or_self, Literal.unsignedInt, Literal.ofNat_u]
    rfl
  · rw [unfold_MIN, min_self, Literal.ofInt_signedInt]
    rfl
  · rw [unfold_MAX, max_self, Literal.ofInt_signedInt]
    rfl
  · rw [unfold_FMIN]
    have hm : ieee.min a a = a := by simp [ieee.min]
    rw [hm]
    split
    · rfl
    · rfl
  · rw [unfold_FMAX]
    have hm : ieee.max a a = a := by simp [ieee.max]
    rw [hm]
    split
    · rfl
    · rfl
  · obtain ⟨r, hr, hu⟩ := calcLiteral_v8 fp OP_V8MIN a a rt ft _ _ _ _
      (calcLiteral_v8_eq fp OP_V8MIN a a rt ft (by simp))
      (v8Lane_V8MIN _ _) (v8Lane_V8MIN _ _) (v8Lane_V8MIN _ _) (v8Lane_V8MIN _ _)
      (by rw [min_self]; exact a.byte_lt 0) (by rw [min_self]; exact a.byte_lt 1)
      (by rw [min_self]; exact a.byte_lt 2) (by rw [min_self]; exact a.byte_lt 3)
    have : r = a := by
      apply Literal.eq_of_u_eq
      rw [hu, min_self, min_self, min_self, min_self]
      exact a.u_eq_bytes.symm
    rw [hr, this]
    rfl
  · obtain ⟨r, hr, hu⟩ := calcLiteral_v8 fp OP_V8MAX a a rt ft _ _ _ _
      (calcLiteral_v8_eq fp OP_V8MAX a a rt ft (by simp))
      (v8Lane_V8MAX _ _) (v8Lane_V8MAX _ _) (v8Lane_V8MAX _ _) (v8Lane_V8MAX _ _)
      (by rw [max_self]; exact a.byte_lt 0) (by rw [max_self]; exact a.byte_lt 1)
      (by rw [max_self]; exact a.byte_lt 2) (by rw [max_self]; exact a.byte_lt 3)
    have : r = a := by
      apply Literal.eq_of_u_eq
      rw [hu, max_self, max_self, max_self, max_self]
      exact a.u_eq_bytes.symm
    rw [hr, this]
    rfl

/-- Witness of C10 at `FMAX(1.0, 1.0)`. -/
theorem calcLiteral_idempotent_witness :
    (OP_FMAX ∈ opCodes ∧ OP_FMAX.isIdempotent = true) ∧
    ((OP_FMAX = OP_AND ∨ OP_FMAX = OP_OR ∨ OP_FMAX = OP_MIN ∨ OP_FMAX = OP_MAX ∨
      OP_FMAX = OP_FMIN ∨ OP_FMAX = OP_FMAX ∨ OP_FMAX = OP_V8MIN ∨ OP_FMAX = OP_V8MAX) ∧
    (calcLiteral FloatArith.inert OP_FMAX (Literal.ofNat 0x3F800000) (Literal.ofNat 0x3F800000)
      TYPE_FLOAT TYPE_FLOAT).1 = some (Value.literal (Literal.ofNat 0x3F800000) TYPE_FLOAT)) :=
  ⟨⟨by decide, by decide⟩,
    calcLiteral_idempotent FloatArith.inert OP_FMAX (by decide) (by decide)
      (Literal.ofNat 0x3F800000) TYPE_FLOAT TYPE_FLOAT⟩

theorem PrecalculatedValue.flags_splat (v : Option Value) (f : ElementFlags) :
    PrecalculatedValue.flags (v, VectorFlags.splat f) = f := rfl

theorem isCommutative_int_catalog :
    ∀ code ∈ opCodes, code.isCommutative = true → code.acceptsFloat = false →
      code = OP_ADD ∨ code = OP_AND ∨ code = OP_OR ∨ code = OP_XOR ∨ code = OP_MUL24 ∨
        code = OP_V8ADDS ∨ code = OP_V8MIN ∨ code = OP_V8MAX ∨ code = OP_V8MULD ∨
        code = OP_MIN ∨ code = OP_MAX := by
  decide

theorem v8Lane_comm (code : OpCode)
    (h : code = OP_V8ADDS ∨ code = OP_V8MIN ∨ code = OP_V8MAX ∨ code = OP_V8MULD)
    (x y : Nat) : v8Lane code x y = v8Lane code y x := by
  rcases h with h | h | h | h <;> subst h
  · show some (Min.min ((x + y) % 4294967296) 255) = some (Min.min ((y + x) % 4294967296) 255)
    rw [Nat.add_comm]
  · show some (Min.min x y) = some (Min.min y x)
    rw [min_comm]
  · show some (Max.max x y) = some (Max.max y x)
    rw [max_comm]
  · show some (((x * y + 127) % 4294967296) / 255) = some (((y * x + 127) % 4294967296) / 255)
    rw [Nat.mul_comm]

theorem calcLiteral_v8_comm (fp : FloatArith) (code : OpCode) (a b : Literal) (rt ft : DataType)
    (h : code = OP_V8ADDS ∨ code = OP_V8MIN ∨ code = OP_V8MAX ∨ code = OP_V8MULD) :
    calcLiteral fp code a b rt ft = calcLiteral fp code b a rt ft := by
  have h5 : code = OP_V8ADDS ∨ code = OP_V8SUBS ∨ code = OP_V8MAX ∨ code = OP_V8MIN ∨
      code = OP_V8MULD := by
    rcases h with h | h | h | h <;> simp [h]
  rw [calcLiteral_v8_eq fp code a b rt ft h5, calcLiteral_v8_eq fp code b a rt ft h5,
    v8Lane_comm code h (a.byte 0), v8Lane_comm code h (a.byte 1), v8Lane_comm code h (a.byte 2),
    v8Lane_comm code h (a.byte 3)]

/-- Swapping the operands of a commutative integer opcode of the catalog leaves
the value and the zero, negative and overflow flags unchanged; the whole
result, carry included, is unchanged for all of them but MIN and MAX, whose
carry is SET iff the first operand is the greater signed one. -/
theorem int_swap (fp : FloatArith) (code : OpCode) (hc : code ∈ opCodes)
    (hcomm : code.isCommutative = true) (hint : code.acceptsFloat = false)
    (a b : Literal) (rt ft : DataType) :
    (calcLiteral fp code a b rt ft).1 = (calcLiteral fp code b a rt ft).1 ∧
    (PrecalculatedValue.flags (calcLiteral fp code a b rt ft)).zero =
      (PrecalculatedValue.flags (calcLiteral fp code b a rt ft)).zero ∧
    (PrecalculatedValue.flags (calcLiteral fp code a b rt ft)).negative =
      (PrecalculatedValue.flags (calcLiteral fp code b a rt ft)).negative ∧
    (PrecalculatedValue.flags (calcLiteral fp code a b rt ft)).overflow =
      (PrecalculatedValue.flags (calcLiteral fp code b a rt ft)).overflow ∧
    (calcLiteral fp code a b rt ft = calcLiteral fp code b a rt ft ∨
      ((code = OP_MIN ∨ code = OP_MAX) ∧
        (PrecalculatedValue.flags (calcLiteral fp code a b rt ft)).carry =
          FlagStatus.ofBool (decide (a.signedInt > b.signedInt)))) := by
  have whole : ∀ {x y : PrecalculatedValue}, x = y →
      x.1 = y.1 ∧ (PrecalculatedValue.flags x).zero = (PrecalculatedValue.flags y).zero ∧
      (PrecalculatedValue.flags x).negative = (PrecalculatedValue.flags y).negative ∧
      (PrecalculatedValue.flags x).overflow = (PrecalculatedValue.flags y).overflow ∧
      (x = y ∨ ((code = OP_MIN ∨ code = OP_MAX) ∧
        (PrecalculatedValue.flags x).carry =
          FlagStatus.ofBool (decide (a.signedInt > b.signedInt)))) := by
    intro x y e
    subst e
    exact ⟨rfl, rfl, rfl, rfl, Or.inl rfl⟩
  rcases isCommutative_int_catalog code hc hcomm hint with
    h | h | h | h | h | h | h | h | h | h | h
  · apply whole
    rw [h, unfold_ADD, unfold_ADD, Int.add_comm a.signedInt,
      Nat.add_comm a.unsignedInt]
  · apply whole
    rw [h, unfold_AND, unfold_AND, Nat.and_comm]
  · apply whole
    rw [h, unfold_OR, unfold_OR, Nat.or_comm]
  · apply whole
    rw [h, unfold_XOR, unfold_XOR, Nat.xor_comm]
  · apply whole
    rw [h, unfold_MUL24, unfold_MUL24, Nat.mul_comm]
  · exact whole (calcLiteral_v8_comm fp code a b rt ft (by simp [h]))
  · exact whole (calcLiteral_v8_comm fp code a b rt ft (by simp [h]))
  · exact whole (calcLiteral_v8_comm fp code a b rt ft (by simp [h]))
  · exact whole (calcLiteral_v8_comm fp code a b rt ft (by simp [h]))
  · subst h
    rw [unfold_MIN, unfold_MIN, min_comm b.signedInt,
      setFlagsCarryOverflow_literal, setFlagsCarryOverflow_literal]
    simp only [PrecalculatedValue.flags_splat, true_or, or_true, and_self]
  · subst h
    rw [unfold_MAX, unfold_MAX, max_comm b.signedInt,
      setFlagsCarryOverflow_literal, setFlagsCarryOverflow_literal]
    simp only [PrecalculatedValue.flags_splat, true_or, or_true, and_self]

theorem ieee.isinf_eq_of_signBit {a b : Literal} (ha : ieee.isinf a = true)
    (hb : ieee.isinf b = true) (hs : ieee.signBit a = ieee.signBit b) : a = b := by
  apply Literal.eq_of_u_eq
  have h1 := a.h
  have h2 := b.h
  simp only [ieee.isinf, Bool.and_eq_true, beq_iff_eq] at ha hb
  simp only [ieee.signBit, decide_eq_decide] at hs
  omega

/-- The float addition of IEEE-754 single arithmetic is commutative, bit for
bit. -/
theorem ieee.add_comm (a b : Literal) : ieee.add a b = ieee.add b a := by
  unfold ieee.add
  cases hna : ieee.isnan a <;> cases hnb : ieee.isnan b <;>
    simp only [Bool.or_self, Bool.or_true, Bool.true_or, Bool.false_eq_true, if_false, if_true]
  cases hia : ieee.isinf a <;> cases hib : ieee.isinf b <;>
    simp only [Bool.and_self, Bool.and_true, Bool.true_and, Bool.and_false, Bool.false_and,
      Bool.false_eq_true, if_false, if_true]
  · rw [Int.add_comm, Bool.and_comm]
  · by_cases hs : ieee.signBit a = ieee.signBit b
    · rw [if_pos (by simp [hs]), if_pos (by simp [hs])]
      exact ieee.isinf_eq_of_signBit hia hib hs
    · rw [if_neg (by simpa using hs), if_neg (by simpa using fun h => hs h.symm)]

/-- The float multiplication of IEEE-754 single arithmetic is commutative, bit
for bit. -/
theorem ieee.mul_comm (a b : Literal) : ieee.mul a b = ieee.mul b a := by
  unfold ieee.mul
  rw [Bool.or_comm (ieee.isnan a), Bool.or_comm (ieee.isinf a),
    Bool.or_comm (a.u % 2147483648 == 0), Nat.mul_comm (ieee.magnitude a)]
  have hs : (ieee.signBit a != ieee.signBit b) = (ieee.signBit b != ieee.signBit a) := by
    cases ieee.signBit a <;> cases ieee.signBit b <;> rfl
  rw [hs]

set_option maxRecDepth 16384 in
set_option exponentiation.threshold 1024 in
/-- Sample sums, products and conversions of the IEEE-754 single arithmetic:
`1 + 2 = 3`, `0.1 + 0.2 = 0.3` (rounded), `FLT_MAX + FLT_MAX = +Inf`,
`+Inf + -Inf = NaN`, `1 + -1 = +0`, `-0 + -0 = -0`, `1.5 * 2 = 3`,
`-1.5 * 2 = -3`, the least subnormal times `0.5` is `+0` (tie to even),
`+Inf * 0 = NaN`, `3 - 1 = 2`, `(float) 16777217 = 16777216` (tie to even) and
`(int) -1.5 = -1`. -/
theorem ieee.arithmetic_examples :
    ieee.add (Literal.ofNat 0x3F800000) (Literal.ofNat 0x40000000) = Literal.ofNat 0x40400000 ∧
    ieee.add (Literal.ofNat 0x3DCCCCCD) (Literal.ofNat 0x3E4CCCCD) = Literal.ofNat 0x3E99999A ∧
    ieee.add (Literal.ofNat 0x7F7FFFFF) (Literal.ofNat 0x7F7FFFFF) = Literal.ofNat 0x7F800000 ∧
    ieee.add (Literal.ofNat 0x7F800000) (Literal.ofNat 0xFF800000) = Literal.ofNat 0x7FC00000 ∧
    ieee.add (Literal.ofNat 0x3F800000) (Literal.ofNat 0xBF800000) = Literal.ofNat 0 ∧
    ieee.add (Literal.ofNat 0x80000000) (Literal.ofNat 0x80000000) = Literal.ofNat 0x80000000 ∧
    ieee.mul (Literal.ofNat 0x3FC00000) (Literal.ofNat 0x40000000) = Literal.ofNat 0x40400000 ∧
    ieee.mul (Literal.ofNat 0xBFC00000) (Literal.ofNat 0x40000000) = Literal.ofNat 0xC0400000 ∧
    ieee.mul (Literal.ofNat 1) (Literal.ofNat 0x3F000000) = Literal.ofNat 0 ∧
    ieee.mul (Literal.ofNat 0x7F800000) (Literal.ofNat 0) = Literal.ofNat 0x7FC00000 ∧
    ieee.sub (Literal.ofNat 0x40400000) (Literal.ofNat 0x3F800000) = Literal.ofNat 0x40000000 ∧
    ieee.ofInt 16777217 = Literal.ofNat 0x4B800000 ∧
    ieee.toInt (Literal.ofNat 0xBFC00000) = -1 :=
  ⟨by decide, by decide, by decide, by decide, by decide, by decide, by decide, by decide,
    by decide, by decide, by decide, by decide, by decide⟩

/-- C18: on the eight condition codes `invert` never fails, is an involution
(`invert(invert(c)) = c`) without fixed point (`invert(c) != c`), and
`isInversionOf` is symmetric. -/
theorem ConditionCode_invert_involution :
    (∀ c ∈ conditionCodes, ∃ d, d ∈ conditionCodes ∧
      c.invert = Except.ok d ∧ d.invert = Except.ok c ∧ d ≠ c) ∧
    (∀ a ∈ conditionCodes, ∀ b ∈ conditionCodes,
      a.isInversionOf b = b.isInversionOf a ∧
      ∃ r : Bool, a.isInversionOf b = Except.ok r ∧ (r = true ↔ a.invert = Except.ok b)) := by
  constructor
  · decide
  · decide

/-- C19: `matchesCondition` returns true for ALWAYS and false for NEVER whatever
the flags; for each of the six other conditions it raises a compilation error
iff the one flag the condition tests is UNDEFINED and otherwise returns whether
that flag has the tested status, whatever the other flags are. -/
theorem matchesCondition_spec (f : ElementFlags) :
    f.matchesCondition COND_ALWAYS = Except.ok true ∧
    f.matchesCondition COND_NEVER = Except.ok false ∧
    f.matchesCondition COND_ZERO_SET =
      (if f.zero = FlagStatus.UNDEFINED then
        Except.error ⟨CompilationStep.GENERAL, "Reading undefined zero flags"⟩
       else Except.ok (decide (f.zero = FlagStatus.SET))) ∧
    f.matchesCondition COND_ZERO_CLEAR =
      (if f.zero = FlagStatus.UNDEFINED then
        Except.error ⟨CompilationStep.GENERAL, "Reading undefined zero flags"⟩
       else Except.ok (decide (f.zero = FlagStatus.CLEAR))) ∧
    f.matchesCondition COND_NEGATIVE_SET =
      (if f.negative = FlagStatus.UNDEFINED then
        Except.error ⟨CompilationStep.GENERAL, "Reading undefined negative flags"⟩
       else Except.ok (decide (f.negative = FlagStatus.SET))) ∧
    f.matchesCondition COND_NEGATIVE_CLEAR =
      (if f.negative = FlagStatus.UNDEFINED then
        Except.error ⟨CompilationStep.GENERAL, "Reading undefined negative flags"⟩
       else Except.ok (decide (f.negative = FlagStatus.CLEAR))) ∧
    f.matchesCondition COND_CARRY_SET =
      (if f.carry = FlagStatus.UNDEFINED then
        Except.error ⟨CompilationStep.GENERAL, "Reading undefined carry flags"⟩
       else Except.ok (decide (f.carry = FlagStatus.SET))) ∧
    f.matchesCondition COND_CARRY_CLEAR =
      (if f.carry = FlagStatus.UNDEFINED then
        Except.error ⟨CompilationStep.GENERAL, "Reading undefined carry flags"⟩
       else Except.ok (decide (f.carry = FlagStatus.CLEAR))) ∧
    ElementFlags.matchesCondition {} COND_ALWAYS = Except.ok true ∧
    ElementFlags.matchesCondition {} COND_NEVER = Except.ok false :=
  ⟨rfl, rfl, rfl, rfl, rfl, rfl, rfl, rfl, rfl, rfl⟩

/-- C20 fails for NEVER: `toBranchCondition` has no case for it and raises the
compilation error "Invalid condition for branch". -/
theorem toBranchCondition_NEVER_fails :
    COND_NEVER ∈ conditionCodes ∧
    COND_NEVER.toBranchCondition =
      Except.error ⟨CompilationStep.CODE_GENERATION, "Invalid condition for branch"⟩ ∧
    ¬ ∃ b : BranchCond, COND_NEVER.toBranchCondition = Except.ok b := by
  refine ⟨by decide, rfl, ?_⟩
  rintro ⟨b, hb⟩
  cases hb

/-- C20, amended: each of the seven condition codes other than NEVER is mapped
by `toBranchCondition` to a branch condition without error (ALWAYS to ALWAYS,
a SET test to the ANY variant, a CLEAR test to the ALL variant); NEVER raises a
compilation error. -/
theorem toBranchCondition_spec :
    COND_ALWAYS.toBranchCondition = Except.ok BranchCond.ALWAYS ∧
    COND_ZERO_SET.toBranchCondition = Except.ok BranchCond.ANY_Z_SET ∧
    COND_ZERO_CLEAR.toBranchCondition = Except.ok BranchCond.ALL_Z_CLEAR ∧
    COND_NEGATIVE_SET.toBranchCondition = Except.ok BranchCond.ANY_N_SET ∧
    COND_NEGATIVE_CLEAR.toBranchCondition = Except.ok BranchCond.ALL_N_CLEAR ∧
    COND_CARRY_SET.toBranchCondition = Except.ok BranchCond.ANY_C_SET ∧
    COND_CARRY_CLEAR.toBranchCondition = Except.ok BranchCond.ALL_C_CLEAR ∧
    (∀ c ∈ conditionCodes,
      (∃ e, c.toBranchCondition = Except.error e) ↔ c = COND_NEVER) := by
  refine ⟨rfl, rfl, rfl, rfl, rfl, rfl, rfl, ?_⟩
  intro c hc
  simp only [conditionCodes, List.mem_cons, List.mem_singleton, List.not_mem_nil, or_false] at hc
  rcases hc with h | h | h | h | h | h | h | h <;> subst h
  all_goals first
    | exact ⟨fun _ => rfl, fun _ => ⟨_, rfl⟩⟩
    | exact ⟨fun ⟨e, he⟩ => (by cases he), fun h => (by cases h)⟩

/-- C14: `PACK_32_32` returns the literal unchanged when overflow is CLEAR,
`0x80000000` when overflow is SET and negative is CLEAR, `0x7FFFFFFF` when
overflow is SET and negative is SET or UNDEFINED, whatever the literal is, and
raises a compilation error exactly when overflow is UNDEFINED. -/
theorem packLiteral_PACK_32_32 (fc : FloatConv) (x : Literal) (ty : DataType)
    (f : ElementFlags) (z n c : FlagStatus) :
    packLiteral fc PACK_32_32 x ty ⟨z, n, c, FlagStatus.CLEAR⟩ = Except.ok (Value.literal x ty) ∧
    packLiteral fc PACK_32_32 x ty ⟨z, FlagStatus.CLEAR, c, FlagStatus.SET⟩ =
      Except.ok (Value.literal (Literal.ofNat 0x80000000) ty) ∧
    packLiteral fc PACK_32_32 x ty ⟨z, FlagStatus.SET, c, FlagStatus.SET⟩ =
      Except.ok (Value.literal (Literal.ofNat 0x7FFFFFFF) ty) ∧
    packLiteral fc PACK_32_32 x ty ⟨z, FlagStatus.UNDEFINED, c, FlagStatus.SET⟩ =
      Except.ok (Value.literal (Literal.ofNat 0x7FFFFFFF) ty) ∧
    packLiteral fc PACK_32_32 x ty ⟨z, n, c, FlagStatus.UNDEFINED⟩ =
      Except.error ⟨CompilationStep.GENERAL, "Cannot saturate on unknown overflow flags"⟩ ∧
    ((∃ e, packLiteral fc PACK_32_32 x ty f = Except.error e) ↔
      f.overflow = FlagStatus.UNDEFINED) := by
  refine ⟨rfl, rfl, rfl, rfl, rfl, ?_⟩
  obtain ⟨fz, fn, fcy, fo⟩ := f
  cases fo
  · exact ⟨fun _ => rfl, fun _ => ⟨_, rfl⟩⟩
  · exact ⟨fun ⟨e, he⟩ => (by cases he), fun h => (by cases h)⟩
  · cases fn
    · exact ⟨fun ⟨e, he⟩ => (by cases he), fun h => (by cases h)⟩
    · exact ⟨fun ⟨e, he⟩ => (by cases he), fun h => (by cases h)⟩
    · exact ⟨fun ⟨e, he⟩ => (by cases he), fun h => (by cases h)⟩

theorem and_65535 (x : Nat) : x &&& 65535 = x % 65536 := Nat.and_pow_two_sub_one_eq_mod x 16

theorem unfold_PACK_32_16A_S (fc : FloatConv) (x : Literal) (ty : DataType) (f : ElementFlags)
    (hty : ty.isFloatingType = false) :
    packLiteral fc PACK_32_16A_S x ty f =
      Except.ok (Value.literal
        (Literal.ofNat (u32 (saturate_i16 x.signedInt) &&& 65535)) ty) := by
  have h : packLiteral fc PACK_32_16A_S x ty f =
      if ty.isFloatingType then
        Except.ok (Value.literal (Literal.ofNat (fc.floatToHalf x % 65536)) ty)
      else
        Except.ok (Value.literal
          (Literal.ofNat (u32 (saturate_i16 x.signedInt) &&& 65535)) ty) := rfl
  rw [h, hty]
  rfl

theorem unfold_PACK_32_16B_S (fc : FloatConv) (x : Literal) (ty : DataType) (f : ElementFlags)
    (hty : ty.isFloatingType = false) :
    packLiteral fc PACK_32_16B_S x ty f =
      Except.ok (Value.literal (Literal.ofInt (saturate_i16 x.signedInt * 65536)) ty) := by
  have h : packLiteral fc PACK_32_16B_S x ty f =
      if ty.isFloatingType then
        Except.ok (Value.literal (Literal.ofNat ((fc.floatToHalf x % 65536) <<< 16)) ty)
      else
        Except.ok (Value.literal (Literal.ofInt (saturate_i16 x.signedInt * 65536)) ty) := rfl
  rw [h, hty]
  rfl

theorem saturate_i16_bounds (v : Int) :
    -32768 ≤ saturate_i16 v ∧ saturate_i16 v ≤ 32767 := by
  unfold saturate_i16
  omega

/-- C15: for an integer-typed literal `x`, `PACK_32_16A_S` yields the 16-bit
two's complement encoding of `clamp(signed(x), -32768, 32767)` in the low half
with the high half zero, and `PACK_32_16B_S` yields the same 16 bits in the high
half with the low half zero. -/
theorem packLiteral_16_saturate (fc : FloatConv) (x : Literal) (ty : DataType)
    (f : ElementFlags) (hty : ty.isFloatingType = false) :
    (∃ r : Literal, packLiteral fc PACK_32_16A_S x ty f = Except.ok (Value.literal r ty) ∧
      r.unsignedInt / 65536 = 0 ∧
      i16 (r.unsignedInt % 65536) = Max.max (Min.min x.signedInt 32767) (-32768)) ∧
    (∃ r : Literal, packLiteral fc PACK_32_16B_S x ty f = Except.ok (Value.literal r ty) ∧
      r.unsignedInt % 65536 = 0 ∧
      i16 (r.unsignedInt / 65536) = Max.max (Min.min x.signedInt 32767) (-32768)) := by
  have hb := saturate_i16_bounds x.signedInt
  have hs : saturate_i16 x.signedInt = Max.max (Min.min x.signedInt 32767) (-32768) := rfl
  constructor
  · refine ⟨_, unfold_PACK_32_16A_S fc x ty f hty, ?_, ?_⟩
    · rw [and_65535]
      have : u32 (saturate_i16 x.signedInt) % 65536 < 4294967296 := by omega
      rw [Literal.unsignedInt, Literal.ofNat_u_of_lt this]
      omega
    · rw [and_65535]
      have : u32 (saturate_i16 x.signedInt) % 65536 < 4294967296 := by omega
      rw [Literal.unsignedInt, Literal.ofNat_u_of_lt this, ← hs]
      simp only [i16, u32]
      split <;> omega
  · refine ⟨_, unfold_PACK_32_16B_S fc x ty f hty, ?_, ?_⟩
    · simp only [Literal.unsignedInt, Literal.ofInt, u32]
      omega
    · rw [← hs]
      simp only [Literal.unsignedInt, Literal.ofInt, u32, i16]
      split <;> omega

/-- Witness of C15 at `x = 0x00012345` (saturates to 32767). -/
theorem packLiteral_16_saturate_witness :
    TYPE_INT32.isFloatingType = false ∧
    ((∃ r : Literal,
      packLiteral FloatConv.inert PACK_32_16A_S (Literal.ofNat 0x12345) TYPE_INT32 {} =
        Except.ok (Value.literal r TYPE_INT32) ∧
      r.unsignedInt / 65536 = 0 ∧
      i16 (r.unsignedInt % 65536) =
        Max.max (Min.min (Literal.ofNat 0x12345).signedInt 32767) (-32768)) ∧
    (∃ r : Literal,
      packLiteral FloatConv.inert PACK_32_16B_S (Literal.ofNat 0x12345) TYPE_INT32 {} =
        Except.ok (Value.literal r TYPE_INT32) ∧
      r.unsignedInt % 65536 = 0 ∧
      i16 (r.unsignedInt / 65536) =
        Max.max (Min.min (Literal.ofNat 0x12345).signedInt 32767) (-32768))) :=
  ⟨rfl, packLiteral_16_saturate FloatConv.inert (Literal.ofNat 0x12345) TYPE_INT32 {} rfl⟩

theorem unfold_UNPACK_16A_32 (fc : FloatConv) (x : Literal) (ty : DataType)
    (hty : ty.isFloatingType = false) :
    unpackLiteral fc UNPACK_16A_32 x ty =
      Except.ok (Value.literal (Literal.ofInt (i16 (x.unsignedInt % 65536))) ty) := by
  have h : unpackLiteral fc UNPACK_16A_32 x ty =
      if ty.isFloatingType then
        Except.ok (Value.literal (fc.halfToFloat (x.unsignedInt % 65536)) ty)
      else Except.ok (Value.literal (Literal.ofInt (i16 (x.unsignedInt % 65536))) ty) := rfl
  rw [h, hty]
  rfl

theorem unfold_UNPACK_16B_32 (fc : FloatConv) (x : Literal) (ty : DataType)
    (hty : ty.isFloatingType = false) :
    unpackLiteral fc UNPACK_16B_32 x ty =
      Except.ok (Value.literal (Literal.ofInt (i16 ((x.unsignedInt >>> 16) % 65536))) ty) := by
  have h : unpackLiteral fc UNPACK_16B_32 x ty =
      if ty.isFloatingType then
        Except.ok (Value.literal (fc.halfToFloat ((x.unsignedInt >>> 16) % 65536)) ty)
      else
        Except.ok (Value.literal (Literal.ofInt (i16 ((x.unsignedInt >>> 16) % 65536))) ty) :=
    rfl
  rw [h, hty]
  rfl

/-- The sign extension of a 16-bit word: signed value, low half and high half. -/
theorem signExtend16 (w : Nat) (hw : w < 65536) :
    (Literal.ofInt (i16 w)).signedInt = i16 w ∧
    (Literal.ofInt (i16 w)).unsignedInt % 65536 = w ∧
    (Literal.ofInt (i16 w)).unsignedInt / 65536 = (if 32768 ≤ w then 65535 else 0) := by
  simp only [Literal.signedInt, Literal.unsignedInt, Literal.ofInt, u32, i16, i32]
  refine ⟨?_, ?_, ?_⟩
  · split <;> split <;> omega
  · split <;> omega
  · split <;> split <;> omega

theorem testBit_15 (w : Nat) (hw : w < 65536) : w.testBit 15 = decide (32768 ≤ w) := by
  rw [Nat.testBit_to_div_mod, decide_eq_decide]
  omega

/-- C16: for an integer-typed literal `x`, `UNPACK_16A_32` yields the sign
extension to 32 bits of the low 16 bits of `x` and `UNPACK_16B_32` that of the
high 16 bits (low half kept, high half filled with bit 15 of the half-word); the
result lies in `[-32768, 32767]` as a signed value. -/
theorem unpackLiteral_16_signExtend (fc : FloatConv) (x : Literal) (ty : DataType)
    (hty : ty.isFloatingType = false) :
    (∃ r : Literal, unpackLiteral fc UNPACK_16A_32 x ty = Except.ok (Value.literal r ty) ∧
      r.unsignedInt % 65536 = x.unsignedInt % 65536 ∧
      r.unsignedInt / 65536 = (if (x.unsignedInt % 65536).testBit 15 then 65535 else 0) ∧
      r.signedInt = i16 (x.unsignedInt % 65536) ∧
      -32768 ≤ r.signedInt ∧ r.signedInt ≤ 32767) ∧
    (∃ r : Literal, unpackLiteral fc UNPACK_16B_32 x ty = Except.ok (Value.literal r ty) ∧
      r.unsignedInt % 65536 = x.unsignedInt / 65536 ∧
      r.unsignedInt / 65536 = (if (x.unsignedInt / 65536).testBit 15 then 65535 else 0) ∧
      r.signedInt = i16 (x.unsignedInt / 65536) ∧
      -32768 ≤ r.signedInt ∧ r.signedInt ≤ 32767) := by
  have hx := x.h
  have hhi : (x.unsignedInt >>> 16) % 65536 = x.unsignedInt / 65536 := by
    rw [Nat.shiftRight_eq_div_pow]
    simp only [Literal.unsignedInt]
    omega
  have hlo : x.unsignedInt % 65536 < 65536 := Nat.mod_lt _ (by decide)
  have hhi' : x.unsignedInt / 65536 < 65536 := by
    simp only [Literal.unsignedInt]; omega
  constructor
  · obtain ⟨s1, s2, s3⟩ := signExtend16 _ hlo
    refine ⟨_, unfold_UNPACK_16A_32 fc x ty hty, s2, ?_, s1, ?_, ?_⟩
    · rw [s3, testBit_15 _ hlo]
      simp only [decide_eq_true_eq]
    · rw [s1]; simp only [i16]; split <;> omega
    · rw [s1]; simp only [i16]; split <;> omega
  · obtain ⟨s1, s2, s3⟩ := signExtend16 _ hhi'
    rw [unfold_UNPACK_16B_32 fc x ty hty, hhi]
    refine ⟨_, rfl, s2, ?_, s1, ?_, ?_⟩
    · rw [s3, testBit_15 _ hhi']
      simp only [decide_eq_true_eq]
    · rw [s1]; simp only [i16]; split <;> omega
    · rw [s1]; simp only [i16]; split <;> omega

/-- Witness of C16 at `x = 0x82348000`. -/
theorem unpackLiteral_16_signExtend_witness :
    TYPE_INT32.isFloatingType = false ∧
    unpackLiteral FloatConv.inert UNPACK_16A_32 (Literal.ofNat 0x82348000) TYPE_INT32 =
      Except.ok (Value.literal (Literal.ofNat 0xFFFF8000) TYPE_INT32) ∧
    unpackLiteral FloatConv.inert UNPACK_16B_32 (Literal.ofNat 0x82348000) TYPE_INT32 =
      Except.ok (Value.literal (Literal.ofNat 0xFFFF8234) TYPE_INT32) ∧
    ((∃ r : Literal,
      unpackLiteral FloatConv.inert UNPACK_16A_32 (Literal.ofNat 0x82348000) TYPE_INT32 =
        Except.ok (Value.literal r TYPE_INT32) ∧
      r.unsignedInt % 65536 = (Literal.ofNat 0x82348000).unsignedInt % 65536 ∧
      r.unsignedInt / 65536 =
        (if ((Literal.ofNat 0x82348000).unsignedInt % 65536).testBit 15 then 65535 else 0) ∧
      r.signedInt = i16 ((Literal.ofNat 0x82348000).unsignedInt % 65536) ∧
      -32768 ≤ r.signedInt ∧ r.signedInt ≤ 32767) ∧
    (∃ r : Literal,
      unpackLiteral FloatConv.inert UNPACK_16B_32 (Literal.ofNat 0x82348000) TYPE_INT32 =
        Except.ok (Value.literal r TYPE_INT32) ∧
      r.unsignedInt % 65536 = (Literal.ofNat 0x82348000).unsignedInt / 65536 ∧
      r.unsignedInt / 65536 =
        (if ((Literal.ofNat 0x82348000).unsignedInt / 65536).testBit 15 then 65535 else 0) ∧
      r.signedInt = i16 ((Literal.ofNat 0x82348000).unsignedInt / 65536) ∧
      -32768 ≤ r.signedInt ∧ r.signedInt ≤ 32767)) :=
  ⟨rfl, rfl, rfl,
    unpackLiteral_16_signExtend FloatConv.inert (Literal.ofNat 0x82348000) TYPE_INT32 rfl⟩

theorem and_shiftLeft_mask (x m k : Nat) : ((x >>> k) &&& m) <<< k = x &&& (m <<< k) := by
  apply Nat.eq_of_testBit_eq
  intro i
  simp only [Nat.testBit_shiftLeft, Nat.testBit_and, Nat.testBit_shiftRight]
  by_cases h : k ≤ i
  · have e : k + (i - k) = i := by omega
    simp [h, e]
  · simp [h]

theorem mod_256_and_255 (x : Nat) : (x % 256) &&& 255 = x &&& 255 := by
  rw [and_255, and_255, Nat.mod_mod]

/-- Pack after unpack of the half-word and byte lanes, on the bit patterns. -/
theorem roundtrip_masks (x : Literal) :
    (Literal.ofInt (i16 (x.unsignedInt % 65536))).unsignedInt &&& 65535 =
      x.unsignedInt &&& 65535 ∧
    ((Literal.ofInt (i16 ((x.unsignedInt >>> 16) % 65536))).unsignedInt &&& 65535) <<< 16 =
      x.unsignedInt &&& 4294901760 ∧
    (Literal.ofNat (x.unsignedInt % 256)).unsignedInt &&& 255 = x.unsignedInt &&& 255 ∧
    ((Literal.ofNat ((x.unsignedInt >>> 8) % 256)).unsignedInt &&& 255) <<< 8 =
      x.unsignedInt &&& 65280 ∧
    ((Literal.ofNat ((x.unsignedInt >>> 16) % 256)).unsignedInt &&& 255) <<< 16 =
      x.unsignedInt &&& 16711680 ∧
    ((Literal.ofNat ((x.unsignedInt >>> 24) % 256)).unsignedInt &&& 255) <<< 24 =
      x.unsignedInt &&& 4278190080 := by
  have hx := x.h
  have b (y : Nat) : (Literal.ofNat (y % 256)).unsignedInt = y % 256 :=
    Literal.ofNat_u_of_lt (by omega)
  have w (y : Nat) : (Literal.ofInt (i16 (y % 65536))).unsignedInt % 65536 = y % 65536 :=
    (signExtend16 _ (Nat.mod_lt _ (by decide))).2.1
  refine ⟨?_, ?_, ?_, ?_, ?_, ?_⟩
  · rw [and_65535, and_65535, w]
  · rw [and_65535, w, ← and_65535, and_shiftLeft_mask]
    rfl
  · rw [b, mod_256_and_255]
  · rw [b, mod_256_and_255, and_shiftLeft_mask]
    rfl
  · rw [b, mod_256_and_255, and_shiftLeft_mask]
    rfl
  · rw [b, mod_256_and_255, and_shiftLeft_mask]
    rfl

theorem unpack_int_cases (fc : FloatConv) (x : Literal) (ty : DataType)
    (hty : ty.isFloatingType = false) :
    unpackLiteral fc UNPACK_8A_32 x ty =
      Except.ok (Value.literal (Literal.ofNat (x.unsignedInt % 256)) ty) ∧
    unpackLiteral fc UNPACK_8B_32 x ty =
      Except.ok (Value.literal (Literal.ofNat ((x.unsignedInt >>> 8) % 256)) ty) ∧
    unpackLiteral fc UNPACK_8C_32 x ty =
      Except.ok (Value.literal (Literal.ofNat ((x.unsignedInt >>> 16) % 256)) ty) ∧
    unpackLiteral fc UNPACK_8D_32 x ty =
      Except.ok (Value.literal (Literal.ofNat ((x.unsignedInt >>> 24) % 256)) ty) := by
  have h0 : unpackLiteral fc UNPACK_8A_32 x ty =
      if ty.isFloatingType then Except.ok (unpackColor fc x ty 0)
      else Except.ok (Value.literal (Literal.ofNat (x.unsignedInt % 256)) ty) := rfl
  have h1 : unpackLiteral fc UNPACK_8B_32 x ty =
      if ty.isFloatingType then Except.ok (unpackColor fc x ty 8)
      else Except.ok (Value.literal (Literal.ofNat ((x.unsignedInt >>> 8) % 256)) ty) := rfl
  have h2 : unpackLiteral fc UNPACK_8C_32 x ty =
      if ty.isFloatingType then Except.ok (unpackColor fc x ty 16)
      else Except.ok (Value.literal (Literal.ofNat ((x.unsignedInt >>> 16) % 256)) ty) := rfl
  have h3 : unpackLiteral fc UNPACK_8D_32 x ty =
      if ty.isFloatingType then Except.ok (unpackColor fc x ty 24)
      else Except.ok (Value.literal (Literal.ofNat ((x.unsignedInt >>> 24) % 256)) ty) := rfl
  rw [h0, h1, h2, h3, hty]
  exact ⟨rfl, rfl, rfl, rfl⟩

theorem pack_int_cases (fc : FloatConv) (y : Literal) (ty : DataType) (f : ElementFlags)
    (hty : ty.isFloatingType = false) :
    packLiteral fc PACK_32_16A y ty f =
      Except.ok (Value.literal (Literal.ofNat (y.unsignedInt &&& 65535)) ty) ∧
    packLiteral fc PACK_32_16B y ty f =
      Except.ok (Value.literal (Literal.ofNat ((y.unsignedInt &&& 65535) <<< 16)) ty) ∧
    packLiteral fc PACK_32_8A y ty f =
      Except.ok (Value.literal (Literal.ofNat (y.unsignedInt &&& 255)) ty) ∧
    packLiteral fc PACK_32_8B y ty f =
      Except.ok (Value.literal (Literal.ofNat ((y.unsignedInt &&& 255) <<< 8)) ty) ∧
    packLiteral fc PACK_32_8C y ty f =
      Except.ok (Value.literal (Literal.ofNat ((y.unsignedInt &&& 255) <<< 16)) ty) ∧
    packLiteral fc PACK_32_8D y ty f =
      Except.ok (Value.literal (Literal.ofNat ((y.unsignedInt &&& 255) <<< 24)) ty) := by
  have h0 : packLiteral fc PACK_32_16A y ty f =
      if ty.isFloatingType then
        Except.ok (Value.literal (Literal.ofNat (fc.floatToHalf y % 65536)) ty)
      else Except.ok (Value.literal (Literal.ofNat (y.unsignedInt &&& 65535)) ty) := rfl
  have h1 : packLiteral fc PACK_32_16B y ty f =
      if ty.isFloatingType then
        Except.ok (Value.literal (Literal.ofNat ((fc.floatToHalf y % 65536) <<< 16)) ty)
      else Except.ok (Value.literal (Literal.ofNat ((y.unsignedInt &&& 65535) <<< 16)) ty) :=
    rfl
  rw [h0, h1, hty]
  exact ⟨rfl, rfl, rfl, rfl, rfl, rfl⟩

/-- C13: pack after unpack is the mask to the lane: for an integer-typed
literal `x`, `PACK_32_16A` after `UNPACK_16A_32` gives `x & 0xFFFF`,
`PACK_32_16B` after `UNPACK_16B_32` gives `x & 0xFFFF0000`, and `PACK_32_8A..8D`
after `UNPACK_8A_32..8D_32` give `x & 0xFF`, `x & 0xFF00`, `x & 0xFF0000` and
`x & 0xFF000000`. -/
theorem pack_unpack_roundtrip (fc : FloatConv) (x : Literal) (ty : DataType) (f : ElementFlags)
    (hty : ty.isFloatingType = false) :
    (∃ y : Literal, unpackLiteral fc UNPACK_16A_32 x ty = Except.ok (Value.literal y ty) ∧
      packLiteral fc PACK_32_16A y ty f =
        Except.ok (Value.literal (Literal.ofNat (x.unsignedInt &&& 0xFFFF)) ty)) ∧
    (∃ y : Literal, unpackLiteral fc UNPACK_16B_32 x ty = Except.ok (Value.literal y ty) ∧
      packLiteral fc PACK_32_16B y ty f =
        Except.ok (Value.literal (Literal.ofNat (x.unsignedInt &&& 0xFFFF0000)) ty)) ∧
    (∃ y : Literal, unpackLiteral fc UNPACK_8A_32 x ty = Except.ok (Value.literal y ty) ∧
      packLiteral fc PACK_32_8A y ty f =
        Except.ok (Value.literal (Literal.ofNat (x.unsignedInt &&& 0xFF)) ty)) ∧
    (∃ y : Literal, unpackLiteral fc UNPACK_8B_32 x ty = Except.ok (Value.literal y ty) ∧
      packLiteral fc PACK_32_8B y ty f =
        Except.ok (Value.literal (Literal.ofNat (x.unsignedInt &&& 0xFF00)) ty)) ∧
    (∃ y : Literal, unpackLiteral fc UNPACK_8C_32 x ty = Except.ok (Value.literal y ty) ∧
      packLiteral fc PACK_32_8C y ty f =
        Except.ok (Value.literal (Literal.ofNat (x.unsignedInt &&& 0xFF0000)) ty)) ∧
    (∃ y : Literal, unpackLiteral fc UNPACK_8D_32 x ty = Except.ok (Value.literal y ty) ∧
      packLiteral fc PACK_32_8D y ty f =
        Except.ok (Value.literal (Literal.ofNat (x.unsignedInt &&& 0xFF000000)) ty)) := by
  obtain ⟨m0, m1, m2, m3, m4, m5⟩ := roundtrip_masks x
  obtain ⟨u0, u1, u2, u3⟩ := unpack_int_cases fc x ty hty
  refine ⟨⟨_, unfold_UNPACK_16A_32 fc x ty hty, ?_⟩, ⟨_, unfold_UNPACK_16B_32 fc x ty hty, ?_⟩,
    ⟨_, u0, ?_⟩, ⟨_, u1, ?_⟩, ⟨_, u2, ?_⟩, ⟨_, u3, ?_⟩⟩
  · rw [(pack_int_cases fc _ ty f hty).1, m0]
  · rw [(pack_int_cases fc _ ty f hty).2.1, m1]
  · rw [(pack_int_cases fc _ ty f hty).2.2.1, m2]
  · rw [(pack_int_cases fc _ ty f hty).2.2.2.1, m3]
  · rw [(pack_int_cases fc _ ty f hty).2.2.2.2.1, m4]
  · rw [(pack_int_cases fc _ ty f hty).2.2.2.2.2, m5]

/-- Witness of C13 at `x = 0x82348012`. -/
theorem pack_unpack_roundtrip_witness :
    TYPE_INT32.isFloatingType = false ∧
    (∃ y : Literal,
      unpackLiteral FloatConv.inert UNPACK_16B_32 (Literal.ofNat 0x82348012) TYPE_INT32 =
        Except.ok (Value.literal y TYPE_INT32) ∧
      packLiteral FloatConv.inert PACK_32_16B y TYPE_INT32 {} =
        Except.ok (Value.literal
          (Literal.ofNat ((Literal.ofNat 0x82348012).unsignedInt &&& 0xFFFF0000))
          TYPE_INT32)) ∧
    (Literal.ofNat 0x82348012).unsignedInt &&& 0xFFFF0000 = 0x82340000 :=
  ⟨rfl,
    (pack_unpack_roundtrip FloatConv.inert (Literal.ofNat 0x82348012) TYPE_INT32 {} rfl).2.1,
    by decide⟩

theorem literal_setFlags (l : Literal) (t : DataType) :
    PrecalculatedValue.literal (setFlags (Value.literal l t)) = some l := rfl

theorem literal_setFlagsCarry (l : Literal) (t : DataType) (c : Bool) :
    PrecalculatedValue.literal (setFlagsCarry (Value.literal l t) c) = some l := rfl

theorem literal_setFlagsCarryOverflow (l : Literal) (t : DataType) (c o : Bool) :
    PrecalculatedValue.literal (setFlagsCarryOverflow (Value.literal l t) c o) = some l := rfl

/-- A V8 opcode whose four byte lanes all yield the byte `c` yields the pattern
with `c` in every byte. -/
theorem calcLiteral_v8_const (fp : FloatArith) (code : OpCode) (a b : Literal)
    (rt ft : DataType)
    (h : code = OP_V8ADDS ∨ code = OP_V8SUBS ∨ code = OP_V8MAX ∨ code = OP_V8MIN ∨
      code = OP_V8MULD)
    (c : Nat) (hc : c < 256)
    (hl : ∀ k : Fin 4, v8Lane code (a.byte k.val) (b.byte k.val) = some c) :
    PrecalculatedValue.literal (calcLiteral fp code a b rt ft) =
      some (Literal.ofNat (c * 16843009)) := by
  obtain ⟨r, hr, hu⟩ := calcLiteral_v8 fp code a b rt ft c c c c
    (calcLiteral_v8_eq fp code a b rt ft h) (hl 0) (hl 1) (hl 2) (hl 3) hc hc hc hc
  rw [hr, literal_setFlags]
  congr 1
  apply Literal.eq_of_u_eq
  rw [hu]
  simp only [Literal.ofNat]
  omega

theorem or_4294967295 (a : Nat) (ha : a < 4294967296) :
    4294967295 ||| a = 4294967295 ∧ a ||| 4294967295 = 4294967295 := by
  have key : 4294967295 ||| a = 4294967295 := by
    apply Nat.eq_of_testBit_eq
    intro i
    rw [Nat.testBit_or, testBit_4294967295]
    by_cases hi : i < 32
    · simp [hi]
    · have : a.testBit i = false := by
        apply Nat.testBit_lt_two_pow
        calc a < 2 ^ 32 := ha
          _ ≤ 2 ^ i := Nat.pow_le_pow_right (by decide) (by omega)
      simp [hi, this]
  exact ⟨key, by rw [Nat.or_comm]; exact key⟩

theorem Literal.byte_zero (k : Nat) : (Literal.ofNat 0).byte k = 0 := by
  simp [Literal.byte, Literal.ofNat]

theorem Literal.byte_ones (k : Fin 4) : (Literal.ofNat 4294967295).byte k.val = 255 := by
  fin_cases k <;> rfl

theorem rotate_right_zero (s : Int) : rotate_right 0 s = 0 := by
  unfold rotate_right
  simp

/-- C12: the integer absorbing elements absorb under evaluation: 0 on either
side of AND, MUL24, V8MULD and V8MIN gives 0; all-bits-set on either side of OR
and V8MAX gives all-bits-set; 0 as first operand of SHL, SHR and ROR gives 0 for
every shift amount `0 <= b <= 31`; these are the elements the absorbing-element
tables return for these opcodes. -/
theorem absorbing_elements (fp : FloatArith) (a b : Literal) (rt ft : DataType)
    (hb : b.unsignedInt ≤ 31) :
    (∀ op ∈ [OP_AND, OP_MUL24, OP_V8MULD, OP_V8MIN],
      op.getLeftAbsorbingElement.bind Value.getLiteralValue = some (Literal.ofNat 0) ∧
      op.getRightAbsorbingElement.bind Value.getLiteralValue = some (Literal.ofNat 0) ∧
      PrecalculatedValue.literal (calcLiteral fp op (Literal.ofNat 0) a rt ft) =
        some (Literal.ofNat 0) ∧
      PrecalculatedValue.literal (calcLiteral fp op a (Literal.ofNat 0) rt ft) =
        some (Literal.ofNat 0)) ∧
    (∀ op ∈ [OP_OR, OP_V8MAX],
      op.getLeftAbsorbingElement.bind Value.getLiteralValue =
        some (Literal.ofNat 0xFFFFFFFF) ∧
      op.getRightAbsorbingElement.bind Value.getLiteralValue =
        some (Literal.ofNat 0xFFFFFFFF) ∧
      PrecalculatedValue.literal (calcLiteral fp op (Literal.ofNat 0xFFFFFFFF) a rt ft) =
        some (Literal.ofNat 0xFFFFFFFF) ∧
      PrecalculatedValue.literal (calcLiteral fp op a (Literal.ofNat 0xFFFFFFFF) rt ft) =
        some (Literal.ofNat 0xFFFFFFFF)) ∧
    (∀ op ∈ [OP_SHL, OP_SHR, OP_ROR],
      op.getLeftAbsorbingElement.bind Value.getLiteralValue = some (Literal.ofNat 0) ∧
      PrecalculatedValue.literal (calcLiteral fp op (Literal.ofNat 0) b rt ft) =
        some (Literal.ofNat 0)) := by
  have _ := hb
  have ha := a.h
  have hbyte := fun k => a.byte_lt k
  refine ⟨?_, ?_, ?_⟩
  · intro op hop
    simp only [List.mem_cons, List.mem_singleton, List.not_mem_nil, or_false] at hop
    rcases hop with h | h | h | h <;> subst h
    · refine ⟨rfl, rfl, ?_, ?_⟩
      · rw [unfold_AND, literal_setFlagsCarryOverflow]
        show some (Literal.ofNat (0 &&& a.unsignedInt)) = _
        rw [Nat.zero_and]
      · rw [unfold_AND, literal_setFlagsCarryOverflow]
        show some (Literal.ofNat (a.unsignedInt &&& 0)) = _
        rw [Nat.and_zero]
    · refine ⟨rfl, rfl, ?_, ?_⟩
      · rw [unfold_MUL24, literal_setFlagsCarry]
        show some (Literal.ofNat ((0 &&& 16777215) * (a.unsignedInt &&& 16777215))) = _
        rw [Nat.zero_and, Nat.zero_mul]
      · rw [unfold_MUL24, literal_setFlagsCarry]
        show some (Literal.ofNat ((a.unsignedInt &&& 16777215) * (0 &&& 16777215))) = _
        rw [Nat.zero_and, Nat.mul_zero]
    · refine ⟨rfl, rfl, ?_, ?_⟩
      · refine calcLiteral_v8_const fp OP_V8MULD _ a rt ft (by simp) 0 (by decide) ?_
        intro k
        rw [Literal.byte_zero]
        show some (((0 * a.byte k.val + 127) % 4294967296) / 255) = some 0
        simp
      · refine calcLiteral_v8_const fp OP_V8MULD a _ rt ft (by simp) 0 (by decide) ?_
        intro k
        rw [Literal.byte_zero]
        show some (((a.byte k.val * 0 + 127) % 4294967296) / 255) = some 0
        simp
    · refine ⟨rfl, rfl, ?_, ?_⟩
      · refine calcLiteral_v8_const fp OP_V8MIN _ a rt ft (by simp) 0 (by decide) ?_
        intro k
        rw [Literal.byte_zero, v8Lane_V8MIN]
        simp
      · refine calcLiteral_v8_const fp OP_V8MIN a _ rt ft (by simp) 0 (by decide) ?_
        intro k
        rw [Literal.byte_zero, v8Lane_V8MIN]
        simp
  · intro op hop
    simp only [List.mem_cons, List.mem_singleton, List.not_mem_nil, or_false] at hop
    rcases hop with h | h <;> subst h
    · refine ⟨rfl, rfl, ?_, ?_⟩
      · rw [unfold_OR, literal_setFlagsCarryOverflow]
        show some (Literal.ofNat (4294967295 ||| a.unsignedInt)) = _
        rw [(or_4294967295 a.unsignedInt ha).1]
      · rw [unfold_OR, literal_setFlagsCarryOverflow]
        show some (Literal.ofNat (a.unsignedInt ||| 4294967295)) = _
        rw [(or_4294967295 a.unsignedInt ha).2]
    · refine ⟨rfl, rfl, ?_, ?_⟩
      · refine calcLiteral_v8_const fp OP_V8MAX _ a rt ft (by simp) 255 (by decide) ?_
        intro k
        rw [Literal.byte_ones, v8Lane_V8MAX]
        have := hbyte k.val
        congr 1
        omega
      · refine calcLiteral_v8_const fp OP_V8MAX a _ rt ft (by simp) 255 (by decide) ?_
        intro k
        rw [Literal.byte_ones, v8Lane_V8MAX]
        have := hbyte k.val
        congr 1
        omega
  · intro op hop
    simp only [List.mem_cons, List.mem_singleton, List.not_mem_nil, or_false] at hop
    rcases hop with h | h | h <;> subst h
    · refine ⟨rfl, ?_⟩
      show some (Literal.ofNat (0 <<< shiftCount b.signedInt)) = _
      rw [Nat.zero_shiftLeft]
    · refine ⟨rfl, ?_⟩
      show some (Literal.ofNat (0 >>> shiftCount b.signedInt)) = _
      rw [Nat.zero_shiftRight]
    · refine ⟨rfl, ?_⟩
      show some (Literal.ofNat (rotate_right 0 b.signedInt)) = _
      rw [rotate_right_zero]

/-- Witness of C12 at `a = 0x82348012`, `b = 5`. -/
theorem absorbing_elements_witness :
    (Literal.ofNat 5).unsignedInt ≤ 31 ∧
    PrecalculatedValue.literal (calcLiteral FloatArith.inert OP_V8MAX (Literal.ofNat 0x82348012)
      (Literal.ofNat 0xFFFFFFFF) TYPE_INT32 TYPE_INT32) = some (Literal.ofNat 0xFFFFFFFF) ∧
    PrecalculatedValue.literal (calcLiteral FloatArith.inert OP_ROR (Literal.ofNat 0)
      (Literal.ofNat 5) TYPE_INT32 TYPE_INT32) = some (Literal.ofNat 0) :=
  have h := absorbing_elements FloatArith.inert (Literal.ofNat 0x82348012) (Literal.ofNat 5)
    TYPE_INT32 TYPE_INT32 (by decide)
  ⟨by decide, (h.2.1 OP_V8MAX (by simp)).2.2.2, (h.2.2 OP_ROR (by simp)).2⟩

theorem and_4294967295 (a : Nat) (ha : a < 4294967296) : 4294967295 &&& a = a := by
  rw [Nat.and_comm]
  have := Nat.and_pow_two_sub_one_eq_mod a 32
  rw [Nat.mod_eq_of_lt ha] at this
  exact this

/-- Under FMAX, -Inf as first operand returns the second operand. -/
theorem FMAX_negInf (fp : FloatArith) (a : Literal) (rt ft : DataType) :
    PrecalculatedValue.literal (calcLiteral fp OP_FMAX (Literal.ofNat 4286578688) a rt ft) =
      some a := by
  have ha := a.h
  rw [unfold_FMAX]
  have h1 : ieee.isnan (Literal.ofNat 4286578688) = false := by decide
  rw [h1]
  simp only [Bool.false_eq_true, if_false]
  cases hn : ieee.isnan a
  · simp only [Bool.false_eq_true, if_false]
    rw [literal_setFlagsCarryOverflow]
    congr 1
    simp only [ieee.max, ieee.less, h1, hn, Bool.not_false, Bool.true_and]
    split
    · rfl
    · rename_i hlt
      simp only [decide_eq_true_eq, ieee.order] at hlt
      have hu : (Literal.ofNat 4286578688).u = 4286578688 := rfl
      rw [hu] at hlt
      simp only [ieee.isnan, Bool.and_eq_false_iff, beq_eq_false_iff_ne, ne_eq,
        bne_eq_false_iff_eq] at hn
      apply Literal.eq_of_u_eq
      rw [hu]
      split at hlt <;> omega
  · simp only [if_true]
    rfl

/-- C11 at its failing input: `getLeftIdentity` declares 1 the left identity of
MUL24, yet `eval(MUL24, 1, a)` is `a & 0xFFFFFF`, so that
`eval(MUL24, 1, 0x01000000)` is 0; for ADD, OR, XOR (0), AND (all-bits-set),
FMIN (NaN) and FMAX (-Inf) the declared left identity does return `a`. -/
theorem getLeftIdentity_eval (fp : FloatArith) (a : Literal) (rt ft : DataType) :
    OP_MUL24.getLeftIdentity.bind Value.getLiteralValue = some (Literal.ofNat 1) ∧
    PrecalculatedValue.literal
      (calcLiteral fp OP_MUL24 (Literal.ofNat 1) (Literal.ofNat 0x01000000) rt ft) =
        some (Literal.ofNat 0) ∧
    Literal.ofNat 0 ≠ Literal.ofNat 0x01000000 ∧
    PrecalculatedValue.literal (calcLiteral fp OP_MUL24 (Literal.ofNat 1) a rt ft) =
      some (Literal.ofNat (a.unsignedInt % 16777216)) ∧
    (∀ op ∈ [OP_ADD, OP_OR, OP_XOR, OP_AND, OP_FMIN, OP_FMAX],
      ∃ L : Literal, op.getLeftIdentity.bind Value.getLiteralValue = some L ∧
        PrecalculatedValue.literal (calcLiteral fp op L a rt ft) = some a) := by
  have ha := a.h
  refine ⟨rfl, rfl, by decide, ?_, ?_⟩
  · rw [unfold_MUL24, literal_setFlagsCarry]
    show some (Literal.ofNat ((1 &&& 16777215) * (a.unsignedInt &&& 16777215))) = _
    rw [and_16777215, and_16777215]
    simp
  · intro op hop
    simp only [List.mem_cons, List.mem_singleton, List.not_mem_nil, or_false] at hop
    rcases hop with h | h | h | h | h | h <;> subst h
    · refine ⟨Literal.ofNat 0, rfl, ?_⟩
      rw [unfold_ADD, literal_setFlagsCarryOverflow]
      have : (Literal.ofNat 0).signedInt = 0 := by decide
      rw [this, Int.zero_add, Literal.ofInt_signedInt]
    · refine ⟨Literal.ofNat 0, rfl, ?_⟩
      rw [unfold_OR, literal_setFlagsCarryOverflow]
      show some (Literal.ofNat (0 ||| a.u)) = _
      rw [Nat.zero_or, Literal.ofNat_u]
    · refine ⟨Literal.ofNat 0, rfl, ?_⟩
      rw [unfold_XOR, literal_setFlagsCarryOverflow]
      show some (Literal.ofNat (0 ^^^ a.u)) = _
      rw [Nat.zero_xor, Literal.ofNat_u]
    · refine ⟨Literal.ofNat 4294967295, rfl, ?_⟩
      rw [unfold_AND, literal_setFlagsCarryOverflow]
      show some (Literal.ofNat (4294967295 &&& a.u)) = _
      rw [and_4294967295 _ ha, Literal.ofNat_u]
    · refine ⟨Literal.ofNat 2143289344, rfl, ?_⟩
      rw [unfold_FMIN]
      have h1 : ieee.isnan (Literal.ofNat 2143289344) = true := by decide
      rw [h1]
      rfl
    · exact ⟨Literal.ofNat 4286578688, rfl, FMAX_negInf fp a rt ft⟩

/-- For a modifier of the catalog with an effect `unpackLiteral` never fails and
returns a literal of the operand type. -/
theorem unpackLiteral_ok (fc : FloatConv) (u : Unpack) (hu : u ∈ unpackModes)
    (he : u.hasEffect = true) (lit : Literal) (ty : DataType) :
    ∃ r : Literal, unpackLiteral fc u lit ty = Except.ok (Value.literal r ty) := by
  simp only [unpackModes, List.mem_cons, List.mem_singleton, List.not_mem_nil, or_false] at hu
  rcases hu with h | h | h | h | h | h | h | h | h | h | h | h | h | h | h | h <;> subst h
  · exact absurd he (by decide)
  · exact absurd he (by decide)
  all_goals
    cases hf : ty.isFloatingType
    · exact ⟨_, by simp only [unpackLiteral, hf]; rfl⟩
    · exact ⟨_, by simp only [unpackLiteral, hf]; rfl⟩

/-- The lane loop of `Unpack::operator()`: it gives no value iff some lane has
no literal, and otherwise the list of the unpacked lanes, in order. -/
theorem unpackElements_spec (fc : FloatConv) (u : Unpack)
    (hok : ∀ lit ty, ∃ r : Literal, unpackLiteral fc u lit ty = Except.ok (Value.literal r ty))
    (elems : List Value) :
    ((∃ e ∈ elems, e.getLiteralValue = none) ∧
      Unpack.unpackElements fc u elems = Except.ok none) ∨
    ((∀ e ∈ elems, e.getLiteralValue ≠ none) ∧
      ∃ rs, Unpack.unpackElements fc u elems = Except.ok (some rs) ∧
        List.Forall₂ (fun e r => ∃ lit, e.getLiteralValue = some lit ∧
          unpackLiteral fc u lit e.type = Except.ok r) elems rs) := by
  induction elems with
  | nil => exact Or.inr ⟨by simp, [], rfl, List.Forall₂.nil⟩
  | cons e es ih =>
    cases hl : e.getLiteralValue with
    | none =>
      refine Or.inl ⟨⟨e, List.mem_cons_self _ _, hl⟩, ?_⟩
      simp only [Unpack.unpackElements, hl]
    | some lit =>
      obtain ⟨r, hr⟩ := hok lit e.type
      rcases ih with ⟨⟨e', he', hn⟩, hrest⟩ | ⟨hall, rs, hrest, hf⟩
      · refine Or.inl ⟨⟨e', List.mem_cons_of_mem _ he', hn⟩, ?_⟩
        simp only [Unpack.unpackElements, hl, hr, hrest]
      · refine Or.inr ⟨?_, Value.literal r e.type :: rs, ?_, ?_⟩
        · intro x hx
          rcases List.mem_cons.mp hx with h | h
          · rw [h, hl]; simp
          · exact hall x h
        · simp only [Unpack.unpackElements, hl, hr, hrest]
        · exact List.Forall₂.cons ⟨lit, hl, hr⟩ hf

theorem Unpack.hasEffect_false_iff (w : Unpack) :
    w.hasEffect = false ↔ (w.value = 0 ∨ w.value = 1) := by
  simp only [Unpack.hasEffect, Bool.and_eq_false_iff, decide_eq_false_iff_not, ne_eq,
    not_not]

theorem Unpack.apply_noEffect (fc : FloatConv) (w : Unpack) (v : Value)
    (h : w.hasEffect = false) : w.apply fc v = Except.ok (some v) := by
  simp only [Unpack.apply, h, Bool.not_false, if_true]

/-- C17: `Unpack::operator()` returns its input unchanged for every value when
the modifier has no effect, which is exactly when its encoding is 0 or 1; a
modifier with an effect returns NONE iff the type of the value is not simple or
the value is neither a scalar literal nor a container all of whose lanes are
literals; otherwise it returns the unpacked literal, or a container of the
same type and lane count whose lanes are the unpacked lanes of the input, in
order. -/
theorem Unpack_apply_spec (fc : FloatConv) (u : Unpack) (hu : u ∈ unpackModes) (val : Value) :
    (∀ w : Unpack, w.hasEffect = false ↔ (w.value = 0 ∨ w.value = 1)) ∧
    (∀ w : Unpack, w.hasEffect = true ∨ w.apply fc val = Except.ok (some val)) ∧
    (u.hasEffect = false ∨
      (((u.apply fc val = Except.ok none) ↔
        (val.type.isSimpleType = false ∨
          (val.getLiteralValue = none ∧
            ¬ ∃ elems, val.checkContainer = some elems ∧
              ∀ e ∈ elems, e.getLiteralValue ≠ none))) ∧
      (u.apply fc val = Except.ok none ∨
        (∃ lit r, val.getLiteralValue = some lit ∧
          unpackLiteral fc u lit val.type = Except.ok r ∧
          u.apply fc val = Except.ok (some r)) ∨
        (∃ elems rs, val.checkContainer = some elems ∧
          u.apply fc val = Except.ok (some (Value.container rs val.type)) ∧
          rs.length = elems.length ∧
          List.Forall₂ (fun e r => ∃ lit, e.getLiteralValue = some lit ∧
            unpackLiteral fc u lit e.type = Except.ok r) elems rs)))) := by
  refine ⟨Unpack.hasEffect_false_iff, ?_, ?_⟩
  · intro w
    cases h : w.hasEffect
    · exact Or.inr (Unpack.apply_noEffect fc w val h)
    · exact Or.inl rfl
  cases he : u.hasEffect
  · exact Or.inl rfl
  right
  have hok := unpackLiteral_ok fc u hu he
  cases hs : val.type.isSimpleType
  · have hap : u.apply fc val = Except.ok none := by
      simp only [Unpack.apply, he, hs, Bool.not_true, Bool.not_false, Bool.false_eq_true,
        if_false, if_true]
    exact ⟨⟨fun _ => Or.inl rfl, fun _ => hap⟩, Or.inl hap⟩
  · cases val with
    | literal lit ty =>
      obtain ⟨r, hr⟩ := hok lit ty
      have hap : u.apply fc (Value.literal lit ty) = Except.ok (some (Value.literal r ty)) := by
        simp only [Unpack.apply, he, hs, Bool.not_true, Bool.false_eq_true, if_false,
          Value.checkContainer, Value.getLiteralValue, Value.type, hr] at hs ⊢
      refine ⟨⟨fun h => ?_, fun h => ?_⟩, Or.inr (Or.inl ⟨lit, _, rfl, hr, hap⟩)⟩
      · rw [hap] at h; cases h
      · rcases h with h | ⟨h, _⟩
        · cases h
        · cases h
    | container elems ty =>
      rcases unpackElements_spec fc u hok elems with ⟨hex, hrest⟩ | ⟨hall, rs, hrest, hf⟩
      · have hap : u.apply fc (Value.container elems ty) = Except.ok none := by
          simp only [Unpack.apply, he, hs, Bool.not_true, Bool.false_eq_true, if_false,
            Value.checkContainer, hrest]
        refine ⟨⟨fun _ => Or.inr ⟨rfl, ?_⟩, fun _ => hap⟩, Or.inl hap⟩
        rintro ⟨es, hes, hall⟩
        cases hes
        obtain ⟨e, hm, hn⟩ := hex
        exact hall e hm hn
      · have hap : u.apply fc (Value.container elems ty) =
            Except.ok (some (Value.container rs ty)) := by
          simp only [Unpack.apply, he, hs, Bool.not_true, Bool.false_eq_true, if_false,
            Value.checkContainer, hrest, Value.type] at hs ⊢
        refine ⟨⟨fun h => ?_, fun h => ?_⟩,
          Or.inr (Or.inr ⟨elems, rs, rfl, hap, hf.length_eq.symm, hf⟩)⟩
        · rw [hap] at h; cases h
        · rcases h with h | ⟨_, h⟩
          · cases h
          · exact absurd ⟨elems, rfl, hall⟩ h
    | immediate imm ty =>
      have hap : u.apply fc (Value.immediate imm ty) = Except.ok none := by
        simp only [Unpack.apply, he, hs, Bool.not_true, Bool.false_eq_true, if_false,
          Value.checkContainer, Value.getLiteralValue]
      refine ⟨⟨fun _ => Or.inr ⟨rfl, ?_⟩, fun _ => hap⟩, Or.inl hap⟩
      rintro ⟨es, hes, _⟩
      cases hes
    | register file num ty =>
      have hap : u.apply fc (Value.register file num ty) = Except.ok none := by
        simp only [Unpack.apply, he, hs, Bool.not_true, Bool.false_eq_true, if_false,
          Value.checkContainer, Value.getLiteralValue]
      refine ⟨⟨fun _ => Or.inr ⟨rfl, ?_⟩, fun _ => hap⟩, Or.inl hap⟩
      rintro ⟨es, hes, _⟩
      cases hes
    | localRef id ty =>
      have hap : u.apply fc (Value.localRef id ty) = Except.ok none := by
        simp only [Unpack.apply, he, hs, Bool.not_true, Bool.false_eq_true, if_false,
          Value.checkContainer, Value.getLiteralValue]
      refine ⟨⟨fun _ => Or.inr ⟨rfl, ?_⟩, fun _ => hap⟩, Or.inl hap⟩
      rintro ⟨es, hes, _⟩
      cases hes
    | undefined ty =>
      have hap : u.apply fc (Value.undefined ty) = Except.ok none := by
        simp only [Unpack.apply, he, hs, Bool.not_true, Bool.false_eq_true, if_false,
          Value.checkContainer, Value.getLiteralValue]
      refine ⟨⟨fun _ => Or.inr ⟨rfl, ?_⟩, fun _ => hap⟩, Or.inl hap⟩
      rintro ⟨es, hes, _⟩
      cases hes

/-- Witness of C17 at `UNPACK_8A_32` and a container of two literal lanes. -/
theorem Unpack_apply_spec_witness :
    UNPACK_8A_32 ∈ unpackModes ∧
    (∀ w : Unpack, w.hasEffect = false ↔ (w.value = 0 ∨ w.value = 1)) ∧
    Unpack.apply FloatConv.inert UNPACK_8A_32
      (Value.container [Value.literal (Literal.ofNat 0x1234) TYPE_INT32,
        Value.literal (Literal.ofNat 0x56) TYPE_INT32] TYPE_INT32) =
      Except.ok (some (Value.container [Value.literal (Literal.ofNat 0x34) TYPE_INT32,
        Value.literal (Literal.ofNat 0x56) TYPE_INT32] TYPE_INT32)) :=
  ⟨by decide,
    (Unpack_apply_spec FloatConv.inert UNPACK_8A_32 (by decide)
      (Value.container [Value.literal (Literal.ofNat 0x1234) TYPE_INT32,
        Value.literal (Literal.ofNat 0x56) TYPE_INT32] TYPE_INT32)).1,
    rfl⟩

/-! ## Ordering and lookup by selector: theorems -/

/-- C21 (code defect): `OpCode::operator<` is irreflexive, but it is not the
lexicographic order on `(opAdd, opMul)` and not a strict order: ADD, with
selectors (12, 0), and FMUL, with selectors (0, 1), are each less than the
other, so the relation is not asymmetric, and with ADD < FMUL and FMUL < ADD
but not ADD < ADD it is not transitive either. -/
theorem OpCode_lt_not_strict_order :
    (∀ a : OpCode, a.lt a = false) ∧
    OP_ADD.lt OP_FMUL = true ∧ OP_FMUL.lt OP_ADD = true ∧ OP_ADD.lt OP_ADD = false ∧
    OP_ADD ∈ opCodes ∧ OP_FMUL ∈ opCodes := by
  refine ⟨fun a => ?_, by decide, by decide, by decide, by decide, by decide⟩
  simp [OpCode.lt]

/-- C22 (counterexample): the out-of-range ADD-ALU selector 32 does not give NOP,
the checked table access raises `std::out_of_range`. -/
theorem toOpCode_out_of_range_fails :
    OpCode.toOpCode 32 false = .error StdException.out_of_range ∧
    OpCode.toOpCode 32 false ≠ .ok OP_NOP := by
  decide

/-- C22 (amended): lookup by selector returns NOP for selector 0 on both ALUs,
for every in-range selector the entry of the 32-slot ADD table or of the 8-slot
MUL table at that index (the opcode carrying that selector, or NOP for a slot
without opcode), and for every out-of-range selector (ADD-ALU selector >= 32,
MUL-ALU selector >= 8) it raises `std::out_of_range`. -/
theorem toOpCode_spec :
    (∀ isMulALU : Bool, OpCode.toOpCode 0 isMulALU = .ok OP_NOP) ∧
    addCodes.length = 32 ∧ mulCodes.length = 8 ∧
    (∀ i : Fin 32, OpCode.toOpCode i false = .ok (addCodes.get i) ∧
      ((addCodes.get i).opAdd = i ∨ addCodes.get i = OP_NOP)) ∧
    (∀ i : Fin 8, OpCode.toOpCode i true = .ok (mulCodes.get i) ∧
      ((mulCodes.get i).opMul = i ∨ mulCodes.get i = OP_NOP)) ∧
    (∀ n : Nat, OpCode.toOpCode (32 + n) false = .error StdException.out_of_range) ∧
    (∀ n : Nat, OpCode.toOpCode (8 + n) true = .error StdException.out_of_range) := by
  refine ⟨by decide, by decide, by decide, by decide, by decide, fun n => ?_, fun n => ?_⟩
  · have h : addCodes[32 + n]? = none := List.getElem?_eq_none (by simp [addCodes])
    simp [OpCode.toOpCode, arrayAt, h]
  · have h : mulCodes[8 + n]? = none := List.getElem?_eq_none (by simp [mulCodes])
    simp [OpCode.toOpCode, arrayAt, h]

/-! ## The evaluator on values: the recursive equation -/

theorem Value.depth_le_depthList :
    ∀ (elements : List Value) (i : Nat) (x : Value), elements[i]? = some x →
      x.depth ≤ Value.depthList elements
  | [], i, x, h => by simp at h
  | v :: vs, 0, x, h => by
    simp at h
    subst h
    simp [Value.depthList]
  | v :: vs, i + 1, x, h => by
    simp at h
    have := Value.depth_le_depthList vs i x h
    simp only [Value.depthList]
    exact le_trans this (le_max_right _ _)

theorem arrayAt_ok {α : Type} (elements : List α) (i : Nat) (x : α) :
    arrayAt elements i = .ok x ↔ elements[i]? = some x := by
  unfold arrayAt
  cases h : elements[i]? <;> simp

theorem OpCode.applyLanes_congr
    (f g : Value → Option Value → Except StdException PrecalculatedValue)
    (numOperands : Nat) (firstOperand : Value) (firstContainer : Option (List Value))
    (secondVal : Option Value) (secondContainer : Option (List Value))
    (h : ∀ i x y, OpCode.firstLane firstOperand firstContainer i = .ok x →
      OpCode.secondLane numOperands secondVal secondContainer i = .ok y → f x y = g x y) :
    ∀ (todo i : Nat) (res : List Value) (flags : VectorFlags),
      OpCode.applyLanes f numOperands firstOperand firstContainer secondVal secondContainer
        todo i res flags =
      OpCode.applyLanes g numOperands firstOperand firstContainer secondVal secondContainer
        todo i res flags := by
  intro todo
  induction todo with
  | zero => intro i res flags; rfl
  | succ todo ih =>
    intro i res flags
    simp only [OpCode.applyLanes]
    cases h1 : OpCode.firstLane firstOperand firstContainer i with
    | error e => rfl
    | ok first =>
      cases h2 : OpCode.secondLane numOperands secondVal secondContainer i with
      | error e => rfl
      | ok second =>
        simp only [h i first second h1 h2]
        cases g first second with
        | error e => rfl
        | ok tmp =>
          cases h3 : tmp.1 with
          | none => simp only [h3]
          | some v => simp only [h3]; exact ih _ _ _

theorem OpCode.firstLane_depth (a : Value) (i : Nat) (x : Value)
    (h : OpCode.firstLane a a.checkContainer i = .ok x) :
    (a.checkContainer = none ∧ x = a) ∨ x.depth < a.depth := by
  cases a with
  | container elements t =>
    right
    simp only [OpCode.firstLane, Value.checkContainer, arrayAt_ok] at h
    have := Value.depth_le_depthList elements i x h
    simp only [Value.depth]
    omega
  | literal _ _ => left; simp only [OpCode.firstLane, Value.checkContainer] at h; cases h; exact ⟨rfl, rfl⟩
  | immediate _ _ => left; simp only [OpCode.firstLane, Value.checkContainer] at h; cases h; exact ⟨rfl, rfl⟩
  | register _ _ _ => left; simp only [OpCode.firstLane, Value.checkContainer] at h; cases h; exact ⟨rfl, rfl⟩
  | localRef _ _ => left; simp only [OpCode.firstLane, Value.checkContainer] at h; cases h; exact ⟨rfl, rfl⟩
  | undefined _ => left; simp only [OpCode.firstLane, Value.checkContainer] at h; cases h; exact ⟨rfl, rfl⟩

theorem OpCode.secondVal_cases (b : Option Value) :
    OpCode.secondVal b = none ∨ OpCode.secondVal b = b := by
  unfold OpCode.secondVal
  cases b with
  | none => left; rfl
  | some s => dsimp only; split; right; rfl; left; rfl

theorem OpCode.secondLane_depth (n : Nat) (sv : Option Value) (i : Nat) (y : Option Value)
    (h : OpCode.secondLane n sv (sv.bind Value.checkContainer) i = .ok y) :
    (y = none) ∨ (sv.bind Value.checkContainer = none ∧ y = sv) ∨
      (n ≠ 1 ∧ Value.depthOpt y < Value.depthOpt sv) := by
  unfold OpCode.secondLane at h
  by_cases hn : n = 1
  · simp only [hn, if_true] at h
    cases h
    left; rfl
  · simp only [hn, if_false] at h
    cases sv with
    | none =>
      simp at h
    | some s =>
      cases s with
      | container elements t =>
        right; right
        simp only [Option.bind, Value.checkContainer] at h
        cases h2 : arrayAt elements i with
        | error e => rw [h2] at h; cases h
        | ok second =>
          rw [h2] at h
          cases h
          have := Value.depth_le_depthList elements i second ((arrayAt_ok _ _ _).1 h2)
          refine ⟨hn, ?_⟩
          simp only [Value.depthOpt, Value.depth]
          omega
      | literal _ _ => right; left; simp only [Option.bind, Value.checkContainer] at h; cases h; exact ⟨rfl, rfl⟩
      | immediate _ _ => right; left; simp only [Option.bind, Value.checkContainer] at h; cases h; exact ⟨rfl, rfl⟩
      | register _ _ _ => right; left; simp only [Option.bind, Value.checkContainer] at h; cases h; exact ⟨rfl, rfl⟩
      | localRef _ _ => right; left; simp only [Option.bind, Value.checkContainer] at h; cases h; exact ⟨rfl, rfl⟩
      | undefined _ => right; left; simp only [Option.bind, Value.checkContainer] at h; cases h; exact ⟨rfl, rfl⟩

theorem OpCode.calcPerComponent_cases (code : OpCode) (fc sc : Option (List Value))
    (h : OpCode.calcPerComponent code fc sc = true) :
    fc ≠ none ∨ (code.numOperands ≠ 1 ∧ sc ≠ none) := by
  unfold OpCode.calcPerComponent at h
  cases fc with
  | some _ => left; simp
  | none =>
    right
    cases sc with
    | none => simp at h
    | some _ =>
      simp at h
      refine ⟨by omega, by simp⟩

theorem OpCode.applyStep_congr (fp : FloatArith)
    (f g : Value → Option Value → Except StdException PrecalculatedValue)
    (code : OpCode) (a : Value) (b : Option Value)
    (h : ∀ x y, x.depth + Value.depthOpt y < a.depth + Value.depthOpt b → f x y = g x y) :
    OpCode.applyStep fp f code a b = OpCode.applyStep fp g code a b := by
  by_cases hc : OpCode.calcPerComponent code a.checkContainer
      ((OpCode.secondVal b).bind Value.checkContainer) = true
  · have key : OpCode.applyLanes f code.numOperands a a.checkContainer (OpCode.secondVal b)
        ((OpCode.secondVal b).bind Value.checkContainer)
        (OpCode.numElements a.checkContainer (OpCode.secondVal b)
          ((OpCode.secondVal b).bind Value.checkContainer)) 0 [] VectorFlags.empty =
      OpCode.applyLanes g code.numOperands a a.checkContainer (OpCode.secondVal b)
        ((OpCode.secondVal b).bind Value.checkContainer)
        (OpCode.numElements a.checkContainer (OpCode.secondVal b)
          ((OpCode.secondVal b).bind Value.checkContainer)) 0 [] VectorFlags.empty := by
      apply OpCode.applyLanes_congr
      intro i x y hx hy
      apply h
      have hsv : Value.depthOpt (OpCode.secondVal b) ≤ Value.depthOpt b := by
        rcases OpCode.secondVal_cases b with h0 | h0 <;> rw [h0]
        simp [Value.depthOpt]
      have h1 := OpCode.firstLane_depth a i x hx
      have h2 := OpCode.secondLane_depth _ _ i y hy
      have h3 := OpCode.calcPerComponent_cases _ _ _ hc
      rcases h1 with ⟨h1a, h1b⟩ | h1
      · rcases h3 with h3 | ⟨h3a, h3b⟩
        · exact absurd h1a h3
        · rcases h2 with h2 | ⟨h2a, _⟩ | ⟨_, h2⟩
          · subst h2
            subst h1b
            cases hs : OpCode.secondVal b with
            | none => rw [hs] at h3b; simp at h3b
            | some s =>
              rw [hs] at h3b hsv
              cases s <;> simp [Value.checkContainer] at h3b
              simp only [Value.depthOpt, Value.depth] at hsv ⊢
              omega
          · exact absurd h2a h3b
          · subst h1b; omega
      · rcases h2 with h2 | ⟨_, h2⟩ | ⟨_, h2⟩
        · subst h2; simp only [Value.depthOpt]; omega
        · subst h2; omega
        · omega
    unfold OpCode.applyStep
    simp only [key]
  · unfold OpCode.applyStep
    simp only [hc]
    rfl

theorem OpCode.applyFuel_succ (fp : FloatArith) (code : OpCode) :
    ∀ (n : Nat) (a : Value) (b : Option Value), a.depth + Value.depthOpt b < n →
      OpCode.applyFuel fp code (n + 1) a b = OpCode.applyFuel fp code n a b
  | 0, _, _, h => by omega
  | n + 1, a, b, h => by
    show OpCode.applyStep fp (OpCode.applyFuel fp code (n + 1)) code a b =
      OpCode.applyStep fp (OpCode.applyFuel fp code n) code a b
    apply OpCode.applyStep_congr
    intro x y hxy
    exact OpCode.applyFuel_succ fp code n x y (by omega)

theorem OpCode.applyFuel_stable (fp : FloatArith) (code : OpCode) (a : Value)
    (b : Option Value) (k : Nat) :
    OpCode.applyFuel fp code (a.depth + Value.depthOpt b + 1 + k) a b =
      OpCode.apply fp code a b := by
  induction k with
  | zero => rfl
  | succ k ih =>
    rw [← ih]
    exact OpCode.applyFuel_succ fp code (a.depth + Value.depthOpt b + 1 + k) a b (by omega)

/-- The evaluator satisfies the recursive equation of the source: it is its
body, with the recursive calls being calls of the evaluator itself. -/
theorem OpCode.apply_unfold (fp : FloatArith) (code : OpCode) (a : Value) (b : Option Value) :
    OpCode.apply fp code a b = OpCode.applyStep fp (OpCode.apply fp code) code a b := by
  show OpCode.applyStep fp (OpCode.applyFuel fp code (a.depth + Value.depthOpt b)) code a b = _
  apply OpCode.applyStep_congr
  intro x y hxy
  obtain ⟨k, hk⟩ : ∃ k, a.depth + Value.depthOpt b = x.depth + Value.depthOpt y + 1 + k :=
    ⟨a.depth + Value.depthOpt b - (x.depth + Value.depthOpt y + 1), by omega⟩
  rw [hk]
  exact OpCode.applyFuel_stable fp code x y k

/-- C23 (code defect): a unary opcode whose operand is UNDEFINED and a binary
opcode whose second operand is UNDEFINED evaluate to an undefined value with no
flags set (the typed placeholder when `acceptsFloat == returnsFloat` and, for a
binary opcode, both operand types are equal, the global sentinel otherwise).
But a binary opcode whose first operand is UNDEFINED and whose second operand
is a literal returns `NO_VALUE`: the check "first operand has no literal and is
no container" returns before the later test `firstOperand.isUndefined()`. -/
theorem apply_undefined_operand (fp : FloatArith) :
    (∀ (code : OpCode) (t : DataType) (b : Option Value), code.numOperands = 1 →
      OpCode.apply fp code (Value.undefined t) b =
        .ok (some (if code.acceptsFloat = code.returnsFloat then Value.undefined t
          else UNDEFINED_VALUE), VectorFlags.empty)) ∧
    (∀ (code : OpCode) (a : Value) (t : DataType), code.numOperands = 2 →
      OpCode.apply fp code a (some (Value.undefined t)) =
        .ok (some (if code.acceptsFloat = code.returnsFloat ∧ a.type = t then
          Value.undefined a.type else UNDEFINED_VALUE), VectorFlags.empty)) ∧
    (∀ (code : OpCode) (t : DataType) (lit : Literal) (t2 : DataType),
      code.numOperands = 2 →
      OpCode.apply fp code (Value.undefined t) (some (Value.literal lit t2)) =
        .ok (none, VectorFlags.empty)) ∧
    OpCode.apply fp OP_ADD (Value.undefined TYPE_INT32)
        (some (Value.literal (Literal.ofNat 1) TYPE_INT32)) = .ok (none, VectorFlags.empty) := by
  refine ⟨?_, ?_, ?_, ?_⟩
  · intro code t b h
    rw [OpCode.apply_unfold]
    simp [OpCode.applyStep, h, Value.isUndefined, Value.type]
  · intro code a t h
    rw [OpCode.apply_unfold]
    simp [OpCode.applyStep, h, Value.isUndefined, Value.type]
  · intro code t lit t2 h
    rw [OpCode.apply_unfold]
    simp [OpCode.applyStep, h, Value.isUndefined, Value.getLiteralValue, Value.checkContainer]
  · rfl

theorem OpCode.applyLanes_spec
    (self : Value → Option Value → Except StdException PrecalculatedValue)
    (numOperands : Nat) (firstOperand : Value) (firstContainer : Option (List Value))
    (secondVal : Option Value) (secondContainer : Option (List Value)) :
    ∀ (rs : List PrecalculatedValue) (i : Nat) (res : List Value)
      (done : List ElementFlags),
      done.length = i → i + rs.length ≤ 16 →
      (∀ j (hj : j < rs.length), ∃ x y,
        OpCode.firstLane firstOperand firstContainer (i + j) = .ok x ∧
        OpCode.secondLane numOperands secondVal secondContainer (i + j) = .ok y ∧
        self x y = .ok (rs.get ⟨j, hj⟩)) →
      OpCode.applyLanes self numOperands firstOperand firstContainer secondVal
          secondContainer rs.length i res (done ++ List.replicate (16 - i) ({} : ElementFlags)) =
        .ok (if rs.all (fun r => r.1.isSome) then
          some (res ++ rs.filterMap (fun r => r.1),
            (done ++ rs.map (fun r => r.2.lane 0)) ++
              List.replicate (16 - (i + rs.length)) ({} : ElementFlags))
          else none) := by
  intro rs
  induction rs with
  | nil =>
    intro i res done hd hi _
    simp [OpCode.applyLanes]
  | cons r rs ih =>
    intro i res done hd hi h
    obtain ⟨x, y, hx, hy, hr⟩ := h 0 (by simp)
    simp only [Nat.add_zero] at hx hy
    simp only [List.length_cons, OpCode.applyLanes, hx, hy, hr]
    simp only [List.get_eq_getElem, List.getElem_cons_zero]
    cases hv : r.1 with
    | none => simp [hv]
    | some v =>
      simp only [List.length_cons] at hi
      have hset : (done ++ List.replicate (16 - i) ({} : ElementFlags)).set i (r.2.lane 0) =
          (done ++ [r.2.lane 0]) ++ List.replicate (16 - (i + 1)) ({} : ElementFlags) := by
        have h16 : 16 - i = (16 - (i + 1)) + 1 := by omega
        rw [h16, List.replicate_succ, List.set_append_right _ _ (by omega)]
        simp [hd]
      rw [hset]
      have := ih (i + 1) (res ++ [v]) (done ++ [r.2.lane 0]) (by simp [hd]) (by omega)
        (fun j hj => by
          obtain ⟨x, y, hx, hy, hr⟩ := h (j + 1) (by simp; omega)
          refine ⟨x, y, ?_, ?_, ?_⟩
          · rw [← hx]; congr 1; omega
          · rw [← hy]; congr 1; omega
          · rw [hr]; simp)
      dsimp only
      rw [this]
      have e1 : i + 1 + rs.length = i + (rs.length + 1) := by omega
      have e2 : r.1.isSome = true := by rw [hv]; rfl
      simp [hv, e1]
      rw [e2, Bool.true_and]

theorem OpCode.apply_first_not_constant (fp : FloatArith) (code : OpCode) (a y : Value)
    (hn : code.numOperands = 2) (h1 : a.getLiteralValue = none) (h2 : a.checkContainer = none)
    (hy : y.isUndefined = false) :
    OpCode.apply fp code a (some y) = .ok (none, VectorFlags.empty) := by
  rw [OpCode.apply_unfold]
  simp [OpCode.applyStep, hn, h1, h2, hy]

theorem OpCode.apply_second_not_constant (fp : FloatArith) (code : OpCode) (x s : Value)
    (hn : code.numOperands = 2) (h1 : s.getLiteralValue = none) (h2 : s.checkContainer = none)
    (hs : s.isUndefined = false) :
    OpCode.apply fp code x (some s) = .ok (none, VectorFlags.empty) := by
  rw [OpCode.apply_unfold]
  simp [OpCode.applyStep, OpCode.secondVal, hn, h1, h2, hs]

theorem fanoutSpec_none (rs : List PrecalculatedValue) (rt : DataType) (r : PrecalculatedValue)
    (hr : r ∈ rs) (h : r.1 = none) : fanoutSpec rs rt = (none, VectorFlags.empty) := by
  unfold fanoutSpec
  rw [if_neg]
  intro hall
  rw [List.all_eq_true] at hall
  have := hall r hr
  rw [h] at this
  cases this

theorem isAllSame_of_undefined :
    ∀ (elements : List Value), (∀ x ∈ elements, x.isUndefined = true) →
      isAllSame elements = true := by
  intro elements h
  cases elements with
  | nil => rfl
  | cons first rest =>
    simp only [isAllSame, List.all_eq_true]
    intro x hx
    have h1 := h first (by simp)
    have h2 := h x (by simp [hx])
    cases first <;> simp [Value.isUndefined] at h1
    cases x <;> simp [Value.isUndefined] at h2
    rfl

theorem Value.isNonUniform_lane (s : Value) (h : s.isNonUniform = true) :
    ∃ elements t, s = Value.container elements t ∧ 1 < elements.length ∧
      isAllSame elements = false ∧
      ∃ j, ∃ hj : j < elements.length, (elements.get ⟨j, hj⟩).isUndefined = false := by
  cases s with
  | container elements t =>
    simp only [Value.isNonUniform, Value.checkContainer, Bool.and_eq_true, decide_eq_true_eq,
      Bool.not_eq_true'] at h
    refine ⟨elements, t, rfl, h.1, h.2, ?_⟩
    by_contra hcon
    have : ∀ x ∈ elements, x.isUndefined = true := by
      intro x hx
      obtain ⟨n, hn⟩ := List.mem_iff_get.1 hx
      by_contra hx2
      exact hcon ⟨n.1, n.2, by rw [hn]; simpa using hx2⟩
    rw [isAllSame_of_undefined elements this] at h
    exact absurd h.2 (by simp)
  | literal _ _ => simp [Value.isNonUniform, Value.checkContainer] at h
  | immediate _ _ => simp [Value.isNonUniform, Value.checkContainer] at h
  | register _ _ _ => simp [Value.isNonUniform, Value.checkContainer] at h
  | localRef _ _ => simp [Value.isNonUniform, Value.checkContainer] at h
  | undefined _ => simp [Value.isNonUniform, Value.checkContainer] at h

theorem OpCode.firstLane_lane (a : Value) (j : Nat)
    (h : a.checkContainer = none ∨ j < a.laneCount) :
    OpCode.firstLane a a.checkContainer j = .ok (a.lane j) := by
  cases a with
  | container elements t =>
    simp only [Value.laneCount, Value.checkContainer] at h
    have hj : j < elements.length := by rcases h with h | h; cases h; exact h
    simp [OpCode.firstLane, Value.checkContainer, Value.lane, arrayAt, hj, List.getD]
  | literal _ _ => rfl
  | immediate _ _ => rfl
  | register _ _ _ => rfl
  | localRef _ _ => rfl
  | undefined _ => rfl

theorem OpCode.secondLane_lane (n : Nat) (s : Value) (j : Nat) (hn : n ≠ 1)
    (h : s.checkContainer = none ∨ j < s.laneCount) :
    OpCode.secondLane n (some s) s.checkContainer j = .ok (some (s.lane j)) := by
  cases s with
  | container elements t =>
    simp only [Value.laneCount, Value.checkContainer] at h
    have hj : j < elements.length := by rcases h with h | h; cases h; exact h
    simp [OpCode.secondLane, hn, Value.checkContainer, Value.lane, arrayAt, hj, List.getD]
  | literal _ _ => simp [OpCode.secondLane, hn, Value.checkContainer, Value.lane]
  | immediate _ _ => simp [OpCode.secondLane, hn, Value.checkContainer, Value.lane]
  | register _ _ _ => simp [OpCode.secondLane, hn, Value.checkContainer, Value.lane]
  | localRef _ _ => simp [OpCode.secondLane, hn, Value.checkContainer, Value.lane]
  | undefined _ => simp [OpCode.secondLane, hn, Value.checkContainer, Value.lane]

theorem OpCode.applyLanes_fanout
    (self : Value → Option Value → Except StdException PrecalculatedValue)
    (numOperands : Nat) (firstOperand : Value) (firstContainer : Option (List Value))
    (secondVal : Option Value) (secondContainer : Option (List Value))
    (rs : List PrecalculatedValue) (rt : DataType) (n : Nat) (hn : rs.length = n)
    (h16 : rs.length ≤ 16)
    (h : ∀ j (hj : j < rs.length), ∃ x y,
        OpCode.firstLane firstOperand firstContainer j = .ok x ∧
        OpCode.secondLane numOperands secondVal secondContainer j = .ok y ∧
        self x y = .ok (rs.get ⟨j, hj⟩)) :
    (match OpCode.applyLanes self numOperands firstOperand firstContainer secondVal
        secondContainer n 0 [] VectorFlags.empty with
      | .error e => .error e
      | .ok none => .ok (none, VectorFlags.empty)
      | .ok (some (res, flags)) => .ok (some (Value.container res rt), flags)) =
      (.ok (fanoutSpec rs rt) : Except StdException PrecalculatedValue) := by
  have hl := OpCode.applyLanes_spec self numOperands firstOperand firstContainer secondVal
    secondContainer rs 0 [] [] rfl (by omega) (by simpa using h)
  have hl2 : OpCode.applyLanes self numOperands firstOperand firstContainer secondVal
      secondContainer n 0 [] VectorFlags.empty = _ := hn ▸ hl
  rw [hl2]
  unfold fanoutSpec
  subst hn
  by_cases hall : (rs.all fun r => r.1.isSome) = true
  · simp only [hall, if_true]
    simp
  · simp only [hall]
    simp

theorem OpCode.apply_fanout_unary (fp : FloatArith) (code : OpCode) (a : Value)
    (rs : List PrecalculatedValue)
    (h1 : code.numOperands = 1) (hnon : a.isNonUniform = true)
    (hlen : rs.length = a.laneCount) (h16 : rs.length ≤ 16)
    (hlanes : ∀ i : Fin rs.length, OpCode.apply fp code (a.lane i) none = .ok (rs.get i)) :
    OpCode.apply fp code a none = .ok (fanoutSpec rs a.type) := by
  obtain ⟨es, t, rfl, hgt, hsame, _⟩ := Value.isNonUniform_lane a hnon
  simp only [Value.laneCount, Value.checkContainer] at hlen
  have hl := OpCode.applyLanes_fanout (OpCode.apply fp code) 1 (Value.container es t) (some es)
    none none rs t es.length hlen h16 (by
      intro j hj
      refine ⟨(Value.container es t).lane j, none, ?_, rfl, hlanes ⟨j, hj⟩⟩
      have := OpCode.firstLane_lane (Value.container es t) j
        (Or.inr (by simp only [Value.laneCount, Value.checkContainer]; omega))
      simpa using this)
  rw [OpCode.apply_unfold]
  simp only [OpCode.applyStep, h1, OpCode.secondVal, OpCode.calcPerComponent, OpCode.numElements,
    OpCode.resultType, Value.checkContainer, Value.isUndefined, Value.getLiteralValue,
    Value.checkImmediate, Option.bind, Option.any, hsame, hgt]
  simpa using hl

theorem Value.lane_of_scalar (a : Value) (j : Nat) (h : a.checkContainer = none) :
    a.lane j = a := by
  simp [Value.lane, h]

theorem Value.laneCount_of_scalar (a : Value) (h : a.checkContainer = none) :
    a.laneCount = 1 := by
  simp [Value.laneCount, h]

theorem Value.constant_cases (a : Value) :
    (a.getLiteralValue = none ∧ a.checkContainer = none) ∨
    (∃ lit t, a = Value.literal lit t) ∨ (∃ es t, a = Value.container es t) := by
  cases a with
  | literal lit t => right; left; exact ⟨lit, t, rfl⟩
  | container es t => right; right; exact ⟨es, t, rfl⟩
  | immediate _ _ => left; exact ⟨rfl, rfl⟩
  | register _ _ _ => left; exact ⟨rfl, rfl⟩
  | localRef _ _ => left; exact ⟨rfl, rfl⟩
  | undefined _ => left; exact ⟨rfl, rfl⟩

theorem OpCode.apply_fanout_binary (fp : FloatArith) (code : OpCode) (a s : Value)
    (rs : List PrecalculatedValue)
    (h2 : code.numOperands = 2) (hund : s.isUndefined = false)
    (hnon : a.isNonUniform = true ∨ s.isNonUniform = true)
    (hsize : a.checkContainer = none ∨ s.checkContainer = none ∨ a.laneCount = s.laneCount)
    (hlen : rs.length = Max.max a.laneCount s.laneCount) (h16 : rs.length ≤ 16)
    (hlanes : ∀ i : Fin rs.length,
      OpCode.apply fp code (a.lane i) (some (s.lane i)) = .ok (rs.get i)) :
    ∃ rt, OpCode.apply fp code a (some s) = .ok (fanoutSpec rs rt) := by
  refine ⟨OpCode.resultType code a (some s), ?_⟩
  rcases Value.constant_cases a with ⟨ha1, ha2⟩ | hac
  · -- the first operand is not constant: the second one is the non-uniform container
    have hs : s.isNonUniform = true := by
      rcases hnon with h | h
      · simp [Value.isNonUniform, ha2] at h
      · exact h
    obtain ⟨es, t, rfl, hgt, hsame, j, hj, hju⟩ := Value.isNonUniform_lane s hs
    have hlen2 : rs.length = es.length := by
      rw [hlen, Value.laneCount_of_scalar a ha2]
      simp only [Value.laneCount, Value.checkContainer]
      omega
    have hj2 : j < rs.length := by omega
    have hr := hlanes ⟨j, hj2⟩
    rw [Value.lane_of_scalar a j ha2] at hr
    have hlane : (Value.container es t).lane j = es.get ⟨j, hj⟩ := by
      simp [Value.lane, Value.checkContainer, List.getD, hj]
    simp only [hlane] at hr
    rw [OpCode.apply_first_not_constant fp code a _ h2 ha1 ha2 hju] at hr
    have hr1 : (rs.get ⟨j, hj2⟩).1 = none := by
      have := congrArg (fun r => r.toOption.map (fun p => p.1)) hr
      simpa [Except.toOption] using this.symm
    rw [fanoutSpec_none rs _ _ (List.get_mem rs j hj2) hr1]
    exact OpCode.apply_first_not_constant fp code a _ h2 ha1 ha2 hund
  rcases Value.constant_cases s with ⟨hs1, hs2⟩ | hsc
  · -- the second operand is not constant: no lane has a result
    have ha : a.isNonUniform = true := by
      rcases hnon with h | h
      · exact h
      · simp [Value.isNonUniform, hs2] at h
    obtain ⟨es, t, rfl, hgt, hsame, _⟩ := Value.isNonUniform_lane a ha
    have h0 : 0 < rs.length := by
      rw [hlen]
      simp only [Value.laneCount, Value.checkContainer]
      omega
    have hr := hlanes ⟨0, h0⟩
    rw [Value.lane_of_scalar s 0 hs2,
      OpCode.apply_second_not_constant fp code _ s h2 hs1 hs2 hund] at hr
    have hr1 : (rs.get ⟨0, h0⟩).1 = none := by
      have := congrArg (fun r => r.toOption.map (fun p => p.1)) hr
      simpa [Except.toOption] using this.symm
    rw [fanoutSpec_none rs _ _ (List.get_mem rs 0 h0) hr1]
    exact OpCode.apply_second_not_constant fp code _ s h2 hs1 hs2 hund
  · -- both operands are constant: the loop over the lanes
    have hmaxa : a.checkContainer = none ∨ rs.length = a.laneCount := by
      rcases hac with ⟨la, ta, rfl⟩ | ⟨ea, ta, rfl⟩
      · left; rfl
      · right
        rcases hsc with ⟨ls, ts, rfl⟩ | ⟨es, ts, rfl⟩
        · have ha : (Value.container ea ta).isNonUniform = true := by
            rcases hnon with h | h
            · exact h
            · simp [Value.isNonUniform, Value.checkContainer] at h
          obtain ⟨_, _, he, hgt, _, _⟩ := Value.isNonUniform_lane _ ha
          cases he
          rw [hlen]
          simp only [Value.laneCount, Value.checkContainer]
          omega
        · rcases hsize with h | h | h
          · cases h
          · cases h
          · rw [hlen, h]; simp
    have hmaxs : s.checkContainer = none ∨ rs.length = s.laneCount := by
      rcases hsc with ⟨ls, ts, rfl⟩ | ⟨es, ts, rfl⟩
      · left; rfl
      · right
        rcases hac with ⟨la, ta, rfl⟩ | ⟨ea, ta, rfl⟩
        · have hs : (Value.container es ts).isNonUniform = true := by
            rcases hnon with h | h
            · simp [Value.isNonUniform, Value.checkContainer] at h
            · exact h
          obtain ⟨_, _, he, hgt, _, _⟩ := Value.isNonUniform_lane _ hs
          cases he
          rw [hlen]
          simp only [Value.laneCount, Value.checkContainer]
          omega
        · rcases hsize with h | h | h
          · cases h
          · cases h
          · rw [hlen, h]; simp
    have hl := OpCode.applyLanes_fanout (OpCode.apply fp code) 2 a a.checkContainer (some s)
      s.checkContainer rs (OpCode.resultType code a (some s)) (Max.max a.laneCount s.laneCount)
      hlen h16 (by
        intro j hj
        refine ⟨a.lane j, some (s.lane j), ?_, ?_, hlanes ⟨j, hj⟩⟩
        · exact OpCode.firstLane_lane a j (hmaxa.imp id (fun h => by omega))
        · exact OpCode.secondLane_lane 2 s j (by decide) (hmaxs.imp id (fun h => by omega)))
    rw [OpCode.apply_unfold]
    rcases hac with ⟨la, ta, rfl⟩ | ⟨ea, ta, rfl⟩ <;>
      rcases hsc with ⟨ls, ts, rfl⟩ | ⟨es, ts, rfl⟩
    · rcases hnon with h | h <;> simp [Value.isNonUniform, Value.checkContainer] at h
    · have hs : (Value.container es ts).isNonUniform = true := by
        rcases hnon with h | h
        · simp [Value.isNonUniform, Value.checkContainer] at h
        · exact h
      have hs2 := hs
      simp only [Value.isNonUniform, Value.checkContainer, Bool.and_eq_true, decide_eq_true_eq,
        Bool.not_eq_true'] at hs2
      simp only [Value.isNonUniform, Value.checkContainer] at hs
      simp only [OpCode.applyStep, h2, OpCode.secondVal, OpCode.calcPerComponent,
        OpCode.numElements, Value.checkContainer, Value.isUndefined, Value.getLiteralValue,
        Value.checkImmediate, Option.bind, Option.any, hs]
      simpa [Value.laneCount, Value.checkContainer, Value.checkImmediate, hs2] using hl
    · have ha : (Value.container ea ta).isNonUniform = true := by
        rcases hnon with h | h
        · exact h
        · simp [Value.isNonUniform, Value.checkContainer] at h
      simp only [Value.isNonUniform, Value.checkContainer] at ha
      simp only [OpCode.applyStep, h2, OpCode.secondVal, OpCode.calcPerComponent,
        OpCode.numElements, Value.checkContainer, Value.isUndefined, Value.getLiteralValue,
        Value.checkImmediate, Option.bind, Option.any, ha]
      simpa [Value.laneCount, Value.checkContainer] using hl
    · have hc : ((decide (ea.length > 1) && !isAllSame ea) ||
          (decide (es.length > 1) && !isAllSame es)) = true := by
        rcases hnon with h | h
        · simp only [Value.isNonUniform, Value.checkContainer] at h
          rw [h]; rfl
        · simp only [Value.isNonUniform, Value.checkContainer] at h
          rw [h]; simp
      simp only [OpCode.applyStep, h2, OpCode.secondVal, OpCode.calcPerComponent,
        OpCode.numElements, Value.checkContainer, Value.isUndefined, Value.getLiteralValue,
        Value.checkImmediate, Option.bind, Option.any]
      simp only [show decide (2 > 1) = true from rfl, Bool.true_and, hc]
      have hc2 : 1 < ea.length ∧ isAllSame ea = false ∨ 1 < es.length ∧ isAllSame es = false := by
        simpa using hc
      simpa [Value.laneCount, Value.checkContainer, Value.checkImmediate, hc2] using hl

/-- C24 (counterexample): with the non-uniform container `[1, 2]` as first
operand of ADD, (i) an UNDEFINED second operand gives a single undefined value,
not a container, although both lane evaluations have a value, and (ii) a second
container with three lanes makes the checked access `at(2)` to the first one
raise `std::out_of_range` instead of giving three lanes. -/
theorem fanout_not_for_all_operands :
    (Value.container [Value.literal (Literal.ofNat 1) TYPE_INT32,
        Value.literal (Literal.ofNat 2) TYPE_INT32] (TYPE_INT32.toVectorType 2)).isNonUniform
      = true ∧
    OpCode.apply FloatArith.inert OP_ADD (Value.literal (Literal.ofNat 1) TYPE_INT32)
        (some (Value.undefined TYPE_INT32)) =
      .ok (some (Value.undefined TYPE_INT32), VectorFlags.empty) ∧
    OpCode.apply FloatArith.inert OP_ADD (Value.literal (Literal.ofNat 2) TYPE_INT32)
        (some (Value.undefined TYPE_INT32)) =
      .ok (some (Value.undefined TYPE_INT32), VectorFlags.empty) ∧
    OpCode.apply FloatArith.inert OP_ADD
        (Value.container [Value.literal (Literal.ofNat 1) TYPE_INT32,
          Value.literal (Literal.ofNat 2) TYPE_INT32] (TYPE_INT32.toVectorType 2))
        (some (Value.undefined TYPE_INT32)) = .ok (some UNDEFINED_VALUE, VectorFlags.empty) ∧
    OpCode.apply FloatArith.inert OP_ADD
        (Value.container [Value.literal (Literal.ofNat 1) TYPE_INT32,
          Value.literal (Literal.ofNat 2) TYPE_INT32] (TYPE_INT32.toVectorType 2))
        (some (Value.container [Value.literal (Literal.ofNat 1) TYPE_INT32,
          Value.literal (Literal.ofNat 2) TYPE_INT32,
          Value.literal (Literal.ofNat 3) TYPE_INT32] (TYPE_INT32.toVectorType 3))) =
      .error StdException.out_of_range :=
  ⟨rfl, rfl, rfl, rfl, rfl⟩

theorem filterMap_fst_of_all :
    ∀ rs : List PrecalculatedValue, (∀ r ∈ rs, r.1.isSome = true) →
      (rs.filterMap (fun r => r.1)).map some = rs.map (fun r => r.1)
  | [], _ => rfl
  | r :: rs, h => by
    have hr := h r (by simp)
    have ih := filterMap_fst_of_all rs (fun x hx => h x (by simp [hx]))
    cases hv : r.1 with
    | none => rw [hv] at hr; cases hr
    | some v => simp [List.filterMap_cons, hv, ih]

/-- C24 (amended): let an opcode be evaluated on its operands (a unary opcode
on one operand, a binary opcode on two, the second not UNDEFINED), let one of
them be a non-uniform container, let two container operands have the same
number of lanes and let `rs` be the results of the lane evaluations, lane `i`
being the evaluation of the opcode on lane `i` of each operand (a scalar
operand is used for every lane), for as many lanes as the maximum of the
operands' lane counts, at most 16. Then the result is the fanout of the
specification: NONE when the evaluation of any lane is NONE, and otherwise a
container of that many lanes whose lane `i` is the value of lane evaluation `i`
and whose flags at index `i` are lane 0 of the flags of lane evaluation `i`. -/
theorem vector_fanout_spec (fp : FloatArith) (code : OpCode) (a : Value) (b : Option Value)
    (rs : List PrecalculatedValue)
    (harity : (code.numOperands = 1 ∧ b = none) ∨ (code.numOperands = 2 ∧ b.isSome = true))
    (hund : b.any Value.isUndefined = false)
    (hnon : a.isNonUniform = true ∨ b.any Value.isNonUniform = true)
    (hsize : a.checkContainer = none ∨ b.bind Value.checkContainer = none ∨
      some a.laneCount = b.map Value.laneCount)
    (hlen : rs.length = Max.max a.laneCount ((b.map Value.laneCount).getD 0))
    (h16 : rs.length ≤ 16)
    (hlanes : ∀ i : Fin rs.length,
      OpCode.apply fp code (a.lane i) (b.map (fun s => s.lane i)) = .ok (rs.get i)) :
    (∃ resultType, OpCode.apply fp code a b = .ok (fanoutSpec rs resultType)) ∧
    (∀ resultType, (∃ r ∈ rs, r.1 = none) →
      fanoutSpec rs resultType = (none, VectorFlags.empty)) ∧
    (∀ resultType, (∀ r ∈ rs, r.1.isSome = true) →
      ∃ lanes flags, fanoutSpec rs resultType = (some (Value.container lanes resultType), flags) ∧
        lanes.length = rs.length ∧
        ∀ i : Fin rs.length, lanes[i.1]? = (rs.get i).1 ∧
          flags.lane i = (rs.get i).2.lane 0) := by
  refine ⟨?_, ?_, ?_⟩
  · rcases harity with ⟨h1, rfl⟩ | ⟨h2, hb⟩
    · refine ⟨a.type, OpCode.apply_fanout_unary fp code a rs h1 ?_ ?_ h16 hlanes⟩
      · simpa using hnon
      · simpa using hlen
    · cases b with
      | none => cases hb
      | some s =>
        exact OpCode.apply_fanout_binary fp code a s rs h2 (by simpa using hund)
          (by simpa using hnon) (by simpa using hsize) (by simpa using hlen) h16 hlanes
  · rintro rt ⟨r, hr, hn⟩
    exact fanoutSpec_none rs rt r hr hn
  · intro rt hall
    have hall2 : (rs.all fun r => r.1.isSome) = true := by
      rw [List.all_eq_true]; exact hall
    have hmap := filterMap_fst_of_all rs hall
    have hlen2 : (rs.filterMap (fun r => r.1)).length = rs.length := by
      have := congrArg List.length hmap
      simpa using this
    refine ⟨rs.filterMap (fun r => r.1),
      rs.map (fun r => r.2.lane 0) ++ List.replicate (16 - rs.length) ({} : ElementFlags),
      by simp only [fanoutSpec, hall2, if_true], hlen2, fun i => ⟨?_, ?_⟩⟩
    · have h1 := congrArg (fun l => l[i.1]?) hmap
      simp only [List.getElem?_map] at h1
      rw [List.getElem?_eq_getElem i.2, List.getElem?_eq_getElem (by rw [hlen2]; exact i.2)] at h1
      rw [List.getElem?_eq_getElem (by rw [hlen2]; exact i.2)]
      simpa using h1
    · simp [VectorFlags.lane, List.getD, List.getElem?_append_left, i.2]

theorem vector_fanout_spec_witness :
    ∃ resultType, OpCode.apply FloatArith.inert OP_ADD
        (Value.container [Value.literal (Literal.ofNat 1) TYPE_INT32,
          Value.literal (Literal.ofNat 2) TYPE_INT32] (TYPE_INT32.toVectorType 2))
        (some (Value.literal (Literal.ofNat 2) TYPE_INT32)) =
      .ok (fanoutSpec
        [calcLiteral FloatArith.inert OP_ADD (Literal.ofNat 1) (Literal.ofNat 2) TYPE_INT32
            TYPE_INT32,
          calcLiteral FloatArith.inert OP_ADD (Literal.ofNat 2) (Literal.ofNat 2) TYPE_INT32
            TYPE_INT32] resultType) :=
  (vector_fanout_spec FloatArith.inert OP_ADD
    (Value.container [Value.literal (Literal.ofNat 1) TYPE_INT32,
      Value.literal (Literal.ofNat 2) TYPE_INT32] (TYPE_INT32.toVectorType 2))
    (some (Value.literal (Literal.ofNat 2) TYPE_INT32))
    [calcLiteral FloatArith.inert OP_ADD (Literal.ofNat 1) (Literal.ofNat 2) TYPE_INT32
        TYPE_INT32,
      calcLiteral FloatArith.inert OP_ADD (Literal.ofNat 2) (Literal.ofNat 2) TYPE_INT32
        TYPE_INT32]
    (Or.inr ⟨rfl, rfl⟩) rfl (Or.inl rfl) (Or.inr (Or.inl rfl)) rfl (by decide)
    (fun i => by
      match i with
      | ⟨0, _⟩ => rfl
      | ⟨1, _⟩ => rfl)).1

/-! ## Equality of values and expressions -/

mutual
theorem Value.beq_refl : ∀ v : Value, Value.beq v v = true
  | Value.literal _ _ => by simp [Value.beq]
  | Value.container es _ => by simp only [Value.beq]; exact Value.beqList_refl es
  | Value.immediate _ _ => by simp [Value.beq]
  | Value.register _ _ _ => by simp [Value.beq]
  | Value.localRef _ _ => by simp [Value.beq]
  | Value.undefined _ => by simp [Value.beq]
theorem Value.beqList_refl : ∀ l : List Value, Value.beqList l l = true
  | [] => by simp [Value.beqList]
  | v :: vs => by simp [Value.beqList, Value.beq_refl v, Value.beqList_refl vs]
end

mutual
theorem Value.beq_symm : ∀ a b : Value, Value.beq a b = true → Value.beq b a = true
  | Value.literal _ _, b, h => by cases b <;> simp_all [Value.beq]
  | Value.container es _, b, h => by
    cases b with
    | container fs _ =>
      simp only [Value.beq] at h ⊢
      exact Value.beqList_symm es fs h
    | _ => simp [Value.beq] at h
  | Value.immediate _ _, b, h => by cases b <;> simp_all [Value.beq]
  | Value.register _ _ _, b, h => by cases b <;> simp_all [Value.beq]
  | Value.localRef _ _, b, h => by cases b <;> simp_all [Value.beq]
  | Value.undefined _, b, h => by cases b <;> simp_all [Value.beq]
theorem Value.beqList_symm :
    ∀ l m : List Value, Value.beqList l m = true → Value.beqList m l = true
  | [], m, h => by cases m <;> simp_all [Value.beqList]
  | v :: vs, m, h => by
    cases m with
    | nil => simp [Value.beqList] at h
    | cons w ws =>
      simp only [Value.beqList, Bool.and_eq_true] at h ⊢
      exact ⟨Value.beq_symm v w h.1, Value.beqList_symm vs ws h.2⟩
end

mutual
theorem Value.beq_trans :
    ∀ a b c : Value, Value.beq a b = true → Value.beq b c = true → Value.beq a c = true
  | Value.literal _ _, b, c, h1, h2 => by cases b <;> cases c <;> simp_all [Value.beq]
  | Value.container es _, b, c, h1, h2 => by
    cases b with
    | container fs _ =>
      cases c with
      | container gs _ =>
        simp only [Value.beq] at h1 h2 ⊢
        exact Value.beqList_trans es fs gs h1 h2
      | _ => simp [Value.beq] at h2
    | _ => simp [Value.beq] at h1
  | Value.immediate _ _, b, c, h1, h2 => by cases b <;> cases c <;> simp_all [Value.beq]
  | Value.register _ _ _, b, c, h1, h2 => by cases b <;> cases c <;> simp_all [Value.beq]
  | Value.localRef _ _, b, c, h1, h2 => by cases b <;> cases c <;> simp_all [Value.beq]
  | Value.undefined _, b, c, h1, h2 => by cases b <;> cases c <;> simp_all [Value.beq]
theorem Value.beqList_trans :
    ∀ l m n : List Value, Value.beqList l m = true → Value.beqList m n = true →
      Value.beqList l n = true
  | [], m, n, h1, h2 => by cases m <;> cases n <;> simp_all [Value.beqList]
  | v :: vs, m, n, h1, h2 => by
    cases m with
    | nil => simp [Value.beqList] at h1
    | cons w ws =>
      cases n with
      | nil => simp [Value.beqList] at h2
      | cons x xs =>
        simp only [Value.beqList, Bool.and_eq_true] at h1 h2 ⊢
        exact ⟨Value.beq_trans v w x h1.1 h2.1, Value.beqList_trans vs ws xs h1.2 h2.2⟩
end

theorem Value.beq_comm (a b : Value) : Value.beq a b = Value.beq b a := by
  cases h : Value.beq a b
  · cases h2 : Value.beq b a
    · rfl
    · rw [Value.beq_symm b a h2] at h; cases h
  · exact (Value.beq_symm a b h).symm

theorem Value.beqOpt_refl (a : Option Value) : Value.beqOpt a a = true := by
  cases a with
  | none => rfl
  | some v => exact Value.beq_refl v

theorem Value.beqOpt_comm (a b : Option Value) : Value.beqOpt a b = Value.beqOpt b a := by
  cases a <;> cases b <;> simp [Value.beqOpt, Value.beq_comm]

theorem Value.beqOpt_trans (a b c : Option Value) (h1 : Value.beqOpt a b = true)
    (h2 : Value.beqOpt b c = true) : Value.beqOpt a c = true := by
  cases a <;> cases b <;> cases c <;> simp_all [Value.beqOpt]
  exact Value.beq_trans _ _ _ h1 h2

theorem OpCode.eq_refl (c : OpCode) : c.eq c = true := by
  simp only [OpCode.eq]
  by_cases h1 : c.opAdd > 0
  · simp [h1]
  · by_cases h2 : c.opMul > 0
    · simp [h2]
    · have : c.opAdd = 0 := by omega
      have : c.opMul = 0 := by omega
      simp [*]

theorem OpCode.eq_catalog : ∀ a ∈ opCodes, ∀ b ∈ opCodes, a.eq b = true → a = b := by
  decide

/-- C25: `Expression::operator==` is reflexive, and on expressions over catalog
opcodes symmetric and transitive; the expressions `(c, x, y, u, p, d)` and
`(c, y, x, u, p, d)` compare equal for every commutative opcode `c`, and for an
opcode that is not commutative they compare equal exactly when `x == y`. -/
theorem Expression_beq_equivalence :
    (∀ e : Expression, e.beq e = true) ∧
    (∀ e f : Expression, e.code ∈ opCodes → f.code ∈ opCodes →
      e.beq f = true → f.beq e = true) ∧
    (∀ e f g : Expression, e.code ∈ opCodes → f.code ∈ opCodes → g.code ∈ opCodes →
      e.beq f = true → f.beq g = true → e.beq g = true) ∧
    (∀ (c : OpCode) (x y : Value) (u : Unpack) (p : Pack) (d : Nat),
      c.isCommutative = true →
      Expression.beq ⟨c, x, some y, u, p, d⟩ ⟨c, y, some x, u, p, d⟩ = true) ∧
    (∀ (c : OpCode) (x y : Value) (u : Unpack) (p : Pack) (d : Nat),
      c.isCommutative = false →
      (Expression.beq ⟨c, x, some y, u, p, d⟩ ⟨c, y, some x, u, p, d⟩ = true ↔
        Value.beq x y = true)) := by
  refine ⟨?_, ?_, ?_, ?_, ?_⟩
  · intro e
    simp [Expression.beq, OpCode.eq_refl, Value.beq_refl, Value.beqOpt_refl]
  · intro e f he hf h
    simp only [Expression.beq, Bool.and_eq_true, Bool.or_eq_true, decide_eq_true_eq] at h ⊢
    obtain ⟨⟨⟨⟨hc, hargs⟩, hu⟩, hp⟩, hd⟩ := h
    have hcode : e.code = f.code := OpCode.eq_catalog _ he _ hf hc
    refine ⟨⟨⟨⟨?_, ?_⟩, hu.symm⟩, hp.symm⟩, hd.symm⟩
    · rw [hcode]; exact OpCode.eq_refl _
    · rcases hargs with ⟨h0, h1⟩ | ⟨⟨hcomm, h0⟩, h1⟩
      · left
        exact ⟨by rw [Value.beq_comm]; exact h0, by rw [Value.beqOpt_comm]; exact h1⟩
      · right
        refine ⟨⟨by rw [← hcode]; exact hcomm, ?_⟩, ?_⟩
        · rw [Value.beqOpt_comm]; exact h1
        · rw [Value.beqOpt_comm]; exact h0
  · intro e f g he hf hg h1 h2
    simp only [Expression.beq, Bool.and_eq_true, Bool.or_eq_true, decide_eq_true_eq] at h1 h2 ⊢
    obtain ⟨⟨⟨⟨hc1, ha1⟩, hu1⟩, hp1⟩, hd1⟩ := h1
    obtain ⟨⟨⟨⟨hc2, ha2⟩, hu2⟩, hp2⟩, hd2⟩ := h2
    have hcode1 : e.code = f.code := OpCode.eq_catalog _ he _ hf hc1
    have hcode2 : f.code = g.code := OpCode.eq_catalog _ hf _ hg hc2
    refine ⟨⟨⟨⟨?_, ?_⟩, hu1.trans hu2⟩, hp1.trans hp2⟩, hd1.trans hd2⟩
    · rw [hcode1, hcode2]; exact OpCode.eq_refl _
    · rcases ha1 with ⟨p0, p1⟩ | ⟨⟨pc, p0⟩, p1⟩ <;>
        rcases ha2 with ⟨q0, q1⟩ | ⟨⟨qc, q0⟩, q1⟩
      · left
        exact ⟨Value.beq_trans _ _ _ p0 q0, Value.beqOpt_trans _ _ _ p1 q1⟩
      · right
        refine ⟨⟨by rw [hcode1]; exact qc, ?_⟩, ?_⟩
        · exact Value.beqOpt_trans (some e.arg0) (some f.arg0) g.arg1 p0 q0
        · exact Value.beqOpt_trans e.arg1 f.arg1 (some g.arg0) p1 q1
      · right
        refine ⟨⟨pc, ?_⟩, ?_⟩
        · exact Value.beqOpt_trans (some e.arg0) f.arg1 g.arg1 p0 q1
        · exact Value.beqOpt_trans e.arg1 (some f.arg0) (some g.arg0) p1 q0
      · left
        refine ⟨?_, ?_⟩
        · exact Value.beqOpt_trans (some e.arg0) f.arg1 (some g.arg0) p0 q1
        · exact Value.beqOpt_trans e.arg1 (some f.arg0) g.arg1 p1 q0
  · intro c x y u p d hc
    simp [Expression.beq, OpCode.eq_refl, hc, Value.beqOpt, Value.beq_refl]
  · intro c x y u p d hc
    simp only [Expression.beq, OpCode.eq_refl, hc, Value.beqOpt, Value.beq_comm y x]
    simp

/-- C26 (counterexample): there is no expression with two arguments, and no
hash of names and values, for which swapping `arg0` and `arg1` changes the hash
value. -/
theorem hash_swap_never_differs :
    ¬ ∃ (nameHash : String → Nat) (valHash : Value → Nat) (c : OpCode) (x y : Value)
        (u : Unpack) (p : Pack) (d : Nat),
      c.isCommutative = true ∧ Value.beq x y = false ∧
      Expression.hash nameHash valHash ⟨c, x, some y, u, p, d⟩ ≠
        Expression.hash nameHash valHash ⟨c, y, some x, u, p, d⟩ := by
  rintro ⟨nameHash, valHash, c, x, y, u, p, d, _, _, h⟩
  apply h
  simp only [Expression.hash]
  rw [Nat.xor_assoc (nameHash c.name), Nat.xor_comm (valHash x),
    ← Nat.xor_assoc (nameHash c.name)]

/-- C26 (amended): the expression hash does not depend on the order of the two
arguments. For every expression with two arguments, in particular every
commutative-opcode expression with two distinct arguments, swapping `arg0` and
`arg1` (which for a commutative opcode yields an expression that compares
equal) leaves the hash value unchanged: the argument hashes are combined with
XOR. -/
theorem hash_swap_invariant (nameHash : String → Nat) (valHash : Value → Nat) (c : OpCode)
    (x y : Value) (u : Unpack) (p : Pack) (d : Nat) :
    Expression.hash nameHash valHash ⟨c, x, some y, u, p, d⟩ =
      Expression.hash nameHash valHash ⟨c, y, some x, u, p, d⟩ ∧
    (c.isCommutative = true →
      Expression.beq ⟨c, x, some y, u, p, d⟩ ⟨c, y, some x, u, p, d⟩ = true) := by
  constructor
  · simp only [Expression.hash]
    rw [Nat.xor_assoc (nameHash c.name), Nat.xor_comm (valHash x),
      ← Nat.xor_assoc (nameHash c.name)]
  · intro hc
    simp [Expression.beq, OpCode.eq_refl, hc, Value.beqOpt, Value.beq_refl]

/-! ## Composition of expressions -/

/-- C27 (code defect): for an expression `NOT(t)` without pack/unpack effect
whose local `t` is bound to `NOT(a)` without pack/unpack effect, `combineWith`
returns `V8MIN(a, NO_VALUE)` with NOP modifiers and the merged decorations: the
second argument is left empty, so the result is not the canonical move
`V8MIN(a, a)` and `isMoveExpression()` is false for it. -/
theorem combineWith_double_negation (fp : FloatArith) (inputs : Nat → Option Expression)
    (t : Nat) (ty : DataType) (a : Value) (u u0 : Unpack) (p p0 : Pack) (d d0 : Nat)
    (hb : inputs t = some ⟨OP_NOT, a, none, u0, p0, d0⟩)
    (hu : u.hasEffect = false) (hp : p.hasEffect = false)
    (hu0 : u0.hasEffect = false) (hp0 : p0.hasEffect = false) :
    Expression.combineWith fp ⟨OP_NOT, Value.localRef t ty, none, u, p, d⟩ inputs =
      .ok ⟨OP_V8MIN, a, none, UNPACK_NOP, PACK_NOP, add_flag d d0⟩ ∧
    Expression.isMoveExpression ⟨OP_V8MIN, a, none, UNPACK_NOP, PACK_NOP, add_flag d d0⟩ =
      false ∧
    Expression.isMoveExpression ⟨OP_V8MIN, a, some a, UNPACK_NOP, PACK_NOP, add_flag d d0⟩ =
      true := by
  refine ⟨?_, ?_, ?_⟩
  · simp only [Expression.combineWith, Value.checkLocal, Option.bind, hb, hu, hp, hu0, hp0,
      Option.isNone, Option.any, Bool.false_and, Bool.or_self, Expression.combineUnary]
    rfl
  · simp [Expression.isMoveExpression, Value.beqOpt]
  · simp only [Expression.isMoveExpression, Value.beqOpt, Value.beq_refl]
    rfl

theorem combineWith_double_negation_witness :
    Expression.combineWith FloatArith.inert
        ⟨OP_NOT, Value.localRef 0 TYPE_INT32, none, UNPACK_NOP, PACK_NOP, 0⟩
        (fun id => if id = 0 then
          some ⟨OP_NOT, Value.localRef 1 TYPE_INT32, none, UNPACK_NOP, PACK_NOP, 0⟩ else none) =
      .ok ⟨OP_V8MIN, Value.localRef 1 TYPE_INT32, none, UNPACK_NOP, PACK_NOP, add_flag 0 0⟩ ∧
    Expression.isMoveExpression
        ⟨OP_V8MIN, Value.localRef 1 TYPE_INT32, none, UNPACK_NOP, PACK_NOP, add_flag 0 0⟩ =
      false ∧
    Expression.isMoveExpression
        ⟨OP_V8MIN, Value.localRef 1 TYPE_INT32, some (Value.localRef 1 TYPE_INT32), UNPACK_NOP,
          PACK_NOP, add_flag 0 0⟩ = true :=
  combineWith_double_negation FloatArith.inert
    (fun id => if id = 0 then
      some ⟨OP_NOT, Value.localRef 1 TYPE_INT32, none, UNPACK_NOP, PACK_NOP, 0⟩ else none)
    0 TYPE_INT32 (Value.localRef 1 TYPE_INT32) UNPACK_NOP UNPACK_NOP PACK_NOP PACK_NOP 0 0
    rfl rfl rfl rfl rfl

theorem OpCode.identity_tables_literal (code : OpCode) (t : Nat) (ty : DataType) :
    Value.beqOpt (OpCode.getLeftIdentity code) (some (Value.localRef t ty)) = false ∧
    Value.beqOpt (OpCode.getRightIdentity code) (some (Value.localRef t ty)) = false ∧
    Value.beqOpt (OpCode.getLeftAbsorbingElement code) (some (Value.localRef t ty)) = false ∧
    Value.beqOpt (OpCode.getRightAbsorbingElement code) (some (Value.localRef t ty)) = false := by
  refine ⟨?_, ?_, ?_, ?_⟩
  · unfold OpCode.getLeftIdentity
    repeat' first
      | rfl
      | refine ite_intro (fun x => Value.beqOpt x (some (Value.localRef t ty)) = false)
          _ _ _ ?_ ?_
  · unfold OpCode.getRightIdentity
    repeat' first
      | rfl
      | refine ite_intro (fun x => Value.beqOpt x (some (Value.localRef t ty)) = false)
          _ _ _ ?_ ?_
  · unfold OpCode.getLeftAbsorbingElement
    repeat' first
      | rfl
      | refine ite_intro (fun x => Value.beqOpt x (some (Value.localRef t ty)) = false)
          _ _ _ ?_ ?_
  · unfold OpCode.getRightAbsorbingElement
    repeat' first
      | rfl
      | refine ite_intro (fun x => Value.beqOpt x (some (Value.localRef t ty)) = false)
          _ _ _ ?_ ?_

/-- C28 (code defect): the identity and absorbing rules of `combineWith` compare
the tables with the arguments themselves, never with the folded constant of a
substituted operand, so they cannot fire on an argument that is a local. With
`t` bound to the move `V8MIN(0, 0)`, whose folded constant is the left identity
0 of ADD, `combineWith` returns `ADD(t, x)` unchanged and not the move of `x`. -/
theorem combineWith_identity_not_folded :
    (∀ (code : OpCode) (t : Nat) (ty : DataType),
      Value.beqOpt (OpCode.getLeftIdentity code) (some (Value.localRef t ty)) = false ∧
      Value.beqOpt (OpCode.getRightIdentity code) (some (Value.localRef t ty)) = false ∧
      Value.beqOpt (OpCode.getLeftAbsorbingElement code) (some (Value.localRef t ty)) = false ∧
      Value.beqOpt (OpCode.getRightAbsorbingElement code) (some (Value.localRef t ty)) =
        false) ∧
    Expression.getConstantExpression FloatArith.inert
        ⟨OP_V8MIN, Value.literal (Literal.ofNat 0) TYPE_INT32,
          some (Value.literal (Literal.ofNat 0) TYPE_INT32), UNPACK_NOP, PACK_NOP, 0⟩ =
      .ok (some (Value.literal (Literal.ofNat 0) TYPE_INT32)) ∧
    Value.beqOpt (OpCode.getLeftIdentity OP_ADD)
      (some (Value.literal (Literal.ofNat 0) TYPE_INT32)) = true ∧
    Expression.combineWith FloatArith.inert
        ⟨OP_ADD, Value.localRef 0 TYPE_INT32, some (Value.localRef 1 TYPE_INT32), UNPACK_NOP,
          PACK_NOP, 0⟩
        (fun id => if id = 0 then
          some ⟨OP_V8MIN, Value.literal (Literal.ofNat 0) TYPE_INT32,
            some (Value.literal (Literal.ofNat 0) TYPE_INT32), UNPACK_NOP, PACK_NOP, 0⟩
          else none) =
      .ok ⟨OP_ADD, Value.localRef 0 TYPE_INT32, some (Value.localRef 1 TYPE_INT32), UNPACK_NOP,
        PACK_NOP, 0⟩ :=
  ⟨OpCode.identity_tables_literal, rfl, rfl, rfl⟩

theorem Expression.combineUnary_nop (e : Expression) (expr0 expr1 : Option Expression)
    (r : Expression) (h : Expression.combineUnary e expr0 expr1 = .ok (some r)) :
    r.unpackMode = UNPACK_NOP ∧ r.packMode = PACK_NOP := by
  unfold Expression.combineUnary at h
  cases expr0 with
  | none => cases h
  | some e0 =>
    dsimp only at h
    split at h
    · split at h
      · cases expr1 with
        | none => cases h
        | some e1 => cases h; exact ⟨rfl, rfl⟩
      · split at h
        · cases h; exact ⟨rfl, rfl⟩
        · cases h
    · cases h

theorem Expression.combineBinary_nop (e r : Expression)
    (h : Expression.combineBinary e = .ok (some r)) :
    r.unpackMode = UNPACK_NOP ∧ r.packMode = PACK_NOP := by
  unfold Expression.combineBinary at h
  cases h1 : e.arg1 with
  | none =>
    simp only [h1] at h
    repeat' first
      | (cases h; exact ⟨rfl, rfl⟩)
      | cases h
      | split at h
  | some a1 =>
    simp only [h1] at h
    repeat' first
      | (cases h; exact ⟨rfl, rfl⟩)
      | cases h
      | split at h

theorem Expression.fuse_nop (fp : FloatArith) (e : Expression) (bound : Option Expression)
    (other : Option Value) (r : Expression)
    (h : Expression.fuse fp e bound other = .ok (some r)) :
    r.unpackMode = UNPACK_NOP ∧ r.packMode = PACK_NOP := by
  unfold Expression.fuse at h
  cases bound with
  | none => cases h
  | some eb =>
    cases other with
    | none =>
      dsimp only at h
      repeat' first
        | cases h
        | split at h
    | some a =>
      dsimp only at h
      repeat' first
        | (cases h; exact ⟨rfl, rfl⟩)
        | cases h
        | split at h

/-- C30: `combineWith` returns the expression itself when neither argument is a
local bound in `inputs`, and when the expression or an expression bound to one
of its arguments has a pack or unpack modifier with an effect; every result
that differs from the expression carries the NOP pack and NOP unpack
modifiers. -/
theorem combineWith_frame (fp : FloatArith) (e : Expression)
    (inputs : Nat → Option Expression) :
    (e.arg0.checkLocal.bind inputs = none ∧ (e.arg1.bind Value.checkLocal).bind inputs = none →
      Expression.combineWith fp e inputs = .ok e) ∧
    ((e.unpackMode.hasEffect = true ∨ e.packMode.hasEffect = true ∨
        (∃ e0, e.arg0.checkLocal.bind inputs = some e0 ∧
          (e0.unpackMode.hasEffect = true ∨ e0.packMode.hasEffect = true)) ∨
        (∃ e1, (e.arg1.bind Value.checkLocal).bind inputs = some e1 ∧
          (e1.unpackMode.hasEffect = true ∨ e1.packMode.hasEffect = true))) →
      Expression.combineWith fp e inputs = .ok e) ∧
    (∀ r, Expression.combineWith fp e inputs = .ok r →
      r = e ∨ (r.unpackMode = UNPACK_NOP ∧ r.packMode = PACK_NOP)) := by
  refine ⟨?_, ?_, ?_⟩
  · rintro ⟨h0, h1⟩
    simp [Expression.combineWith, h0, h1]
  · intro h
    unfold Expression.combineWith
    dsimp only
    split
    · rfl
    · rw [if_pos]
      rcases h with h | h | ⟨e0, h0, h⟩ | ⟨e1, h1, h⟩
      · simp [h]
      · simp [h]
      · rw [h0]
        rcases h with h | h <;> simp [Option.any, h]
      · rw [h1]
        rcases h with h | h <;> simp [Option.any, h]
  · intro r h
    unfold Expression.combineWith at h
    dsimp only at h
    split at h
    · cases h; left; rfl
    split at h
    · cases h; left; rfl
    split at h
    · cases h
    · rename_i r2 hr
      cases h
      right; exact Expression.combineUnary_nop _ _ _ _ hr
    split at h
    · cases h
    split at h
    · cases h
    split at h
    · split at h
      · cases h
      · rename_i r2 hr
        cases h
        right; exact Expression.combineBinary_nop _ _ hr
      split at h
      · cases h
      · rename_i r2 hr
        cases h
        right; exact Expression.fuse_nop _ _ _ _ _ hr
      split at h
      · cases h
      · rename_i r2 hr
        cases h
        right; exact Expression.fuse_nop _ _ _ _ _ hr
      · cases h; left; rfl
    · cases h; left; rfl

theorem Value.getLiteralValue_of_beq (x a : Value) (k : Literal) (h : Value.beq x a = true)
    (hk : x.getLiteralValue = some k) : a.getLiteralValue = some k := by
  cases x <;> simp [Value.getLiteralValue] at hk
  cases a <;> simp [Value.beq] at h
  subst hk
  subst h
  rfl

theorem Expression.fuse_match (fp : FloatArith) (e : Expression) (a x y : Value) (k : Literal)
    (u0 : Unpack) (p0 : Pack) (d0 : Nat) (hc : e.code = OP_FADD)
    (hmatch : (Value.beq x a = true ∧ y.getLiteralValue = some k) ∨
      (Value.beq y a = true ∧ x.getLiteralValue = some k)) :
    Expression.fuse fp e (some ⟨OP_FMUL, x, some y, u0, p0, d0⟩) (some a) =
      .ok (some (Expression.fused fp a k (add_flag e.deco d0))) := by
  have h1 : OP_FADD.eq OP_FADD = true := rfl
  have h2 : OP_FMUL.eq OP_FMUL = true := rfl
  simp only [Expression.fuse, hc, h1, h2, Bool.and_self, if_true, Value.beqOpt]
  rcases hmatch with ⟨hx, hy⟩ | ⟨hy, hx⟩
  · simp only [hx, hy, if_true]
  · by_cases hxa : Value.beq x a = true
    · have ha := Value.getLiteralValue_of_beq x a k hxa hx
      have hya := Value.getLiteralValue_of_beq a y k (Value.beq_symm y a hy) ha
      simp only [hxa, hya, if_true]
    · simp only [hxa, hy, hx, if_true]
      simp

theorem Expression.fuse_not_fmul (fp : FloatArith) (e : Expression) (bound : Option Expression)
    (other : Option Value) (h : ∀ eb, bound = some eb → eb.code.eq OP_FMUL = false) :
    Expression.fuse fp e bound other = .ok none := by
  cases bound with
  | none => rfl
  | some eb => simp [Expression.fuse, h eb rfl]

theorem Expression.argConstant_ok (fp : FloatArith) (arg : Option Value)
    (expr : Option Expression)
    (h : ∀ eb, expr = some eb → ∃ r, eb.getConstantExpression fp = .ok r) :
    ∃ r, Expression.argConstant fp arg expr = .ok r := by
  unfold Expression.argConstant
  split
  · exact ⟨_, rfl⟩
  · cases expr with
    | none => exact ⟨_, rfl⟩
    | some eb => exact h eb rfl

/-- C29 (counterexample): (i) with `t0` bound to `FMUL(0.0, 3.0)`, the expression
`FADD(t0, 0.0)` becomes the move `V8MIN(t0, t0)`, because the right-identity
rule of FADD is tried before the fusion; (ii) with `t0` bound to `FMUL(t1, 3.0)`
and `t1` bound to an expression with an unpack modifier with an effect,
`FADD(t0, t1)` is returned unchanged. -/
theorem fusion_preempted :
    Expression.combineWith FloatArith.inert
        ⟨OP_FADD, Value.localRef 0 TYPE_FLOAT, some (Value.literal (Literal.ofNat 0) TYPE_FLOAT),
          UNPACK_NOP, PACK_NOP, 0⟩
        (fun id => if id = 0 then
          some ⟨OP_FMUL, Value.literal (Literal.ofNat 0) TYPE_FLOAT,
            some (Value.literal (Literal.ofNat 1077936128) TYPE_FLOAT), UNPACK_NOP, PACK_NOP, 0⟩
          else none) =
      .ok ⟨OP_V8MIN, Value.localRef 0 TYPE_FLOAT, some (Value.localRef 0 TYPE_FLOAT), UNPACK_NOP,
        PACK_NOP, 0⟩ ∧
    OP_V8MIN.eq OP_FMUL = false ∧
    Expression.combineWith FloatArith.inert
        ⟨OP_FADD, Value.localRef 0 TYPE_FLOAT, some (Value.localRef 1 TYPE_FLOAT),
          UNPACK_NOP, PACK_NOP, 0⟩
        (fun id => if id = 0 then
          some ⟨OP_FMUL, Value.localRef 1 TYPE_FLOAT,
            some (Value.literal (Literal.ofNat 1077936128) TYPE_FLOAT), UNPACK_NOP, PACK_NOP, 0⟩
          else if id = 1 then
            some ⟨OP_V8MIN, Value.localRef 2 TYPE_FLOAT, some (Value.localRef 2 TYPE_FLOAT),
              UNPACK_16A_32, PACK_NOP, 0⟩
          else none) =
      .ok ⟨OP_FADD, Value.localRef 0 TYPE_FLOAT, some (Value.localRef 1 TYPE_FLOAT),
        UNPACK_NOP, PACK_NOP, 0⟩ :=
  ⟨rfl, rfl, rfl⟩

/-- C29 (amended): let `t` be a local bound to an FMUL expression without
pack/unpack effect, whose constant folding does not fail, with one operand equal
to `a` and the other a literal `k`, in either order. Let `a` be neither the zero
that is the identity of FADD nor the local `t`, and, when `a` is itself a local
bound in `inputs`, let its expression have no pack/unpack effect and fold
without failure. Then for an FADD expression without pack/unpack effect,
`combineWith` turns `FADD(t, a)` into `FMUL(a, k + 1.0)` with NOP pack/unpack and
the merged decorations, and `FADD(a, t)` likewise when `a` is not bound to an
FMUL expression; `k + 1.0` is the float sum of the host, so that with `k = 3.0`
the result is `FMUL(a, 4.0)`. -/
theorem combineWith_fusion (fp : FloatArith) (inputs : Nat → Option Expression)
    (t : Nat) (ty : DataType) (a x y : Value) (k : Literal) (u u0 : Unpack) (p p0 : Pack)
    (d d0 : Nat)
    (hb : inputs t = some ⟨OP_FMUL, x, some y, u0, p0, d0⟩)
    (hmatch : (Value.beq x a = true ∧ y.getLiteralValue = some k) ∨
      (Value.beq y a = true ∧ x.getLiteralValue = some k))
    (heff : u.hasEffect = false ∧ p.hasEffect = false ∧ u0.hasEffect = false ∧
      p0.hasEffect = false)
    (hfold : ∃ r, Expression.getConstantExpression fp ⟨OP_FMUL, x, some y, u0, p0, d0⟩ = .ok r)
    (hzero : Value.beq FLOAT_ZERO a = false)
    (hne : Value.beq (Value.localRef t ty) a = false)
    (hother : ∀ ea, a.checkLocal.bind inputs = some ea →
      ea.unpackMode.hasEffect = false ∧ ea.packMode.hasEffect = false ∧
        ∃ r, ea.getConstantExpression fp = .ok r) :
    Expression.combineWith fp ⟨OP_FADD, Value.localRef t ty, some a, u, p, d⟩ inputs =
      .ok (Expression.fused fp a k (add_flag d d0)) ∧
    ((∀ ea, a.checkLocal.bind inputs = some ea → ea.code.eq OP_FMUL = false) →
      Expression.combineWith fp ⟨OP_FADD, a, some (Value.localRef t ty), u, p, d⟩ inputs =
        .ok (Expression.fused fp a k (add_flag d d0))) ∧
    (∀ s : Literal, fp.add k (Literal.ofNat 1065353216) = s →
      Expression.fused fp a k (add_flag d d0) =
        ⟨OP_FMUL, a, some (Value.literal s TYPE_FLOAT), UNPACK_NOP, PACK_NOP, add_flag d d0⟩) := by
  obtain ⟨hu, hp, hu0, hp0⟩ := heff
  have hI : OP_FADD.isIdempotent = false := rfl
  have hLI : OpCode.getLeftIdentity OP_FADD = some FLOAT_ZERO := rfl
  have hRI : OpCode.getRightIdentity OP_FADD = some FLOAT_ZERO := rfl
  have hLA : OpCode.getLeftAbsorbingElement OP_FADD = none := rfl
  have hRA : OpCode.getRightAbsorbingElement OP_FADD = none := rfl
  have hEQ : OP_FADD.eq OP_FADD = true := rfl
  have hN : OP_FADD.numOperands = 2 := rfl
  have heffa : (a.checkLocal.bind inputs).any
      (fun x => x.unpackMode.hasEffect || x.packMode.hasEffect) = false := by
    cases hea : a.checkLocal.bind inputs with
    | none => rfl
    | some ea =>
      obtain ⟨h1, h2, _⟩ := hother ea hea
      simp [Option.any, h1, h2]
  obtain ⟨r0, hr0⟩ := Expression.argConstant_ok fp (some (Value.localRef t ty)) (inputs t)
    (fun eb heb => by rw [hb] at heb; cases heb; exact hfold)
  have hfolda : ∀ arg, ∃ r, Expression.argConstant fp arg (a.checkLocal.bind inputs) = .ok r :=
    fun arg => Expression.argConstant_ok fp arg _ (fun eb heb => (hother eb heb).2.2)
  obtain ⟨r1, hr1⟩ := hfolda (some a)
  have hne2 : Value.beq a (Value.localRef t ty) = false := by
    rw [Value.beq_comm]; exact hne
  have h0 : Option.bind (Value.checkLocal (Value.localRef t ty)) inputs = inputs t := rfl
  have h1 : ∀ v : Value, Option.bind (Option.bind (some v) Value.checkLocal) inputs =
      Option.bind v.checkLocal inputs := fun _ => rfl
  have hbz : Value.beqOpt (some FLOAT_ZERO) (some (Value.localRef t ty)) = false := rfl
  have hbn : ∀ v : Value, Value.beqOpt none (some v) = false := fun _ => rfl
  have hza : Value.beqOpt (some FLOAT_ZERO) (some a) = false := hzero
  have hta : Value.beqOpt (some (Value.localRef t ty)) (some a) = false := hne
  have hat : Value.beqOpt (some a) (some (Value.localRef t ty)) = false := hne2
  rw [hb] at hr0
  refine ⟨?_, ?_, ?_⟩
  · have hfuse := Expression.fuse_match fp ⟨OP_FADD, Value.localRef t ty, some a, u, p, d⟩
      a x y k u0 p0 d0 rfl hmatch
    unfold Expression.combineWith
    simp only [h0, h1, hb, hu, hp, hu0, hp0, heffa, Option.isNone, Option.any,
      Bool.false_and, Bool.or_self, Bool.false_eq_true, if_false, Expression.combineUnary, hN,
      hr0, hr1, Expression.combineBinary, hI, hLI, hRI, hLA, hRA, hbz, hbn, hza, hta, hEQ,
      Bool.and_false, Bool.true_and, hfuse]
    have heffa2 := heffa
    simp only [Option.any] at heffa2
    simp [heffa2]
  · intro hfm
    have hfuse := Expression.fuse_match fp ⟨OP_FADD, a, some (Value.localRef t ty), u, p, d⟩
      a x y k u0 p0 d0 rfl hmatch
    have hfuse0 := Expression.fuse_not_fmul fp
      ⟨OP_FADD, a, some (Value.localRef t ty), u, p, d⟩ (a.checkLocal.bind inputs)
      (some (Value.localRef t ty)) hfm
    unfold Expression.combineWith
    simp only [h0, h1, hb, hu, hp, hu0, hp0, heffa, Option.isNone, Option.any,
      Bool.false_and, Bool.or_self, Bool.false_eq_true, if_false, Expression.combineUnary, hN,
      hr1, hr0, Expression.combineBinary, hI, hLI, hRI, hLA, hRA, hbz, hbn, hza, hat, hEQ,
      Bool.and_false, Bool.true_and, hfuse, hfuse0]
    have heffa2 := heffa
    simp only [Option.any] at heffa2
    cases hea : a.checkLocal.bind inputs with
    | none => simp
    | some ea =>
      obtain ⟨e1, e2, _⟩ := hother ea hea
      simp [e1, e2]
  · intro s hs
    subst hs
    rfl

theorem combineWith_fusion_witness :
    Expression.combineWith FloatArith.inert
        ⟨OP_FADD, Value.localRef 0 TYPE_FLOAT, some (Value.localRef 1 TYPE_FLOAT), UNPACK_NOP,
          PACK_NOP, 0⟩
        (fun id => if id = 0 then
          some ⟨OP_FMUL, Value.localRef 1 TYPE_FLOAT,
            some (Value.literal (Literal.ofNat 1077936128) TYPE_FLOAT), UNPACK_NOP, PACK_NOP, 0⟩
          else none) =
      .ok (Expression.fused FloatArith.inert (Value.localRef 1 TYPE_FLOAT)
        (Literal.ofNat 1077936128) (add_flag 0 0)) :=
  (combineWith_fusion FloatArith.inert
    (fun id => if id = 0 then
      some ⟨OP_FMUL, Value.localRef 1 TYPE_FLOAT,
        some (Value.literal (Literal.ofNat 1077936128) TYPE_FLOAT), UNPACK_NOP, PACK_NOP, 0⟩
      else none)
    0 TYPE_FLOAT (Value.localRef 1 TYPE_FLOAT) (Value.localRef 1 TYPE_FLOAT)
    (Value.literal (Literal.ofNat 1077936128) TYPE_FLOAT) (Literal.ofNat 1077936128)
    UNPACK_NOP UNPACK_NOP PACK_NOP PACK_NOP 0 0 rfl (Or.inl ⟨rfl, rfl⟩) ⟨rfl, rfl, rfl, rfl⟩
    ⟨none, rfl⟩ rfl rfl (fun ea h => by cases h)).1

/-! ## Saturating arithmetic through PACK_32_32 -/

theorem Literal.signedInt_bounds (a : Literal) :
    -2147483648 ≤ a.signedInt ∧ a.signedInt ≤ 2147483647 := by
  have := a.h
  simp only [Literal.signedInt, i32]
  split <;> omega

theorem Literal.signedInt_ofInt (s : Int) :
    (Literal.ofInt s).signedInt =
      if s % 4294967296 < 2147483648 then s % 4294967296 else s % 4294967296 - 4294967296 := by
  simp only [Literal.signedInt, Literal.ofInt, i32, u32]
  split <;> split <;> omega

/-- Packing a wrapped sum or difference `s` of two `int32_t` with `PACK_32_32`
under the flags of its evaluation gives the saturated `s`. -/
theorem pack32_of_flags (fc : FloatConv) (s : Int) (rt : DataType) (z c : FlagStatus)
    (hlo : -4294967296 ≤ s) (hhi : s < 4294967296) :
    packLiteral fc PACK_32_32 (Literal.ofInt s) rt
        ⟨z, FlagStatus.ofBool (decide ((Literal.ofInt s).signedInt < 0)), c,
          FlagStatus.ofBool (decide (s > 2147483647) || decide (s < -2147483648))⟩ =
      .ok (Value.literal (Literal.ofInt (clamp_i32 s)) rt) := by
  have hs := Literal.signedInt_ofInt s
  by_cases h1 : s > 2147483647
  · have hn : (Literal.ofInt s).signedInt < 0 := by rw [hs]; split <;> omega
    have hc : clamp_i32 s = 2147483647 := by simp only [clamp_i32]; omega
    simp only [h1, hn, decide_True, Bool.true_or, hc]
    rfl
  · by_cases h2 : s < -2147483648
    · have hn : ¬ (Literal.ofInt s).signedInt < 0 := by rw [hs]; split <;> omega
      have hc : clamp_i32 s = -2147483648 := by simp only [clamp_i32]; omega
      simp only [h1, h2, hn, decide_True, decide_False, Bool.or_true, hc]
      rfl
    · have hc : clamp_i32 s = s := by simp only [clamp_i32]; omega
      simp only [h1, h2, decide_False, Bool.or_self, hc]
      rfl

theorem unfold_SUB (fp : FloatArith) (a b : Literal) (rt ft : DataType) :
    calcLiteral fp OP_SUB a b rt ft =
      setFlagsCarryOverflow
        (Value.literal (Literal.ofInt (a.signedInt - b.signedInt)) rt)
        (decide (a.signedInt - b.signedInt < 0))
        (decide (a.signedInt - b.signedInt > 2147483647) ||
          decide (a.signedInt - b.signedInt < -2147483648)) := rfl

theorem clamp_i32_bounds (s : Int) :
    (Literal.ofInt (clamp_i32 s)).signedInt = clamp_i32 s := by
  rw [Literal.signedInt_ofInt]
  simp only [clamp_i32]
  split <;> omega

/-- C31: `PACK_32_32` applied to the value and flags of an ADD or SUB evaluation
is signed saturating arithmetic: the value of `eval(ADD, a, b)` is the wrapped
sum, packing it under the flags of the evaluation gives the literal whose
signed reading is `clamp(signed(a) + signed(b), -2^31, 2^31 - 1)`, likewise for
SUB with the difference, and the pack does not fail on these flags (also through
`Pack::operator()` for a simple type). -/
theorem PACK_32_32_saturating_arithmetic (fp : FloatArith) (fc : FloatConv) (a b : Literal)
    (rt ft : DataType) :
    ((calcLiteral fp OP_ADD a b rt ft).1 =
        some (Value.literal (Literal.ofInt (a.signedInt + b.signedInt)) rt) ∧
      packLiteral fc PACK_32_32 (Literal.ofInt (a.signedInt + b.signedInt)) rt
          (PrecalculatedValue.flags (calcLiteral fp OP_ADD a b rt ft)) =
        .ok (Value.literal (Literal.ofInt (clamp_i32 (a.signedInt + b.signedInt))) rt) ∧
      (Literal.ofInt (clamp_i32 (a.signedInt + b.signedInt))).signedInt =
        clamp_i32 (a.signedInt + b.signedInt) ∧
      (rt.isSimpleType = true →
        Pack.apply fc PACK_32_32 (Value.literal (Literal.ofInt (a.signedInt + b.signedInt)) rt)
            (calcLiteral fp OP_ADD a b rt ft).2 =
          .ok (some (Value.literal (Literal.ofInt (clamp_i32 (a.signedInt + b.signedInt)))
            rt)))) ∧
    ((calcLiteral fp OP_SUB a b rt ft).1 =
        some (Value.literal (Literal.ofInt (a.signedInt - b.signedInt)) rt) ∧
      packLiteral fc PACK_32_32 (Literal.ofInt (a.signedInt - b.signedInt)) rt
          (PrecalculatedValue.flags (calcLiteral fp OP_SUB a b rt ft)) =
        .ok (Value.literal (Literal.ofInt (clamp_i32 (a.signedInt - b.signedInt))) rt) ∧
      (Literal.ofInt (clamp_i32 (a.signedInt - b.signedInt))).signedInt =
        clamp_i32 (a.signedInt - b.signedInt) ∧
      (rt.isSimpleType = true →
        Pack.apply fc PACK_32_32 (Value.literal (Literal.ofInt (a.signedInt - b.signedInt)) rt)
            (calcLiteral fp OP_SUB a b rt ft).2 =
          .ok (some (Value.literal (Literal.ofInt (clamp_i32 (a.signedInt - b.signedInt)))
            rt)))) := by
  have ha := a.signedInt_bounds
  have hb := b.signedInt_bounds
  have hadd := pack32_of_flags fc (a.signedInt + b.signedInt) rt
    (FlagStatus.ofBool (decide ((Literal.ofInt (a.signedInt + b.signedInt)).unsignedInt = 0)))
    (FlagStatus.ofBool (decide (a.unsignedInt + b.unsignedInt > 4294967295)))
    (by omega) (by omega)
  have hsub := pack32_of_flags fc (a.signedInt - b.signedInt) rt
    (FlagStatus.ofBool (decide ((Literal.ofInt (a.signedInt - b.signedInt)).unsignedInt = 0)))
    (FlagStatus.ofBool (decide (a.signedInt - b.signedInt < 0)))
    (by omega) (by omega)
  refine ⟨⟨?_, ?_, clamp_i32_bounds _, ?_⟩, ⟨?_, ?_, clamp_i32_bounds _, ?_⟩⟩
  · rw [unfold_ADD]; rfl
  · rw [unfold_ADD, setFlagsCarryOverflow_literal, PrecalculatedValue.flags_splat]
    exact hadd
  · intro hs
    rw [unfold_ADD, setFlagsCarryOverflow_literal]
    simp only [Pack.apply, hs, Value.type, Value.checkContainer, Value.getLiteralValue]
    have hl : ∀ f : ElementFlags, VectorFlags.lane (VectorFlags.splat f) 0 = f := fun _ => rfl
    rw [hl, hadd]
    rfl
  · rw [unfold_SUB]; rfl
  · rw [unfold_SUB, setFlagsCarryOverflow_literal, PrecalculatedValue.flags_splat]
    exact hsub
  · intro hs
    rw [unfold_SUB, setFlagsCarryOverflow_literal]
    simp only [Pack.apply, hs, Value.type, Value.checkContainer, Value.getLiteralValue]
    have hl : ∀ f : ElementFlags, VectorFlags.lane (VectorFlags.splat f) 0 = f := fun _ => rfl
    rw [hl, hsub]
    rfl

/-! ## Commutative and associative integer opcodes -/

theorem v8Lane_some (code : OpCode)
    (h : code = OP_V8ADDS ∨ code = OP_V8SUBS ∨ code = OP_V8MAX ∨ code = OP_V8MIN ∨
      code = OP_V8MULD) (x y : Nat) : ∃ o, v8Lane code x y = some o := by
  rcases h with h | h | h | h | h <;> subst h <;> exact ⟨_, rfl⟩

theorem v8_has_literal (fp : FloatArith) (code : OpCode) (a b : Literal) (rt ft : DataType)
    (h : code = OP_V8ADDS ∨ code = OP_V8SUBS ∨ code = OP_V8MAX ∨ code = OP_V8MIN ∨
      code = OP_V8MULD) :
    ∃ v : Literal, PrecalculatedValue.literal (calcLiteral fp code a b rt ft) = some v := by
  obtain ⟨o0, e0⟩ := v8Lane_some code h (a.byte 0) (b.byte 0)
  obtain ⟨o1, e1⟩ := v8Lane_some code h (a.byte 1) (b.byte 1)
  obtain ⟨o2, e2⟩ := v8Lane_some code h (a.byte 2) (b.byte 2)
  obtain ⟨o3, e3⟩ := v8Lane_some code h (a.byte 3) (b.byte 3)
  rw [calcLiteral_v8_eq fp code a b rt ft h, e0, e1, e2, e3]
  exact ⟨_, literal_setFlags _ _⟩

/-- C32: the catalog opcodes with `isCommutative()` that take integers are ADD,
AND, OR, XOR, MUL24, MIN, MAX, V8ADDS, V8MIN, V8MAX and V8MULD, and for each of
them and all literals `a`, `b` evaluated with the same types, the value of
`eval(op, a, b)` is bit for bit the value of `eval(op, b, a)`, and the zero and
negative flags agree. -/
theorem commutative_int_value_and_flags (fp : FloatArith) (code : OpCode)
    (hc : code ∈ opCodes) (hcomm : code.isCommutative = true)
    (hint : code.acceptsFloat = false) (a b : Literal) (rt ft : DataType) :
    (code = OP_ADD ∨ code = OP_AND ∨ code = OP_OR ∨ code = OP_XOR ∨ code = OP_MUL24 ∨
      code = OP_V8ADDS ∨ code = OP_V8MIN ∨ code = OP_V8MAX ∨ code = OP_V8MULD ∨
      code = OP_MIN ∨ code = OP_MAX) ∧
    (calcLiteral fp code a b rt ft).1 = (calcLiteral fp code b a rt ft).1 ∧
    (∃ v : Literal, PrecalculatedValue.literal (calcLiteral fp code a b rt ft) = some v ∧
      PrecalculatedValue.literal (calcLiteral fp code b a rt ft) = some v) ∧
    (PrecalculatedValue.flags (calcLiteral fp code a b rt ft)).zero =
      (PrecalculatedValue.flags (calcLiteral fp code b a rt ft)).zero ∧
    (PrecalculatedValue.flags (calcLiteral fp code a b rt ft)).negative =
      (PrecalculatedValue.flags (calcLiteral fp code b a rt ft)).negative := by
  have h := int_swap fp code hc hcomm hint a b rt ft
  have hcat := isCommutative_int_catalog code hc hcomm hint
  refine ⟨hcat, h.1, ?_, h.2.1, h.2.2.1⟩
  have hv : ∃ v : Literal, PrecalculatedValue.literal (calcLiteral fp code a b rt ft) = some v := by
    rcases hcat with e | e | e | e | e | e | e | e | e | e | e <;> subst e
    · exact ⟨_, by rw [unfold_ADD, literal_setFlagsCarryOverflow]⟩
    · exact ⟨_, by rw [unfold_AND, literal_setFlagsCarryOverflow]⟩
    · exact ⟨_, by rw [unfold_OR, literal_setFlagsCarryOverflow]⟩
    · exact ⟨_, by rw [unfold_XOR, literal_setFlagsCarryOverflow]⟩
    · exact ⟨_, by rw [unfold_MUL24, literal_setFlagsCarry]⟩
    · exact v8_has_literal fp _ a b rt ft (Or.inl rfl)
    · exact v8_has_literal fp _ a b rt ft (Or.inr (Or.inr (Or.inr (Or.inl rfl))))
    · exact v8_has_literal fp _ a b rt ft (Or.inr (Or.inr (Or.inl rfl)))
    · exact v8_has_literal fp _ a b rt ft (Or.inr (Or.inr (Or.inr (Or.inr rfl))))
    · exact ⟨_, by rw [unfold_MIN, literal_setFlagsCarryOverflow]⟩
    · exact ⟨_, by rw [unfold_MAX, literal_setFlagsCarryOverflow]⟩
  obtain ⟨v, hv⟩ := hv
  refine ⟨v, hv, ?_⟩
  have : PrecalculatedValue.literal (calcLiteral fp code b a rt ft) =
      PrecalculatedValue.literal (calcLiteral fp code a b rt ft) := by
    simp only [PrecalculatedValue.literal, h.1]
  rw [this, hv]

theorem commutative_int_value_and_flags_witness :
    (OP_ADD = OP_ADD ∨ OP_ADD = OP_AND ∨ OP_ADD = OP_OR ∨ OP_ADD = OP_XOR ∨ OP_ADD = OP_MUL24 ∨
      OP_ADD = OP_V8ADDS ∨ OP_ADD = OP_V8MIN ∨ OP_ADD = OP_V8MAX ∨ OP_ADD = OP_V8MULD ∨
      OP_ADD = OP_MIN ∨ OP_ADD = OP_MAX) ∧
    (calcLiteral FloatArith.inert OP_ADD (Literal.ofNat 4294967295) (Literal.ofNat 1) TYPE_INT32
        TYPE_INT32).1 =
      (calcLiteral FloatArith.inert OP_ADD (Literal.ofNat 1) (Literal.ofNat 4294967295)
        TYPE_INT32 TYPE_INT32).1 :=
  ⟨(commutative_int_value_and_flags FloatArith.inert OP_ADD (by decide) rfl rfl
      (Literal.ofNat 4294967295) (Literal.ofNat 1) TYPE_INT32 TYPE_INT32).1,
    (commutative_int_value_and_flags FloatArith.inert OP_ADD (by decide) rfl rfl
      (Literal.ofNat 4294967295) (Literal.ofNat 1) TYPE_INT32 TYPE_INT32).2.1⟩

theorem isAssociative_int_catalog :
    ∀ code ∈ opCodes, code.isAssociative = true → code.acceptsFloat = false →
      code = OP_ADD ∨ code = OP_AND ∨ code = OP_OR ∨ code = OP_XOR ∨ code = OP_MIN ∨
        code = OP_MAX ∨ code = OP_V8MIN ∨ code = OP_V8MAX := by
  decide

theorem Literal.signedInt_ofInt_of_bounds (s : Int) (h1 : -2147483648 ≤ s)
    (h2 : s ≤ 2147483647) : (Literal.ofInt s).signedInt = s := by
  rw [Literal.signedInt_ofInt]
  split <;> omega

theorem ofInt_add_assoc (a b c : Literal) :
    Literal.ofInt ((Literal.ofInt (a.signedInt + b.signedInt)).signedInt + c.signedInt) =
      Literal.ofInt (a.signedInt + (Literal.ofInt (b.signedInt + c.signedInt)).signedInt) := by
  apply Literal.eq_of_u_eq
  rw [Literal.signedInt_ofInt, Literal.signedInt_ofInt]
  simp only [Literal.ofInt, u32]
  split <;> split <;> omega

theorem ofNat_bitwise_bound (a b : Literal) :
    a.u &&& b.u < 4294967296 ∧ a.u ||| b.u < 4294967296 ∧ a.u ^^^ b.u < 4294967296 :=
  ⟨Nat.and_lt_two_pow (n := 32) _ b.h, Nat.or_lt_two_pow (n := 32) a.h b.h,
    Nat.xor_lt_two_pow (n := 32) a.h b.h⟩

/-- The V8MIN and V8MAX evaluation of two literals, by bytes. -/
theorem v8_minmax_bytes (fp : FloatArith) (code : OpCode) (f : Nat → Nat → Nat)
    (hf : ∀ x y, v8Lane code x y = some (f x y)) (hb : ∀ x y, x < 256 → y < 256 → f x y < 256)
    (h : code = OP_V8ADDS ∨ code = OP_V8SUBS ∨ code = OP_V8MAX ∨ code = OP_V8MIN ∨
      code = OP_V8MULD) (a b : Literal) (rt ft : DataType) :
    ∃ r : Literal, calcLiteral fp code a b rt ft = setFlags (Value.literal r rt) ∧
      r.byte 0 = f (a.byte 0) (b.byte 0) ∧ r.byte 1 = f (a.byte 1) (b.byte 1) ∧
      r.byte 2 = f (a.byte 2) (b.byte 2) ∧ r.byte 3 = f (a.byte 3) (b.byte 3) := by
  have b0 := hb _ _ (a.byte_lt 0) (b.byte_lt 0)
  have b1 := hb _ _ (a.byte_lt 1) (b.byte_lt 1)
  have b2 := hb _ _ (a.byte_lt 2) (b.byte_lt 2)
  have b3 := hb _ _ (a.byte_lt 3) (b.byte_lt 3)
  obtain ⟨r, hr, hu⟩ := calcLiteral_v8 fp code a b rt ft _ _ _ _
    (calcLiteral_v8_eq fp code a b rt ft h) (hf _ _) (hf _ _) (hf _ _) (hf _ _) b0 b1 b2 b3
  exact ⟨r, hr, Literal.byte_of_sum r _ _ _ _ b0 b1 b2 b3 hu⟩

theorem Literal.eq_of_bytes (r s : Literal) (h0 : r.byte 0 = s.byte 0) (h1 : r.byte 1 = s.byte 1)
    (h2 : r.byte 2 = s.byte 2) (h3 : r.byte 3 = s.byte 3) : r = s := by
  apply Literal.eq_of_u_eq
  rw [r.u_eq_bytes, s.u_eq_bytes, h0, h1, h2, h3]

theorem v8_minmax_assoc (fp : FloatArith) (code : OpCode) (f : Nat → Nat → Nat)
    (hf : ∀ x y, v8Lane code x y = some (f x y)) (hb : ∀ x y, x < 256 → y < 256 → f x y < 256)
    (hassoc : ∀ x y z, f (f x y) z = f x (f y z))
    (h : code = OP_V8ADDS ∨ code = OP_V8SUBS ∨ code = OP_V8MAX ∨ code = OP_V8MIN ∨
      code = OP_V8MULD) (a b c : Literal) (rt ft : DataType) :
    ∃ ab bc v : Literal,
      PrecalculatedValue.literal (calcLiteral fp code a b rt ft) = some ab ∧
      PrecalculatedValue.literal (calcLiteral fp code b c rt ft) = some bc ∧
      PrecalculatedValue.literal (calcLiteral fp code ab c rt ft) = some v ∧
      PrecalculatedValue.literal (calcLiteral fp code a bc rt ft) = some v := by
  obtain ⟨ab, hab, p0, p1, p2, p3⟩ := v8_minmax_bytes fp code f hf hb h a b rt ft
  obtain ⟨bc, hbc, q0, q1, q2, q3⟩ := v8_minmax_bytes fp code f hf hb h b c rt ft
  obtain ⟨l, hl, l0, l1, l2, l3⟩ := v8_minmax_bytes fp code f hf hb h ab c rt ft
  obtain ⟨r, hr, r0, r1, r2, r3⟩ := v8_minmax_bytes fp code f hf hb h a bc rt ft
  have e : l = r := by
    apply Literal.eq_of_bytes
    · rw [l0, r0, p0, q0, hassoc]
    · rw [l1, r1, p1, q1, hassoc]
    · rw [l2, r2, p2, q2, hassoc]
    · rw [l3, r3, p3, q3, hassoc]
  exact ⟨ab, bc, l, by rw [hab, literal_setFlags], by rw [hbc, literal_setFlags],
    by rw [hl, literal_setFlags], by rw [hr, literal_setFlags, e]⟩

/-- C33: the catalog opcodes with `isAssociative()` that take integers are ADD,
AND, OR, XOR, MIN, MAX, V8MIN and V8MAX, and for each of them and all literals
`a`, `b`, `c` the evaluations `eval(op, a, b)` and `eval(op, b, c)` have literal
values `ab` and `bc`, and the value of `eval(op, ab, c)` is the value of
`eval(op, a, bc)`. -/
theorem associative_int_value (fp : FloatArith) (code : OpCode) (hc : code ∈ opCodes)
    (hassoc : code.isAssociative = true) (hint : code.acceptsFloat = false)
    (a b c : Literal) (rt ft : DataType) :
    (code = OP_ADD ∨ code = OP_AND ∨ code = OP_OR ∨ code = OP_XOR ∨ code = OP_MIN ∨
      code = OP_MAX ∨ code = OP_V8MIN ∨ code = OP_V8MAX) ∧
    ∃ ab bc v : Literal,
      PrecalculatedValue.literal (calcLiteral fp code a b rt ft) = some ab ∧
      PrecalculatedValue.literal (calcLiteral fp code b c rt ft) = some bc ∧
      PrecalculatedValue.literal (calcLiteral fp code ab c rt ft) = some v ∧
      PrecalculatedValue.literal (calcLiteral fp code a bc rt ft) = some v := by
  have hcat := isAssociative_int_catalog code hc hassoc hint
  refine ⟨hcat, ?_⟩
  have ha := a.signedInt_bounds
  have hb := b.signedInt_bounds
  have hc3 := c.signedInt_bounds
  have hbw := ofNat_bitwise_bound
  rcases hcat with e | e | e | e | e | e | e | e <;> subst e
  · refine ⟨_, _, _, by rw [unfold_ADD, literal_setFlagsCarryOverflow],
      by rw [unfold_ADD, literal_setFlagsCarryOverflow],
      by rw [unfold_ADD, literal_setFlagsCarryOverflow], ?_⟩
    rw [unfold_ADD, literal_setFlagsCarryOverflow, ofInt_add_assoc]
  · refine ⟨_, _, _, by rw [unfold_AND, literal_setFlagsCarryOverflow],
      by rw [unfold_AND, literal_setFlagsCarryOverflow],
      by rw [unfold_AND, literal_setFlagsCarryOverflow], ?_⟩
    rw [unfold_AND, literal_setFlagsCarryOverflow]
    simp only [Literal.unsignedInt]
    rw [Literal.ofNat_u_of_lt (hbw a b).1, Literal.ofNat_u_of_lt (hbw b c).1, Nat.and_assoc]
  · refine ⟨_, _, _, by rw [unfold_OR, literal_setFlagsCarryOverflow],
      by rw [unfold_OR, literal_setFlagsCarryOverflow],
      by rw [unfold_OR, literal_setFlagsCarryOverflow], ?_⟩
    rw [unfold_OR, literal_setFlagsCarryOverflow]
    simp only [Literal.unsignedInt]
    rw [Literal.ofNat_u_of_lt (hbw a b).2.1, Literal.ofNat_u_of_lt (hbw b c).2.1, Nat.or_assoc]
  · refine ⟨_, _, _, by rw [unfold_XOR, literal_setFlagsCarryOverflow],
      by rw [unfold_XOR, literal_setFlagsCarryOverflow],
      by rw [unfold_XOR, literal_setFlagsCarryOverflow], ?_⟩
    rw [unfold_XOR, literal_setFlagsCarryOverflow]
    simp only [Literal.unsignedInt]
    rw [Literal.ofNat_u_of_lt (hbw a b).2.2, Literal.ofNat_u_of_lt (hbw b c).2.2, Nat.xor_assoc]
  · refine ⟨_, _, _, by rw [unfold_MIN, literal_setFlagsCarryOverflow],
      by rw [unfold_MIN, literal_setFlagsCarryOverflow],
      by rw [unfold_MIN, literal_setFlagsCarryOverflow], ?_⟩
    rw [unfold_MIN, literal_setFlagsCarryOverflow,
      Literal.signedInt_ofInt_of_bounds _ (by omega) (by omega),
      Literal.signedInt_ofInt_of_bounds _ (by omega) (by omega), min_assoc]
  · refine ⟨_, _, _, by rw [unfold_MAX, literal_setFlagsCarryOverflow],
      by rw [unfold_MAX, literal_setFlagsCarryOverflow],
      by rw [unfold_MAX, literal_setFlagsCarryOverflow], ?_⟩
    rw [unfold_MAX, literal_setFlagsCarryOverflow,
      Literal.signedInt_ofInt_of_bounds _ (by omega) (by omega),
      Literal.signedInt_ofInt_of_bounds _ (by omega) (by omega), max_assoc]
  · exact v8_minmax_assoc fp OP_V8MIN Min.min v8Lane_V8MIN (fun x y hx hy => by omega)
      (fun x y z => min_assoc x y z) (Or.inr (Or.inr (Or.inr (Or.inl rfl)))) a b c rt ft
  · exact v8_minmax_assoc fp OP_V8MAX Max.max v8Lane_V8MAX (fun x y hx hy => by omega)
      (fun x y z => max_assoc x y z) (Or.inr (Or.inr (Or.inl rfl))) a b c rt ft

theorem associative_int_value_witness :
    ∃ ab bc v : Literal,
      PrecalculatedValue.literal (calcLiteral FloatArith.inert OP_ADD (Literal.ofNat 2147483647)
        (Literal.ofNat 1) TYPE_INT32 TYPE_INT32) = some ab ∧
      PrecalculatedValue.literal (calcLiteral FloatArith.inert OP_ADD (Literal.ofNat 1)
        (Literal.ofNat 4294967295) TYPE_INT32 TYPE_INT32) = some bc ∧
      PrecalculatedValue.literal (calcLiteral FloatArith.inert OP_ADD ab
        (Literal.ofNat 4294967295) TYPE_INT32 TYPE_INT32) = some v ∧
      PrecalculatedValue.literal (calcLiteral FloatArith.inert OP_ADD (Literal.ofNat 2147483647)
        bc TYPE_INT32 TYPE_INT32) = some v :=
  (associative_int_value FloatArith.inert OP_ADD (by decide) rfl rfl (Literal.ofNat 2147483647)
    (Literal.ofNat 1) (Literal.ofNat 4294967295) TYPE_INT32 TYPE_INT32).2

/-! ## Distributivity predicates -/

theorem isDistributive_int_catalog :
    ∀ f ∈ opCodes, ∀ g ∈ opCodes, f.acceptsFloat = false →
      (f.isLeftDistributiveOver g = true ∨ f.isRightDistributiveOver g = true) →
      (f = OP_ADD ∧ (g = OP_MIN ∨ g = OP_MAX)) ∨ (f = OP_AND ∧ (g = OP_OR ∨ g = OP_XOR)) := by
  decide

theorem nat_and_or_distrib (a b c : Nat) : a &&& (b ||| c) = (a &&& b) ||| (a &&& c) := by
  apply Nat.eq_of_testBit_eq
  intro i
  simp only [Nat.testBit_and, Nat.testBit_or]
  cases a.testBit i <;> cases b.testBit i <;> cases c.testBit i <;> rfl

theorem nat_and_xor_distrib (a b c : Nat) : a &&& (b ^^^ c) = (a &&& b) ^^^ (a &&& c) := by
  apply Nat.eq_of_testBit_eq
  intro i
  simp only [Nat.testBit_and, Nat.testBit_xor]
  cases a.testBit i <;> cases b.testBit i <;> cases c.testBit i <;> rfl

/-- C34 (code defect): among the integer opcodes of the catalog the distributivity
predicates hold exactly for ADD over MIN and MAX and for AND over OR and XOR,
on either side. AND distributes over OR and XOR under evaluation, from the left
and from the right. ADD does not distribute over MAX or MIN, because the sum
wraps at 32 bits: with `a = 1`, `b = 0x7FFFFFFF`, `c = 0` the value of
`ADD(a, MAX(b, c))` is `0x80000000` and that of `MAX(ADD(a, b), ADD(a, c))` is
1, and the value of `ADD(a, MIN(b, c))` is 1 and that of
`MIN(ADD(a, b), ADD(a, c))` is `0x80000000`. -/
theorem distributive_predicates_eval (fp : FloatArith) (a b c : Literal) (rt ft : DataType) :
    (∀ f ∈ opCodes, ∀ g ∈ opCodes, f.acceptsFloat = false →
      (f.isLeftDistributiveOver g = true ∨ f.isRightDistributiveOver g = true) →
      (f = OP_ADD ∧ (g = OP_MIN ∨ g = OP_MAX)) ∨ (f = OP_AND ∧ (g = OP_OR ∨ g = OP_XOR))) ∧
    OP_ADD.isLeftDistributiveOver OP_MAX = true ∧ OP_ADD.isLeftDistributiveOver OP_MIN = true ∧
    OP_ADD.isRightDistributiveOver OP_MAX = true ∧
    (∀ g ∈ [OP_OR, OP_XOR],
      OP_AND.isLeftDistributiveOver g = true ∧ OP_AND.isRightDistributiveOver g = true ∧
      ∃ bc ab ac l r : Literal,
        PrecalculatedValue.literal (calcLiteral fp g b c rt ft) = some bc ∧
        PrecalculatedValue.literal (calcLiteral fp OP_AND a b rt ft) = some ab ∧
        PrecalculatedValue.literal (calcLiteral fp OP_AND a c rt ft) = some ac ∧
        PrecalculatedValue.literal (calcLiteral fp OP_AND a bc rt ft) = some l ∧
        PrecalculatedValue.literal (calcLiteral fp g ab ac rt ft) = some l ∧
        PrecalculatedValue.literal (calcLiteral fp OP_AND bc a rt ft) = some r ∧
        PrecalculatedValue.literal (calcLiteral fp OP_AND b a rt ft) = some ab ∧
        PrecalculatedValue.literal (calcLiteral fp OP_AND c a rt ft) = some ac ∧
        r = l) ∧
    (PrecalculatedValue.literal (calcLiteral fp OP_MAX (Literal.ofNat 0x7FFFFFFF)
        (Literal.ofNat 0) rt ft) = some (Literal.ofNat 0x7FFFFFFF) ∧
      PrecalculatedValue.literal (calcLiteral fp OP_ADD (Literal.ofNat 1)
        (Literal.ofNat 0x7FFFFFFF) rt ft) = some (Literal.ofNat 0x80000000) ∧
      PrecalculatedValue.literal (calcLiteral fp OP_ADD (Literal.ofNat 1)
        (Literal.ofNat 0) rt ft) = some (Literal.ofNat 1) ∧
      PrecalculatedValue.literal (calcLiteral fp OP_MAX (Literal.ofNat 0x80000000)
        (Literal.ofNat 1) rt ft) = some (Literal.ofNat 1) ∧
      PrecalculatedValue.literal (calcLiteral fp OP_MIN (Literal.ofNat 0x7FFFFFFF)
        (Literal.ofNat 0) rt ft) = some (Literal.ofNat 0) ∧
      PrecalculatedValue.literal (calcLiteral fp OP_MIN (Literal.ofNat 0x80000000)
        (Literal.ofNat 1) rt ft) = some (Literal.ofNat 0x80000000) ∧
      Literal.ofNat 0x80000000 ≠ Literal.ofNat 1) := by
  have hbw := ofNat_bitwise_bound
  refine ⟨isDistributive_int_catalog, rfl, rfl, rfl, ?_, ?_⟩
  · intro g hg
    simp only [List.mem_cons, List.mem_singleton, List.not_mem_nil, or_false] at hg
    rcases hg with e | e <;> subst e
    · refine ⟨rfl, rfl, _, _, _, _, _, by rw [unfold_OR, literal_setFlagsCarryOverflow],
        by rw [unfold_AND, literal_setFlagsCarryOverflow],
        by rw [unfold_AND, literal_setFlagsCarryOverflow],
        by rw [unfold_AND, literal_setFlagsCarryOverflow], ?_,
        by rw [unfold_AND, literal_setFlagsCarryOverflow], ?_, ?_, ?_⟩
      · rw [unfold_OR, literal_setFlagsCarryOverflow]
        simp only [Literal.unsignedInt]
        rw [Literal.ofNat_u_of_lt (hbw a b).1, Literal.ofNat_u_of_lt (hbw a c).1,
          Literal.ofNat_u_of_lt (hbw b c).2.1, nat_and_or_distrib]
      · rw [unfold_AND, literal_setFlagsCarryOverflow]
        simp only [Literal.unsignedInt]
        rw [Nat.and_comm]
      · rw [unfold_AND, literal_setFlagsCarryOverflow]
        simp only [Literal.unsignedInt]
        rw [Nat.and_comm]
      · simp only [Literal.unsignedInt]
        rw [Nat.and_comm]
    · refine ⟨rfl, rfl, _, _, _, _, _, by rw [unfold_XOR, literal_setFlagsCarryOverflow],
        by rw [unfold_AND, literal_setFlagsCarryOverflow],
        by rw [unfold_AND, literal_setFlagsCarryOverflow],
        by rw [unfold_AND, literal_setFlagsCarryOverflow], ?_,
        by rw [unfold_AND, literal_setFlagsCarryOverflow], ?_, ?_, ?_⟩
      · rw [unfold_XOR, literal_setFlagsCarryOverflow]
        simp only [Literal.unsignedInt]
        rw [Literal.ofNat_u_of_lt (hbw a b).1, Literal.ofNat_u_of_lt (hbw a c).1,
          Literal.ofNat_u_of_lt (hbw b c).2.2, nat_and_xor_distrib]
      · rw [unfold_AND, literal_setFlagsCarryOverflow]
        simp only [Literal.unsignedInt]
        rw [Nat.and_comm]
      · rw [unfold_AND, literal_setFlagsCarryOverflow]
        simp only [Literal.unsignedInt]
        rw [Nat.and_comm]
      · simp only [Literal.unsignedInt]
        rw [Nat.and_comm]
  · exact ⟨rfl, rfl, rfl, rfl, rfl, rfl, by decide⟩

/-! ## Soundness of the rewrite tables under evaluation -/

theorem Value.literal_of_beqOpt (o : Option Value) (x : Literal) (tx : DataType)
    (h : Value.beqOpt o (some (Value.literal x tx)) = true) :
    o.bind Value.getLiteralValue = some x := by
  cases o with
  | none => cases h
  | some v =>
    cases v <;> simp [Value.beqOpt, Value.beq] at h
    subst h
    rfl

theorem unfold_SHL (fp : FloatArith) (a b : Literal) (rt ft : DataType) :
    PrecalculatedValue.literal (calcLiteral fp OP_SHL a b rt ft) =
      some (Literal.ofNat (a.unsignedInt <<< shiftCount b.signedInt)) := rfl

theorem unfold_SHR (fp : FloatArith) (a b : Literal) (rt ft : DataType) :
    PrecalculatedValue.literal (calcLiteral fp OP_SHR a b rt ft) =
      some (Literal.ofNat (a.unsignedInt >>> shiftCount b.signedInt)) := rfl

theorem unfold_ROR (fp : FloatArith) (a b : Literal) (rt ft : DataType) :
    PrecalculatedValue.literal (calcLiteral fp OP_ROR a b rt ft) =
      some (Literal.ofNat (rotate_right a.unsignedInt b.signedInt)) := rfl

theorem signedInt_zero : (Literal.ofNat 0).signedInt = 0 := by decide

/-- The value of an integer opcode on two equal operands, for the idempotent
ones. -/
theorem eval_idempotent_int (fp : FloatArith) (x : Literal) (rt ft : DataType) :
    ∀ code ∈ [OP_AND, OP_OR, OP_MIN, OP_MAX, OP_V8MIN, OP_V8MAX],
      PrecalculatedValue.literal (calcLiteral fp code x x rt ft) = some x := by
  intro code hcode
  simp only [List.mem_cons, List.mem_singleton, List.not_mem_nil, or_false] at hcode
  rcases hcode with e | e | e | e | e | e <;> subst e
  · rw [unfold_AND, literal_setFlagsCarryOverflow, Nat.and_self, Literal.unsignedInt,
      Literal.ofNat_u]
  · rw [unfold_OR, literal_setFlagsCarryOverflow, Nat.or_self, Literal.unsignedInt,
      Literal.ofNat_u]
  · rw [unfold_MIN, literal_setFlagsCarryOverflow, min_self, Literal.ofInt_signedInt]
  · rw [unfold_MAX, literal_setFlagsCarryOverflow, max_self, Literal.ofInt_signedInt]
  · obtain ⟨r, hr, r0, r1, r2, r3⟩ := v8_minmax_bytes fp OP_V8MIN Min.min v8Lane_V8MIN
      (fun x y hx hy => by omega) (Or.inr (Or.inr (Or.inr (Or.inl rfl)))) x x rt ft
    rw [hr, literal_setFlags]
    congr 1
    exact Literal.eq_of_bytes _ _ (by rw [r0, min_self]) (by rw [r1, min_self])
      (by rw [r2, min_self]) (by rw [r3, min_self])
  · obtain ⟨r, hr, r0, r1, r2, r3⟩ := v8_minmax_bytes fp OP_V8MAX Max.max v8Lane_V8MAX
      (fun x y hx hy => by omega) (Or.inr (Or.inr (Or.inl rfl))) x x rt ft
    rw [hr, literal_setFlags]
    congr 1
    exact Literal.eq_of_bytes _ _ (by rw [r0, max_self]) (by rw [r1, max_self])
      (by rw [r2, max_self]) (by rw [r3, max_self])

/-- The declared left identities of ADD, OR, XOR and AND return the second
operand. -/
theorem eval_left_identity_int (fp : FloatArith) (y : Literal) (rt ft : DataType) :
    PrecalculatedValue.literal (calcLiteral fp OP_ADD (Literal.ofNat 0) y rt ft) = some y ∧
    PrecalculatedValue.literal (calcLiteral fp OP_OR (Literal.ofNat 0) y rt ft) = some y ∧
    PrecalculatedValue.literal (calcLiteral fp OP_XOR (Literal.ofNat 0) y rt ft) = some y ∧
    PrecalculatedValue.literal (calcLiteral fp OP_AND (Literal.ofNat 4294967295) y rt ft) =
      some y := by
  have hy := y.h
  refine ⟨?_, ?_, ?_, ?_⟩
  · rw [unfold_ADD, literal_setFlagsCarryOverflow, signedInt_zero, Int.zero_add,
      Literal.ofInt_signedInt]
  · rw [unfold_OR, literal_setFlagsCarryOverflow]
    show some (Literal.ofNat (0 ||| y.u)) = _
    rw [Nat.zero_or, Literal.ofNat_u]
  · rw [unfold_XOR, literal_setFlagsCarryOverflow]
    show some (Literal.ofNat (0 ^^^ y.u)) = _
    rw [Nat.zero_xor, Literal.ofNat_u]
  · rw [unfold_AND, literal_setFlagsCarryOverflow]
    show some (Literal.ofNat (4294967295 &&& y.u)) = _
    rw [and_4294967295 _ hy, Literal.ofNat_u]

/-- The declared right identities of ADD, SUB, OR, XOR, AND, SHL, SHR and ROR
return the first operand. -/
theorem eval_right_identity_int (fp : FloatArith) (x : Literal) (rt ft : DataType) :
    PrecalculatedValue.literal (calcLiteral fp OP_ADD x (Literal.ofNat 0) rt ft) = some x ∧
    PrecalculatedValue.literal (calcLiteral fp OP_SUB x (Literal.ofNat 0) rt ft) = some x ∧
    PrecalculatedValue.literal (calcLiteral fp OP_OR x (Literal.ofNat 0) rt ft) = some x ∧
    PrecalculatedValue.literal (calcLiteral fp OP_XOR x (Literal.ofNat 0) rt ft) = some x ∧
    PrecalculatedValue.literal (calcLiteral fp OP_AND x (Literal.ofNat 4294967295) rt ft) =
      some x ∧
    PrecalculatedValue.literal (calcLiteral fp OP_SHL x (Literal.ofNat 0) rt ft) = some x ∧
    PrecalculatedValue.literal (calcLiteral fp OP_SHR x (Literal.ofNat 0) rt ft) = some x ∧
    PrecalculatedValue.literal (calcLiteral fp OP_ROR x (Literal.ofNat 0) rt ft) = some x := by
  have hx := x.h
  have hs : shiftCount (Literal.ofNat 0).signedInt = 0 := by decide
  refine ⟨?_, ?_, ?_, ?_, ?_, ?_, ?_, ?_⟩
  · rw [unfold_ADD, literal_setFlagsCarryOverflow, signedInt_zero, Int.add_zero,
      Literal.ofInt_signedInt]
  · rw [unfold_SUB, literal_setFlagsCarryOverflow, signedInt_zero, Int.sub_zero,
      Literal.ofInt_signedInt]
  · rw [unfold_OR, literal_setFlagsCarryOverflow]
    show some (Literal.ofNat (x.u ||| 0)) = _
    rw [Nat.or_zero, Literal.ofNat_u]
  · rw [unfold_XOR, literal_setFlagsCarryOverflow]
    show some (Literal.ofNat (x.u ^^^ 0)) = _
    rw [Nat.xor_zero, Literal.ofNat_u]
  · rw [unfold_AND, literal_setFlagsCarryOverflow]
    show some (Literal.ofNat (x.u &&& 4294967295)) = _
    rw [Nat.and_comm, and_4294967295 _ hx, Literal.ofNat_u]
  · rw [unfold_SHL, hs]
    show some (Literal.ofNat (x.u <<< 0)) = _
    rw [Nat.shiftLeft_zero, Literal.ofNat_u]
  · rw [unfold_SHR, hs]
    show some (Literal.ofNat (x.u >>> 0)) = _
    rw [Nat.shiftRight_zero, Literal.ofNat_u]
  · rw [unfold_ROR]
    have : rotate_right x.unsignedInt (Literal.ofNat 0).signedInt = x.u := by
      rw [signedInt_zero]
      rfl
    rw [this, Literal.ofNat_u]

/-- The declared absorbing elements 0 of AND, MUL24, V8MULD and V8MIN absorb on
either side. -/
theorem eval_absorbing_zero (fp : FloatArith) (a : Literal) (rt ft : DataType) :
    ∀ op ∈ [OP_AND, OP_MUL24, OP_V8MULD, OP_V8MIN],
      PrecalculatedValue.literal (calcLiteral fp op (Literal.ofNat 0) a rt ft) =
        some (Literal.ofNat 0) ∧
      PrecalculatedValue.literal (calcLiteral fp op a (Literal.ofNat 0) rt ft) =
        some (Literal.ofNat 0) := by
  intro op hop
  simp only [List.mem_cons, List.mem_singleton, List.not_mem_nil, or_false] at hop
  rcases hop with h | h | h | h <;> subst h
  · refine ⟨?_, ?_⟩
    · rw [unfold_AND, literal_setFlagsCarryOverflow]
      show some (Literal.ofNat (0 &&& a.unsignedInt)) = _
      rw [Nat.zero_and]
    · rw [unfold_AND, literal_setFlagsCarryOverflow]
      show some (Literal.ofNat (a.unsignedInt &&& 0)) = _
      rw [Nat.and_zero]
  · refine ⟨?_, ?_⟩
    · rw [unfold_MUL24, literal_setFlagsCarry]
      show some (Literal.ofNat ((0 &&& 16777215) * (a.unsignedInt &&& 16777215))) = _
      rw [Nat.zero_and, Nat.zero_mul]
    · rw [unfold_MUL24, literal_setFlagsCarry]
      show some (Literal.ofNat ((a.unsignedInt &&& 16777215) * (0 &&& 16777215))) = _
      rw [Nat.zero_and, Nat.mul_zero]
  · refine ⟨?_, ?_⟩
    · refine calcLiteral_v8_const fp OP_V8MULD _ a rt ft (by simp) 0 (by decide) ?_
      intro k
      rw [Literal.byte_zero]
      show some (((0 * a.byte k.val + 127) % 4294967296) / 255) = some 0
      simp
    · refine calcLiteral_v8_const fp OP_V8MULD a _ rt ft (by simp) 0 (by decide) ?_
      intro k
      rw [Literal.byte_zero]
      show some (((a.byte k.val * 0 + 127) % 4294967296) / 255) = some 0
      simp
  · refine ⟨?_, ?_⟩
    · refine calcLiteral_v8_const fp OP_V8MIN _ a rt ft (by simp) 0 (by decide) ?_
      intro k
      rw [Literal.byte_zero, v8Lane_V8MIN]
      simp
    · refine calcLiteral_v8_const fp OP_V8MIN a _ rt ft (by simp) 0 (by decide) ?_
      intro k
      rw [Literal.byte_zero, v8Lane_V8MIN]
      simp

/-- The declared absorbing element all-bits-set of OR and V8MAX absorbs on
either side. -/
theorem eval_absorbing_ones (fp : FloatArith) (a : Literal) (rt ft : DataType) :
    ∀ op ∈ [OP_OR, OP_V8MAX],
      PrecalculatedValue.literal (calcLiteral fp op (Literal.ofNat 4294967295) a rt ft) =
        some (Literal.ofNat 4294967295) ∧
      PrecalculatedValue.literal (calcLiteral fp op a (Literal.ofNat 4294967295) rt ft) =
        some (Literal.ofNat 4294967295) := by
  have ha := a.h
  have hbyte := fun k => a.byte_lt k
  intro op hop
  simp only [List.mem_cons, List.mem_singleton, List.not_mem_nil, or_false] at hop
  rcases hop with h | h <;> subst h
  · refine ⟨?_, ?_⟩
    · rw [unfold_OR, literal_setFlagsCarryOverflow]
      show some (Literal.ofNat (4294967295 ||| a.unsignedInt)) = _
      rw [(or_4294967295 a.unsignedInt ha).1]
    · rw [unfold_OR, literal_setFlagsCarryOverflow]
      show some (Literal.ofNat (a.unsignedInt ||| 4294967295)) = _
      rw [(or_4294967295 a.unsignedInt ha).2]
  · refine ⟨?_, ?_⟩
    · refine calcLiteral_v8_const fp OP_V8MAX _ a rt ft (by simp) 255 (by decide) ?_
      intro k
      rw [Literal.byte_ones, v8Lane_V8MAX]
      have := hbyte k.val
      congr 1
      omega
    · refine calcLiteral_v8_const fp OP_V8MAX a _ rt ft (by simp) 255 (by decide) ?_
      intro k
      rw [Literal.byte_ones, v8Lane_V8MAX]
      have := hbyte k.val
      congr 1
      omega

/-- The declared left absorbing element 0 of SHL, SHR and ROR absorbs for every
shift amount. -/
theorem eval_absorbing_shift (fp : FloatArith) (b : Literal) (rt ft : DataType) :
    PrecalculatedValue.literal (calcLiteral fp OP_SHL (Literal.ofNat 0) b rt ft) =
      some (Literal.ofNat 0) ∧
    PrecalculatedValue.literal (calcLiteral fp OP_SHR (Literal.ofNat 0) b rt ft) =
      some (Literal.ofNat 0) ∧
    PrecalculatedValue.literal (calcLiteral fp OP_ROR (Literal.ofNat 0) b rt ft) =
      some (Literal.ofNat 0) := by
  refine ⟨?_, ?_, ?_⟩
  · show some (Literal.ofNat (0 <<< shiftCount b.signedInt)) = _
    rw [Nat.zero_shiftLeft]
  · show some (Literal.ofNat (0 >>> shiftCount b.signedInt)) = _
    rw [Nat.zero_shiftRight]
  · show some (Literal.ofNat (rotate_right 0 b.signedInt)) = _
    rw [rotate_right_zero]

/-- C35 (code defect): for the integer opcodes ADD, SUB, AND, OR, XOR, SHL, SHR,
ROR, MUL24, MIN, MAX, V8MIN, V8MAX, V8MULD and all operand values `x`, `y`, the
value of `op(x, y)` is the value of the operand that `combineWith` moves
whenever the idempotence rule (equal operands), an absorbing rule, or an
identity rule of an opcode other than MUL24 applies. The identity rules of
MUL24 do not preserve the value: the tables declare 1 its identity, the
evaluator masks the operands to 24 bits, so `MUL24(1, 0x01000000)` and
`MUL24(0x01000000, 1)` are 0, while `combineWith` rewrites `MUL24(1, t)` to the
move of `t`. -/
theorem move_rewrites_eval (fp : FloatArith) (x y : Literal) (tx ty rt ft : DataType) :
    (∀ code ∈ [OP_ADD, OP_SUB, OP_AND, OP_OR, OP_XOR, OP_SHL, OP_SHR, OP_ROR, OP_MUL24, OP_MIN,
        OP_MAX, OP_V8MIN, OP_V8MAX, OP_V8MULD],
      (code.isIdempotent = true →
        PrecalculatedValue.literal (calcLiteral fp code x x rt ft) = some x) ∧
      (code ≠ OP_MUL24 →
        Value.beqOpt (OpCode.getLeftIdentity code) (some (Value.literal x tx)) = true →
        PrecalculatedValue.literal (calcLiteral fp code x y rt ft) = some y) ∧
      (code ≠ OP_MUL24 →
        Value.beqOpt (OpCode.getRightIdentity code) (some (Value.literal y ty)) = true →
        PrecalculatedValue.literal (calcLiteral fp code x y rt ft) = some x) ∧
      (Value.beqOpt (OpCode.getLeftAbsorbingElement code) (some (Value.literal x tx)) = true →
        PrecalculatedValue.literal (calcLiteral fp code x y rt ft) = some x) ∧
      (Value.beqOpt (OpCode.getRightAbsorbingElement code) (some (Value.literal y ty)) = true →
        PrecalculatedValue.literal (calcLiteral fp code x y rt ft) = some y)) ∧
    (Value.beqOpt (OpCode.getLeftIdentity OP_MUL24)
        (some (Value.literal (Literal.ofNat 1) TYPE_INT32)) = true ∧
      Value.beqOpt (OpCode.getRightIdentity OP_MUL24)
        (some (Value.literal (Literal.ofNat 1) TYPE_INT32)) = true ∧
      PrecalculatedValue.literal (calcLiteral fp OP_MUL24 (Literal.ofNat 1)
        (Literal.ofNat 0x01000000) rt ft) = some (Literal.ofNat 0) ∧
      PrecalculatedValue.literal (calcLiteral fp OP_MUL24 (Literal.ofNat 0x01000000)
        (Literal.ofNat 1) rt ft) = some (Literal.ofNat 0) ∧
      Literal.ofNat 0 ≠ Literal.ofNat 0x01000000 ∧
      Expression.combineWith fp
          ⟨OP_MUL24, Value.literal (Literal.ofNat 1) TYPE_INT32,
            some (Value.localRef 0 TYPE_INT32), UNPACK_NOP, PACK_NOP, 0⟩
          (fun id => if id = 0 then
            some ⟨OP_V8MIN, Value.localRef 1 TYPE_INT32, some (Value.localRef 1 TYPE_INT32),
              UNPACK_NOP, PACK_NOP, 0⟩
            else none) =
        .ok ⟨OP_V8MIN, Value.localRef 0 TYPE_INT32, some (Value.localRef 0 TYPE_INT32),
          UNPACK_NOP, PACK_NOP, 0⟩) := by
  have hidem := eval_idempotent_int fp x rt ft
  have hli := eval_left_identity_int fp y rt ft
  have hri := eval_right_identity_int fp x rt ft
  have hz := eval_absorbing_zero fp
  have ho := eval_absorbing_ones fp
  have hsh := eval_absorbing_shift fp y rt ft
  have hz1 := fun a => hz a rt ft OP_AND (by simp)
  have hz2 := fun a => hz a rt ft OP_MUL24 (by simp)
  have hz3 := fun a => hz a rt ft OP_V8MULD (by simp)
  have hz4 := fun a => hz a rt ft OP_V8MIN (by simp)
  have ho1 := fun a => ho a rt ft OP_OR (by simp)
  have ho2 := fun a => ho a rt ft OP_V8MAX (by simp)
  refine ⟨?_, rfl, rfl, rfl, rfl, by decide, rfl⟩
  intro code hcode
  simp only [List.mem_cons, List.mem_singleton, List.not_mem_nil, or_false] at hcode
  refine ⟨?_, ?_, ?_, ?_, ?_⟩
  · intro hi
    have hmem : code ∈ [OP_AND, OP_OR, OP_MIN, OP_MAX, OP_V8MIN, OP_V8MAX] := by
      revert hi
      rcases hcode with e | e | e | e | e | e | e | e | e | e | e | e | e | e <;> subst e <;>
        decide
    exact hidem code hmem
  · intro hne h
    have hx := Value.literal_of_beqOpt _ _ _ h
    rcases hcode with e | e | e | e | e | e | e | e | e | e | e | e | e | e
    · subst e; cases hx; exact hli.1
    · subst e; cases hx
    · subst e; cases hx; exact hli.2.2.2
    · subst e; cases hx; exact hli.2.1
    · subst e; cases hx; exact hli.2.2.1
    · subst e; cases hx
    · subst e; cases hx
    · subst e; cases hx
    · subst e; cases hx; exact absurd rfl hne
    · subst e; cases hx
    · subst e; cases hx
    · subst e; cases hx
    · subst e; cases hx
    · subst e; cases hx
  · intro hne h
    have hx := Value.literal_of_beqOpt _ _ _ h
    rcases hcode with e | e | e | e | e | e | e | e | e | e | e | e | e | e
    · subst e; cases hx; exact hri.1
    · subst e; cases hx; exact hri.2.1
    · subst e; cases hx; exact hri.2.2.2.2.1
    · subst e; cases hx; exact hri.2.2.1
    · subst e; cases hx; exact hri.2.2.2.1
    · subst e; cases hx; exact hri.2.2.2.2.2.1
    · subst e; cases hx; exact hri.2.2.2.2.2.2.1
    · subst e; cases hx; exact hri.2.2.2.2.2.2.2
    · subst e; cases hx; exact absurd rfl hne
    · subst e; cases hx
    · subst e; cases hx
    · subst e; cases hx
    · subst e; cases hx
    · subst e; cases hx
  · intro h
    have hx := Value.literal_of_beqOpt _ _ _ h
    rcases hcode with e | e | e | e | e | e | e | e | e | e | e | e | e | e
    · subst e; cases hx
    · subst e; cases hx
    · subst e; cases hx; exact (hz1 y).1
    · subst e; cases hx; exact (ho1 y).1
    · subst e; cases hx
    · subst e; cases hx; exact hsh.1
    · subst e; cases hx; exact hsh.2.1
    · subst e; cases hx; exact hsh.2.2
    · subst e; cases hx; exact (hz2 y).1
    · subst e; cases hx
    · subst e; cases hx
    · subst e; cases hx; exact (hz4 y).1
    · subst e; cases hx; exact (ho2 y).1
    · subst e; cases hx; exact (hz3 y).1
  · intro h
    have hx := Value.literal_of_beqOpt _ _ _ h
    rcases hcode with e | e | e | e | e | e | e | e | e | e | e | e | e | e
    · subst e; cases hx
    · subst e; cases hx
    · subst e; cases hx; exact (hz1 x).2
    · subst e; cases hx; exact (ho1 x).2
    · subst e; cases hx
    · subst e; cases hx
    · subst e; cases hx
    · subst e; cases hx
    · subst e; cases hx; exact (hz2 x).2
    · subst e; cases hx
    · subst e; cases hx
    · subst e; cases hx; exact (hz4 x).2
    · subst e; cases hx; exact (ho2 x).2
    · subst e; cases hx; exact (hz3 x).2

/-! ## Conditions and their inversions -/

theorem Except.error_iff_of_isOk {ε α β : Type} (a : Except ε α) (b : Except ε β)
    (h : a.isOk = b.isOk) : (∃ e, a = .error e) ↔ (∃ e, b = .error e) := by
  cases a <;> cases b <;> simp [Except.isOk, Except.toBool] at h ⊢

/-- C36: for each of the eight condition codes `c` and all flags,
`matchesCondition(c)` raises an error iff `matchesCondition(c.invert())` raises
one, whenever `matchesCondition(c)` returns, `matchesCondition(c.invert())`
returns its negation, and `matchesCondition(c)` raises an error exactly when the
flag tested by `c` is undefined, so it returns whenever that flag is SET or
CLEAR or `c` tests no flag. -/
theorem matchesCondition_invert (f : ElementFlags) :
    ∀ c ∈ conditionCodes, ∃ ci, c.invert = .ok ci ∧
      ((∃ e, f.matchesCondition c = .error e) ↔ (∃ e, f.matchesCondition ci = .error e)) ∧
      (∀ b, f.matchesCondition c = .ok b → f.matchesCondition ci = .ok (!b)) ∧
      ((∃ e, f.matchesCondition c = .error e) ↔
        ((c = COND_ZERO_SET ∨ c = COND_ZERO_CLEAR) ∧ f.zero = FlagStatus.UNDEFINED) ∨
        ((c = COND_NEGATIVE_SET ∨ c = COND_NEGATIVE_CLEAR) ∧
          f.negative = FlagStatus.UNDEFINED) ∨
        ((c = COND_CARRY_SET ∨ c = COND_CARRY_CLEAR) ∧ f.carry = FlagStatus.UNDEFINED)) := by
  intro c hc
  simp only [conditionCodes, List.mem_cons, List.mem_singleton, List.not_mem_nil, or_false] at hc
  obtain ⟨z, n, cy, o⟩ := f
  rcases hc with e | e | e | e | e | e | e | e <;> subst e <;>
    refine ⟨_, rfl, ?_, ?_, ?_⟩
  all_goals first
    | (cases z <;> cases n <;> cases cy <;> exact Except.error_iff_of_isOk _ _ rfl)
    | (cases z <;> cases n <;> cases cy <;> intro b h <;> cases h <;> rfl)
    | (dsimp only
       cases z <;> cases n <;> cases cy <;> constructor <;> intro h <;>
         first
           | decide
           | exact ⟨_, rfl⟩
           | (exfalso; revert h; decide)
           | (obtain ⟨e, he⟩ := h; cases he))

theorem matchesCondition_invert_witness :
    COND_ZERO_SET ∈ conditionCodes ∧
    ∃ ci, COND_ZERO_SET.invert = .ok ci ∧
      ∀ b, ElementFlags.matchesCondition
          ⟨FlagStatus.SET, FlagStatus.CLEAR, FlagStatus.CLEAR, FlagStatus.CLEAR⟩ COND_ZERO_SET =
            .ok b →
        ElementFlags.matchesCondition
          ⟨FlagStatus.SET, FlagStatus.CLEAR, FlagStatus.CLEAR, FlagStatus.CLEAR⟩ ci = .ok (!b) :=
  ⟨by decide,
    (matchesCondition_invert
      ⟨FlagStatus.SET, FlagStatus.CLEAR, FlagStatus.CLEAR, FlagStatus.CLEAR⟩
      COND_ZERO_SET (by decide)).imp (fun _ h => ⟨h.1, h.2.2.1⟩)⟩

/-! ## The idempotent collapse of a unary opcode is unreachable -/

theorem arrayAt_no_null {α : Type} (elements : List α) (i : Nat) :
    arrayAt elements i ≠ .error StdException.null_dereference := by
  unfold arrayAt
  cases elements[i]? <;> simp

theorem OpCode.firstLane_no_null (a : Value) (fc : Option (List Value)) (i : Nat) :
    OpCode.firstLane a fc i ≠ .error StdException.null_dereference := by
  unfold OpCode.firstLane
  cases fc with
  | none => simp
  | some es => exact arrayAt_no_null es i

theorem OpCode.secondLane_no_null (n : Nat) (sv : Option Value) (sc : Option (List Value))
    (i : Nat) : OpCode.secondLane n sv sc i ≠ .error StdException.null_dereference := by
  unfold OpCode.secondLane
  split
  · simp
  · cases sc with
    | none => cases sv <;> simp
    | some es =>
      have := arrayAt_no_null es i
      dsimp only
      cases h : arrayAt es i with
      | error e => rw [h] at this; simpa using this
      | ok v => simp

theorem OpCode.operandLiteral_no_null (v : Value) (c : Option (List Value)) :
    OpCode.operandLiteral v c ≠ .error StdException.null_dereference := by
  unfold OpCode.operandLiteral
  cases v.getLiteralValue with
  | some l => simp
  | none =>
    have := arrayAt_no_null (c.getD []) 0
    dsimp only
    cases h : arrayAt (c.getD []) 0 with
    | error e => rw [h] at this; simpa using this
    | ok el =>
      dsimp only
      cases el.getLiteralValue <;> simp

theorem OpCode.secondLit_no_null (code : OpCode) (sv : Option Value) (sc : Option (List Value)) :
    OpCode.secondLit code sv sc ≠ .error StdException.null_dereference := by
  unfold OpCode.secondLit
  cases sv with
  | none => simp
  | some s =>
    dsimp only
    split
    · simp
    · exact OpCode.operandLiteral_no_null s sc

theorem OpCode.applyLanes_no_null
    (self : Value → Option Value → Except StdException PrecalculatedValue)
    (hself : ∀ x y, self x y ≠ .error StdException.null_dereference)
    (n : Nat) (a : Value) (fc : Option (List Value)) (sv : Option Value)
    (sc : Option (List Value)) :
    ∀ (todo i : Nat) (res : List Value) (flags : VectorFlags),
      OpCode.applyLanes self n a fc sv sc todo i res flags ≠
        .error StdException.null_dereference := by
  intro todo
  induction todo with
  | zero => intro i res flags; simp [OpCode.applyLanes]
  | succ todo ih =>
    intro i res flags
    simp only [OpCode.applyLanes]
    have h1 := OpCode.firstLane_no_null a fc i
    cases hf : OpCode.firstLane a fc i with
    | error e => rw [hf] at h1; simpa using h1
    | ok first =>
      have h2 := OpCode.secondLane_no_null n sv sc i
      dsimp only
      cases hs : OpCode.secondLane n sv sc i with
      | error e => rw [hs] at h2; simpa using h2
      | ok second =>
        have h3 := hself first second
        dsimp only
        cases ht : self first second with
        | error e => rw [ht] at h3; simpa using h3
        | ok tmp =>
          dsimp only
          cases hv : tmp.1 with
          | none => simp
          | some v => exact ih _ _ _

theorem Except.ok_ne_null {α : Type} (x : α) :
    (Except.ok x : Except StdException α) ≠ .error StdException.null_dereference := by
  intro h; cases h

theorem OpCode.applyStep_no_null (fp : FloatArith)
    (self : Value → Option Value → Except StdException PrecalculatedValue)
    (hself : ∀ x y, self x y ≠ .error StdException.null_dereference)
    (code : OpCode) (a : Value) (b : Option Value) :
    OpCode.applyStep fp self code a b ≠ .error StdException.null_dereference := by
  unfold OpCode.applyStep
  dsimp only
  repeat' first
    | exact Except.ok_ne_null _
    | refine ite_intro (fun r => r ≠ Except.error StdException.null_dereference) _ _ _ ?_ ?_
  · have h := OpCode.applyLanes_no_null self hself code.numOperands a a.checkContainer
      (OpCode.secondVal b) ((OpCode.secondVal b).bind Value.checkContainer)
      (OpCode.numElements a.checkContainer (OpCode.secondVal b)
        ((OpCode.secondVal b).bind Value.checkContainer)) 0 [] VectorFlags.empty
    revert h
    cases OpCode.applyLanes self code.numOperands a a.checkContainer
      (OpCode.secondVal b) ((OpCode.secondVal b).bind Value.checkContainer)
      (OpCode.numElements a.checkContainer (OpCode.secondVal b)
        ((OpCode.secondVal b).bind Value.checkContainer)) 0 [] VectorFlags.empty with
    | error e => intro h; simpa using h
    | ok r =>
      intro _
      cases r with
      | none => exact Except.ok_ne_null _
      | some p => exact Except.ok_ne_null _
  · have h1 := OpCode.operandLiteral_no_null a a.checkContainer
    revert h1
    cases OpCode.operandLiteral a a.checkContainer with
    | error e => intro h; simpa using h
    | ok firstLit =>
      intro _
      have h2 := OpCode.secondLit_no_null code (OpCode.secondVal b)
        ((OpCode.secondVal b).bind Value.checkContainer)
      revert h2
      dsimp only
      cases OpCode.secondLit code (OpCode.secondVal b)
        ((OpCode.secondVal b).bind Value.checkContainer) with
      | error e => intro h; simpa using h
      | ok secondLit => intro _; exact Except.ok_ne_null _

theorem OpCode.applyFuel_no_null (fp : FloatArith) (code : OpCode) :
    ∀ (fuel : Nat) (a : Value) (b : Option Value),
      OpCode.applyFuel fp code fuel a b ≠ .error StdException.null_dereference
  | 0, _, _ => Except.ok_ne_null _
  | fuel + 1, a, b =>
    OpCode.applyStep_no_null fp _ (OpCode.applyFuel_no_null fp code fuel) code a b

theorem Expression.argConstant_no_null (fp : FloatArith) (arg : Option Value)
    (expr : Option Expression) :
    Expression.argConstant fp arg expr ≠ .error StdException.null_dereference := by
  unfold Expression.argConstant
  split
  · exact Except.ok_ne_null _
  · cases expr with
    | none => exact Except.ok_ne_null _
    | some bound =>
      dsimp only
      unfold Expression.getConstantExpression
      have h := OpCode.applyFuel_no_null fp bound.code
        (bound.arg0.depth + Value.depthOpt bound.arg1 + 1) bound.arg0 bound.arg1
      revert h
      unfold OpCode.apply
      cases OpCode.applyFuel fp bound.code (bound.arg0.depth + Value.depthOpt bound.arg1 + 1)
        bound.arg0 bound.arg1 with
      | error e => intro h; simpa using h
      | ok r => intro _; exact Except.ok_ne_null _

theorem Expression.combineBinary_no_null (e : Expression) :
    Expression.combineBinary e ≠ .error StdException.null_dereference := by
  unfold Expression.combineBinary
  cases e.arg1 with
  | none =>
    dsimp only
    repeat' first
      | exact Except.ok_ne_null _
      | (intro h; cases h)
      | refine ite_intro (fun r => r ≠ Except.error StdException.null_dereference) _ _ _ ?_ ?_
  | some a1 =>
    dsimp only
    repeat' first
      | exact Except.ok_ne_null _
      | refine ite_intro (fun r => r ≠ Except.error StdException.null_dereference) _ _ _ ?_ ?_

theorem Expression.fuse_no_null (fp : FloatArith) (e : Expression) (bound : Option Expression)
    (other : Option Value) :
    Expression.fuse fp e bound other ≠ .error StdException.null_dereference := by
  intro h
  unfold Expression.fuse at h
  cases bound with
  | none => cases h
  | some eb =>
    cases other with
    | none =>
      dsimp only at h
      repeat' first
        | cases h
        | split at h
    | some a =>
      dsimp only at h
      repeat' first
        | cases h
        | split at h

theorem Expression.combineUnary_no_null (e : Expression) (hc : e.code ∈ opCodes)
    (expr0 expr1 : Option Expression) :
    Expression.combineUnary e expr0 expr1 ≠ .error StdException.null_dereference := by
  have hidem : e.code.numOperands = 1 → e.code.isIdempotent = false := by
    generalize e.code = c at hc
    revert c
    decide
  unfold Expression.combineUnary
  cases expr0 with
  | none => exact Except.ok_ne_null _
  | some e0 =>
    dsimp only
    by_cases h1 : e.code.numOperands = 1
    · rw [if_pos h1, hidem h1]
      simp only [Bool.false_and, Bool.false_eq_true, if_false]
      split
      · exact Except.ok_ne_null _
      · exact Except.ok_ne_null _
    · rw [if_neg h1]
      exact Except.ok_ne_null _

theorem Expression.combineWith_no_null_of_unary (fp : FloatArith) (e : Expression)
    (inputs : Nat → Option Expression)
    (hu : ∀ expr0 expr1,
      Expression.combineUnary e expr0 expr1 ≠ .error StdException.null_dereference) :
    Expression.combineWith fp e inputs ≠ .error StdException.null_dereference := by
  unfold Expression.combineWith
  dsimp only
  refine ite_intro (fun r => r ≠ Except.error StdException.null_dereference) _ _ _ ?_ ?_
  · exact Except.ok_ne_null _
  refine ite_intro (fun r => r ≠ Except.error StdException.null_dereference) _ _ _ ?_ ?_
  · exact Except.ok_ne_null _
  have h := hu (e.arg0.checkLocal.bind inputs) ((e.arg1.bind Value.checkLocal).bind inputs)
  revert h
  cases Expression.combineUnary e (e.arg0.checkLocal.bind inputs)
    ((e.arg1.bind Value.checkLocal).bind inputs) with
  | error err => intro h; simpa using h
  | ok r =>
    intro _
    cases r with
    | some r => exact Except.ok_ne_null _
    | none =>
      dsimp only
      have h0 := Expression.argConstant_no_null fp (some e.arg0) (e.arg0.checkLocal.bind inputs)
      revert h0
      cases Expression.argConstant fp (some e.arg0) (e.arg0.checkLocal.bind inputs) with
      | error err => intro h; simpa using h
      | ok c0 =>
        intro _
        dsimp only
        have h1 := Expression.argConstant_no_null fp e.arg1
          ((e.arg1.bind Value.checkLocal).bind inputs)
        revert h1
        cases Expression.argConstant fp e.arg1 ((e.arg1.bind Value.checkLocal).bind inputs) with
        | error err => intro h; simpa using h
        | ok c1 =>
          intro _
          dsimp only
          refine ite_intro (fun r => r ≠ Except.error StdException.null_dereference) _ _ _ ?_ ?_
          swap
          · exact Except.ok_ne_null _
          have hb := Expression.combineBinary_no_null e
          revert hb
          cases Expression.combineBinary e with
          | error err => intro h; simpa using h
          | ok r =>
            intro _
            cases r with
            | some r => exact Except.ok_ne_null _
            | none =>
              dsimp only
              have hf0 := Expression.fuse_no_null fp e (e.arg0.checkLocal.bind inputs) e.arg1
              revert hf0
              cases Expression.fuse fp e (e.arg0.checkLocal.bind inputs) e.arg1 with
              | error err => intro h; simpa using h
              | ok r =>
                intro _
                cases r with
                | some r => exact Except.ok_ne_null _
                | none =>
                  dsimp only
                  have hf1 := Expression.fuse_no_null fp e
                    ((e.arg1.bind Value.checkLocal).bind inputs) (some e.arg0)
                  revert hf1
                  cases Expression.fuse fp e ((e.arg1.bind Value.checkLocal).bind inputs)
                    (some e.arg0) with
                  | error err => intro h; simpa using h
                  | ok r =>
                    intro _
                    cases r with
                    | some r => exact Except.ok_ne_null _
                    | none => exact Except.ok_ne_null _

/-- C37: the catalog opcodes with exactly one operand are NOT, CLZ, FTOI and
ITOF, and none of them satisfies `isIdempotent()`; so for an expression over a
catalog opcode the unary block of `combineWith` never takes the idempotent
collapse with its read of `expr1->arg1`, whatever the two substitutions are, and
`combineWith` never dereferences a missing substitution, for every input map. -/
theorem combineWith_no_null_dereference (fp : FloatArith) (e : Expression)
    (inputs : Nat → Option Expression) (hc : e.code ∈ opCodes) :
    (∀ c ∈ opCodes, c.numOperands = 1 ↔
      (c = OP_NOT ∨ c = OP_CLZ ∨ c = OP_FTOI ∨ c = OP_ITOF)) ∧
    (∀ c ∈ opCodes, c.numOperands = 1 → c.isIdempotent = false) ∧
    (∀ expr0 expr1, Expression.combineUnary e expr0 expr1 ≠
      .error StdException.null_dereference) ∧
    Expression.combineWith fp e inputs ≠ .error StdException.null_dereference :=
  ⟨by decide, by decide, Expression.combineUnary_no_null e hc,
    Expression.combineWith_no_null_of_unary fp e inputs (Expression.combineUnary_no_null e hc)⟩

theorem combineWith_no_null_dereference_witness :
    OP_NOT ∈ opCodes ∧
    Expression.combineUnary ⟨OP_NOT, Value.localRef 0 TYPE_INT32, none, UNPACK_NOP, PACK_NOP, 0⟩
        (some ⟨OP_NOT, Value.localRef 1 TYPE_INT32, none, UNPACK_NOP, PACK_NOP, 0⟩) none ≠
      .error StdException.null_dereference ∧
    Expression.combineWith FloatArith.inert
        ⟨OP_NOT, Value.localRef 0 TYPE_INT32, none, UNPACK_NOP, PACK_NOP, 0⟩
        (fun n => if n = 0 then
          some ⟨OP_NOT, Value.localRef 1 TYPE_INT32, none, UNPACK_NOP, PACK_NOP, 0⟩ else none) ≠
      .error StdException.null_dereference :=
  ⟨by decide,
    (combineWith_no_null_dereference FloatArith.inert
      ⟨OP_NOT, Value.localRef 0 TYPE_INT32, none, UNPACK_NOP, PACK_NOP, 0⟩
      (fun n => if n = 0 then
          some ⟨OP_NOT, Value.localRef 1 TYPE_INT32, none, UNPACK_NOP, PACK_NOP, 0⟩ else none)
      (by decide)).2.2.1 _ _,
    (combineWith_no_null_dereference FloatArith.inert
      ⟨OP_NOT, Value.localRef 0 TYPE_INT32, none, UNPACK_NOP, PACK_NOP, 0⟩
      (fun n => if n = 0 then
          some ⟨OP_NOT, Value.localRef 1 TYPE_INT32, none, UNPACK_NOP, PACK_NOP, 0⟩ else none)
      (by decide)).2.2.2⟩

end vc4c
